import Mathlib

/-!
# imu_autopilot: communication core (`src/system/communication.c`)

A shallow embedding of the message dispatcher, the parameter protocol, the
setpoint / flight-phase logic and the receive poll of `communication.c`,
followed by theorems about them.

Conventions of the embedding

* C `float` values are `CFloat`: a finite rational, the two infinities, or
  NaN.  Comparisons follow C (every ordered comparison with NaN is false,
  `!=` with NaN is true).  Arithmetic is exact on the finite values: rounding
  to 32 bits is not modelled, and a decimal literal of the source stands for
  the value it denotes.
* `uint8_t` and the other unsigned fields are `Nat`.
* `global_data.param` and `global_data.param_name` are lists; an index
  outside the list reads a default and a write outside the list is dropped.
* Headers that are not part of the sources (the MAVLink codec, `params.h`,
  `sys_state.h`, ...) enter as the records `Conf` (constants) and `Collab`
  (functions of the external collaborators).
-/

namespace ImuAutopilot

/-! ## C floats -/

/-- A value of the C type `float`. -/
inductive CFloat where
  | fin (q : ℚ)
  | pinf
  | ninf
  | nan
  deriving DecidableEq

namespace CFloat

/-- Conversion of an unsigned integer to `float`. -/
def ofNat (n : Nat) : CFloat := fin (n : ℚ)

/-- C `isnan`. -/
def isnan : CFloat → Bool
  | nan => true
  | _ => false

/-- C `isinf`. -/
def isinf : CFloat → Bool
  | pinf => true
  | ninf => true
  | _ => false

/-- C `a == b` on floats. -/
def feq : CFloat → CFloat → Bool
  | fin a, fin b => decide (a = b)
  | pinf, pinf => true
  | ninf, ninf => true
  | _, _ => false

/-- C `a != b` on floats. -/
def fne (a b : CFloat) : Bool := !(feq a b)

/-- C `a < b` on floats. -/
def flt : CFloat → CFloat → Bool
  | nan, _ => false
  | _, nan => false
  | fin a, fin b => decide (a < b)
  | ninf, ninf => false
  | ninf, _ => true
  | _, ninf => false
  | pinf, _ => false
  | _, pinf => true

/-- C `a <= b` on floats. -/
def fle : CFloat → CFloat → Bool
  | nan, _ => false
  | _, nan => false
  | fin a, fin b => decide (a ≤ b)
  | ninf, _ => true
  | _, pinf => true
  | _, ninf => false
  | pinf, _ => false

/-- C `a > b` on floats. -/
def fgt (a b : CFloat) : Bool := flt b a

/-- C `a >= b` on floats. -/
def fge (a b : CFloat) : Bool := fle b a

/-- Unary minus. -/
def fneg : CFloat → CFloat
  | fin a => fin (-a)
  | pinf => ninf
  | ninf => pinf
  | nan => nan

/-- C `a + b` on floats (exact on finite values). -/
def fadd : CFloat → CFloat → CFloat
  | nan, _ => nan
  | _, nan => nan
  | fin a, fin b => fin (a + b)
  | pinf, ninf => nan
  | ninf, pinf => nan
  | pinf, _ => pinf
  | ninf, _ => ninf
  | _, pinf => pinf
  | _, ninf => ninf

/-- C `a - b` on floats. -/
def fsub (a b : CFloat) : CFloat := fadd a (fneg b)

/-- Sign of a product with an infinite factor: `q` is the finite factor. -/
def infTimes (positive : Bool) (q : ℚ) : CFloat :=
  if q = 0 then nan
  else if (decide (0 < q)) = positive then pinf else ninf

/-- C `a * b` on floats (exact on finite values). -/
def fmul : CFloat → CFloat → CFloat
  | nan, _ => nan
  | _, nan => nan
  | fin a, fin b => fin (a * b)
  | pinf, fin b => infTimes true b
  | ninf, fin b => infTimes false b
  | fin a, pinf => infTimes true a
  | fin a, ninf => infTimes false a
  | pinf, pinf => pinf
  | ninf, ninf => pinf
  | pinf, ninf => ninf
  | ninf, pinf => ninf

/-- C `a / b` on floats (exact on finite values; a zero carries no sign, so
a finite non-zero value divided by zero is taken to be `+inf` or `-inf` by the
sign of the dividend). -/
def fdiv : CFloat → CFloat → CFloat
  | nan, _ => nan
  | _, nan => nan
  | fin a, fin b =>
      if b = 0 then (if a = 0 then nan else if 0 < a then pinf else ninf)
      else fin (a / b)
  | fin _, pinf => fin 0
  | fin _, ninf => fin 0
  | pinf, fin b => if 0 ≤ b then pinf else ninf
  | ninf, fin b => if 0 ≤ b then ninf else pinf
  | pinf, pinf => nan
  | pinf, ninf => nan
  | ninf, pinf => nan
  | ninf, ninf => nan

/-- The integer part of a float: truncation toward zero, as in a C cast to
an integer type.  C leaves the cast of a non-finite value undefined; the
embedding sends it to 0. -/
def trunc : CFloat → Int
  | fin q => if 0 ≤ q then Int.floor q else Int.ceil q
  | _ => 0

/-- The cast `(uint8_t) f`: truncation toward zero, reduced modulo 256.  C
leaves the cast undefined when the truncated value does not fit; the
embedding wraps. -/
def toU8 (f : CFloat) : Nat := Int.toNat (trunc f % 256)

end CFloat

/-! ## The inline parameter-name matcher -/

/-- The inner `for (j ...)` loop of the name matcher (lines 272-286 and
323-337).  `fuel` is the number of iterations left
(`ONBOARD_PARAM_NAME_LENGTH - j`), `m` is the flag `match`.  An iteration
first compares byte `j` of the stored name with byte `j` of the key, clearing
the flag on a difference, and then leaves the loop if the stored byte is the
terminator. -/
def match_loop (name key : List Nat) : Nat → Nat → Bool → Bool
  | 0, _, m => m
  | fuel + 1, j, m =>
      let m1 := if name.getD j 0 ≠ key.getD j 0 then false else m
      if name.getD j 0 = 0 then m1
      else match_loop name key fuel (j + 1) m1

/-- The value of `match` after the inner loop, for a stored name and a key:
`bool match = true; for (j = 0; j < ONBOARD_PARAM_NAME_LENGTH; j++) ...`. -/
def name_match (nameLength : Nat) (name key : List Nat) : Bool :=
  match_loop name key nameLength 0 true

/-! ## Enumerations and records of the headers -/

/-- Modelled from the spec: the two communication channels owned by the link
manager (the type `mavlink_channel_t` of the codec library is not part of
the sources).  `MAVLINK_COMM_0` is the spec's channel 1 (`uart0`),
`MAVLINK_COMM_1` is the spec's channel 2 (`uart1`). -/
inductive mavlink_channel_t where
  | MAVLINK_COMM_0
  | MAVLINK_COMM_1
  deriving DecidableEq

/-- Modelled from the spec: the overall vehicle status (`MAV_STATE_*` of the
codec library, not part of the sources). -/
inductive mav_state where
  | MAV_STATE_UNINIT
  | MAV_STATE_BOOT
  | MAV_STATE_CALIBRATING
  | MAV_STATE_STANDBY
  | MAV_STATE_ACTIVE
  | MAV_STATE_CRITICAL
  | MAV_STATE_EMERGENCY
  | MAV_STATE_POWEROFF
  deriving DecidableEq

/-- Modelled from the spec: the flight phase `global_data.state.fly`
(`sys_state.h` is not part of the sources).  `FLY_OTHER` stands for the
phases of the full enumeration that `communication.c` never names. -/
inductive fly_state where
  | FLY_GROUNDED
  | FLY_WAIT_MOTORS
  | FLY_RAMP_UP
  | FLY_SINKING
  | FLY_WAIT_LANDING
  | FLY_LANDING
  | FLY_RAMP_DOWN
  | FLY_OTHER (n : Nat)
  deriving DecidableEq

/-- Modelled from the spec: the run-time mode of a channel
(`UART_MODE_*`, not part of the sources). -/
inductive uart_mode where
  | UART_MODE_MAVLINK
  | UART_MODE_GPS
  | UART_MODE_BYTE_FORWARD
  deriving DecidableEq

/-- Modelled from the spec: the message type identifiers the core names
(`MAVLINK_MSG_ID_*` of the codec library); `OTHER` is any further
identifier. -/
inductive msgid_t where
  | MAVLINK_MSG_ID_HEARTBEAT
  | MAVLINK_MSG_ID_SYS_STATUS
  | MAVLINK_MSG_ID_SET_MODE
  | MAVLINK_MSG_ID_COMMAND_LONG
  | MAVLINK_MSG_ID_SYSTEM_TIME
  | MAVLINK_MSG_ID_REQUEST_DATA_STREAM
  | MAVLINK_MSG_ID_PARAM_REQUEST_READ
  | MAVLINK_MSG_ID_PARAM_REQUEST_LIST
  | MAVLINK_MSG_ID_PARAM_SET
  | MAVLINK_MSG_ID_PARAM_VALUE
  | MAVLINK_MSG_ID_SET_POSITION_CONTROL_OFFSET
  | MAVLINK_MSG_ID_SET_CAM_SHUTTER
  | MAVLINK_MSG_ID_IMAGE_TRIGGER_CONTROL
  | MAVLINK_MSG_ID_VISION_POSITION_ESTIMATE
  | MAVLINK_MSG_ID_GLOBAL_VISION_POSITION_ESTIMATE
  | MAVLINK_MSG_ID_VICON_POSITION_ESTIMATE
  | MAVLINK_MSG_ID_OPTICAL_FLOW
  | MAVLINK_MSG_ID_PING
  | MAVLINK_MSG_ID_SET_LOCAL_POSITION_SETPOINT
  | OTHER (id : Nat)
  deriving DecidableEq

/-- Modelled from the spec: the command identifiers of `execute_command`
(`MAV_CMD_*` of the codec library); `OTHER` is any further command. -/
inductive mav_cmd where
  | MAV_CMD_PREFLIGHT_STORAGE
  | MAV_CMD_PREFLIGHT_CALIBRATION
  | OTHER (id : Nat)
  deriving DecidableEq

/-- A decoded wire message as the dispatcher sees it: type, sender and the
undecoded payload bytes. -/
structure mavlink_message_t where
  msgid : msgid_t
  sysid : Nat
  compid : Nat
  payload : List Nat
  deriving DecidableEq

/-- The codec's receive status that `communication_receive` reads. -/
structure mavlink_status_t where
  packet_rx_drop_count : Nat
  packet_rx_success_count : Nat
  deriving DecidableEq

/-- Three floats (`float_vect3`). -/
structure float_vect3 where
  x : CFloat
  y : CFloat
  z : CFloat
  deriving DecidableEq

structure mavlink_set_mode_t where
  target_system : Nat
  base_mode : Nat

structure mavlink_command_long_t where
  command : mav_cmd
  param1 : CFloat

structure mavlink_request_data_stream_t where
  req_stream_id : Nat
  start_stop : Nat

structure mavlink_param_request_read_t where
  target_system : Nat
  target_component : Nat
  param_id : List Nat
  param_index : Int

structure mavlink_param_set_t where
  target_system : Nat
  target_component : Nat
  param_id : List Nat
  param_value : CFloat

structure mavlink_set_position_control_offset_t where
  yaw : CFloat

structure mavlink_set_cam_shutter_t where
  interval : Nat
  exposure : Nat

/-- The fields shared by the vision, global-vision and vicon position
estimates. -/
structure mavlink_position_estimate_t where
  usec : Nat
  x : CFloat
  y : CFloat
  z : CFloat
  roll : CFloat
  pitch : CFloat
  yaw : CFloat

structure mavlink_optical_flow_t where
  flow_comp_m_x : CFloat
  flow_comp_m_y : CFloat
  quality : Nat
  ground_distance : CFloat

structure mavlink_ping_t where
  seq : Nat
  target_system : Nat
  target_component : Nat

structure mavlink_set_local_position_setpoint_t where
  target_system : Nat
  x : CFloat
  y : CFloat
  z : CFloat
  yaw : CFloat

/-- A message handed to one of the codec's `mavlink_msg_*_send` functions. -/
inductive out_msg where
  | heartbeat (type : CFloat) (base_mode custom_mode : Nat) (status : mav_state)
  | sys_status (present enabled health load voltage : Nat) (drop_rate : Option Nat)
      (err1 err2 err3 err4 : Nat)
  | param_value (name : List Nat) (value : CFloat) (count : Nat) (index : Int)
  | debug (ind : Nat) (value : CFloat)
  | vicon_position_estimate (usec : Int) (x y z roll pitch yaw : CFloat)
  | ping (seq target_system target_component : Nat) (time : Int)
  deriving DecidableEq

/-- What a channel's transmit path receives: a raw byte written with
`uartN_transmit`, or a message given to the codec for sending on it. -/
inductive tx_item where
  | byte (c : Nat)
  | msg (m : out_msg)
  deriving DecidableEq

/-- An entry of the debug message buffer (`debug_message_buffer`). -/
inductive debug_entry where
  | text (t : String)
  | chars (cs : List Nat)
  deriving DecidableEq

/-! ## Constants, collaborators and state -/

/-- Constants of headers that are not part of the sources (`params.h`,
`conf.h`, the codec library).  The `PARAM_*` fields are indices into
`global_data.param`. -/
structure Conf where
  ONBOARD_PARAM_COUNT : Nat
  ONBOARD_PARAM_NAME_LENGTH : Nat
  MAVLINK_MSG_STATUSTEXT_FIELD_TEXT_LEN : Nat
  MAV_MODE_FLAG_SAFETY_ARMED : Nat
  POSITION_ESTIMATION_MODE_OPTICAL_FLOW_ULTRASONIC_ADD_VICON_AS_OFFSET : Nat
  COUNTER_BITS : Nat
  PARAM_SYSTEM_ID : Nat
  PARAM_COMPONENT_ID : Nat
  PARAM_SYSTEM_TYPE : Nat
  PARAM_GPS_MODE : Nat
  PARAM_SEND_DEBUGCHAN : Nat
  PARAM_SEND_SLOT_RAW_IMU : Nat
  PARAM_SEND_SLOT_ATTITUDE : Nat
  PARAM_SEND_SLOT_REMOTE_CONTROL : Nat
  PARAM_SEND_SLOT_CONTROLLER_OUTPUT : Nat
  PARAM_SEND_SLOT_DEBUG_2 : Nat
  PARAM_SEND_SLOT_DEBUG_4 : Nat
  PARAM_SEND_SLOT_DEBUG_5 : Nat
  PARAM_SEND_SLOT_DEBUG_6 : Nat
  PARAM_POSITIONSETPOINT_ACCEPT : Nat
  PARAM_POSITION_YAW_TRACKING : Nat
  PARAM_POSITION_SETPOINT_X : Nat
  PARAM_POSITION_SETPOINT_Y : Nat
  PARAM_POSITION_SETPOINT_Z : Nat
  PARAM_POSITION_SETPOINT_YAW : Nat

/-- The sub-record `global_data.state`. -/
structure system_state_t where
  mav_mode : Nat
  status : mav_state
  fly : fly_state
  uart0mode : uart_mode
  uart1mode : uart_mode
  gps_mode : Nat
  gps_ok : Nat
  vicon_new_data : Nat
  vicon_ok : Nat
  vicon_attitude_new_data : Nat
  vision_ok : Nat
  position_estimation_mode : Nat
  control_sensors_present_mask : Nat
  control_sensors_enabled_mask : Nat
  control_sensors_health_mask : Nat
  deriving DecidableEq

/-- The sub-record `global_data.comm`: packet counters of the two links. -/
structure comm_t where
  uart0_rx_drop_count : Nat
  uart0_rx_success_count : Nat
  uart1_rx_drop_count : Nat
  uart1_rx_success_count : Nat
  deriving DecidableEq

/-- The fields of the process-wide record `global_data` that
`communication.c` reads or writes. -/
structure global_data_t where
  param : List CFloat
  param_name : List (List Nat)
  state : system_state_t
  comm : comm_t
  cpu_usage : Nat
  battery_voltage : Nat
  i2c0_err_count : Nat
  i2c1_err_count : Nat
  spi_err_count : Nat
  vicon_data : float_vect3
  vicon_last_valid : Nat
  vicon_magnetometer_replacement : float_vect3
  vision_magnetometer_replacement : float_vect3
  position_setpoint_offset : float_vect3
  position : float_vect3
  attitude : float_vect3
  optflow : float_vect3
  ground_distance : CFloat
  flow_last_valid : Nat
  position_setpoint_min : float_vect3
  position_setpoint_max : float_vect3
  deriving DecidableEq

/-- What `mavlink_parse_char` returns for one byte: whether a message is
complete (and which), the status it reports, and the codec's new channel
state. -/
structure parse_result where
  msg : Option mavlink_message_t
  status : mavlink_status_t
  parser : List Nat

/-- Functions of the external collaborators: the codec (encode, parse,
decode), the mode and storage modules, calibration, shutter, the vision
buffer, the trigonometric tables and the GPS parser.  A collaborator acts
on `global_data`; what it may transmit itself is outside the embedding. -/
structure Collab where
  mavlink_msg_to_send_buffer : mavlink_message_t → List Nat
  mavlink_parse_char : mavlink_channel_t → Nat → List Nat → mavlink_status_t → parse_result
  set_mode_decode : mavlink_message_t → mavlink_set_mode_t
  command_long_decode : mavlink_message_t → mavlink_command_long_t
  system_time_get_time_unix_usec : mavlink_message_t → Nat
  request_data_stream_decode : mavlink_message_t → mavlink_request_data_stream_t
  param_request_read_decode : mavlink_message_t → mavlink_param_request_read_t
  param_set_decode : mavlink_message_t → mavlink_param_set_t
  set_position_control_offset_decode : mavlink_message_t → mavlink_set_position_control_offset_t
  set_cam_shutter_decode : mavlink_message_t → mavlink_set_cam_shutter_t
  image_trigger_control_get_enable : mavlink_message_t → Nat
  vision_position_estimate_decode : mavlink_message_t → mavlink_position_estimate_t
  global_vision_position_estimate_decode : mavlink_message_t → mavlink_position_estimate_t
  vicon_position_estimate_decode : mavlink_message_t → mavlink_position_estimate_t
  optical_flow_decode : mavlink_message_t → mavlink_optical_flow_t
  ping_decode : mavlink_message_t → mavlink_ping_t
  set_local_position_setpoint_decode : mavlink_message_t → mavlink_set_local_position_setpoint_t
  sys_set_mode : Nat → global_data_t → global_data_t
  param_read_all : global_data_t → global_data_t
  param_write_all : global_data_t → global_data_t
  start_gyro_calibration : global_data_t → global_data_t
  shutter_set : Nat → Nat → global_data_t → global_data_t
  shutter_control : Nat → global_data_t → global_data_t
  vision_buffer_handle_data : mavlink_position_estimate_t → global_data_t → global_data_t
  vision_buffer_handle_global_data : mavlink_position_estimate_t → global_data_t → global_data_t
  lookup_cos : CFloat → CFloat
  lookup_sin : CFloat → CFloat
  gps_parse : Nat → List Nat → Bool × List Nat
  parse_gps_msg : List Nat → List Nat
  gps_lat : List Nat → Int

/-- The state the functions of `communication.c` act on: `global_data`, the
file's statics (`m_parameter_i`, `gps_i`, `gps_chars`), the receive buffers
and transmit paths of the two UARTs, the debug message buffer, the codec's
per-channel parser state, the clock of `sys_time`, the GPS parser state and
the yellow LED. -/
structure comm_state where
  global_data : global_data_t
  m_parameter_i : Nat
  gps_i : Nat
  gps_chars : List Nat
  uart0_rx : List Nat
  uart1_rx : List Nat
  uart0_tx : List tx_item
  uart1_tx : List tx_item
  debug_log : List debug_entry
  parser0 : List Nat
  parser1 : List Nat
  unix_offset : Int
  time_usec : Nat
  loop_start_time : Nat
  gps : List Nat
  led_yellow : Bool

/-! ## Small operations -/

/-- The read `global_data.param[i]`. -/
def param_at (g : global_data_t) (i : Nat) : CFloat := g.param.getD i (CFloat.fin 0)

/-- The write `global_data.param[i] = v`. -/
def param_write (i : Nat) (v : CFloat) (g : global_data_t) : global_data_t :=
  { g with param := g.param.set i v }

/-- The read `global_data.param_name[i]`. -/
def param_name_at (g : global_data_t) (i : Nat) : List Nat := g.param_name.getD i []

/-- Apply a change of `global_data` inside the state. -/
def on_global (f : global_data_t → global_data_t) (s : comm_state) : comm_state :=
  { s with global_data := f s.global_data }

/-- The call `debug_message_buffer(text)`. -/
def debug_message_buffer (t : String) (s : comm_state) : comm_state :=
  { s with debug_log := s.debug_log ++ [debug_entry.text t] }

/-- The call `uart0_transmit(c)`. -/
def uart0_transmit (c : Nat) (s : comm_state) : comm_state :=
  { s with uart0_tx := s.uart0_tx ++ [tx_item.byte c] }

/-- The call `uart1_transmit(c)`. -/
def uart1_transmit (c : Nat) (s : comm_state) : comm_state :=
  { s with uart1_tx := s.uart1_tx ++ [tx_item.byte c] }

/-- A call `mavlink_msg_*_send(chan, ...)`: the message goes to the
transmit path of the channel's UART. -/
def mavlink_send (chan : mavlink_channel_t) (m : out_msg) (s : comm_state) : comm_state :=
  match chan with
  | mavlink_channel_t.MAVLINK_COMM_0 => { s with uart0_tx := s.uart0_tx ++ [tx_item.msg m] }
  | mavlink_channel_t.MAVLINK_COMM_1 => { s with uart1_tx := s.uart1_tx ++ [tx_item.msg m] }

/-- The channel a float parameter designates when it is passed as the
`chan` argument of a send function (an implicit conversion to the
enumeration); values other than 0 and 1 designate no channel of this
embedding. -/
def channel_of_float (f : CFloat) : Option mavlink_channel_t :=
  if CFloat.trunc f = 0 then some mavlink_channel_t.MAVLINK_COMM_0
  else if CFloat.trunc f = 1 then some mavlink_channel_t.MAVLINK_COMM_1
  else none

/-- The cast `(int64_t) n` of an unsigned 64-bit value. -/
def toI64 (n : Nat) : Int :=
  if n % 2 ^ 64 < 2 ^ 63 then ((n % 2 ^ 64 : Nat) : Int) else ((n % 2 ^ 64 : Nat) : Int) - 2 ^ 64

/-- Reduce an integer to the range of `int64_t` (two's complement wrap). -/
def wrapI64 (a : Int) : Int :=
  toI64 (Int.toNat (a % 2 ^ 64))

/-- Modelled from the spec: `sys_time_clock_get_unix_time()` of the absent
`sys_time` module, the local time adjusted by the stored UNIX offset. -/
def sys_time_clock_get_unix_time (s : comm_state) : Int :=
  (s.time_usec : Int) + s.unix_offset

/-- Modelled from the spec: `sys_time_clock_get_unix_loop_start_time()` of
the absent `sys_time` module, the loop start time adjusted by the stored
UNIX offset. -/
def sys_time_clock_get_unix_loop_start_time (s : comm_state) : Int :=
  (s.loop_start_time : Int) + s.unix_offset

/-- The double constant `M_PI` (its exact value). -/
def M_PI : ℚ := 884279719003555 / 281474976710656

/-! ## `communication_get_uart_drop_rate`, `send_system_state`, `execute_command` -/

/-- The function `communication_get_uart_drop_rate` (line 633), on counters
that are `COUNTER_BITS` wide and wrap.  `none` is the division by zero. -/
def communication_get_uart_drop_rate (cfg : Conf) (g : global_data_t) : Option Nat :=
  let w := 2 ^ cfg.COUNTER_BITS
  let n0 := (g.comm.uart0_rx_drop_count * 1000 + 1) % w
  let d0 := (g.comm.uart0_rx_success_count + 1) % w
  let n1 := (g.comm.uart1_rx_drop_count * 1000 + 1) % w
  let d1 := (g.comm.uart1_rx_success_count + 1) % w
  if d0 = 0 ∨ d1 = 0 then none
  else some ((n0 / d0 + n1 / d1) % w)

/-- The heartbeat that `send_system_state` sends. -/
def heartbeat_of (cfg : Conf) (g : global_data_t) : out_msg :=
  out_msg.heartbeat (param_at g cfg.PARAM_SYSTEM_TYPE) g.state.mav_mode g.state.mav_mode
    g.state.status

/-- The system status that `send_system_state` sends. -/
def sys_status_of (cfg : Conf) (g : global_data_t) : out_msg :=
  out_msg.sys_status g.state.control_sensors_present_mask g.state.control_sensors_enabled_mask
    g.state.control_sensors_health_mask g.cpu_usage g.battery_voltage
    (communication_get_uart_drop_rate cfg g) g.i2c0_err_count g.i2c1_err_count
    g.spi_err_count g.spi_err_count

/-- The function `send_system_state` (lines 58-76): heartbeat on
`MAVLINK_COMM_1` then `MAVLINK_COMM_0`, system status on `MAVLINK_COMM_0`
then `MAVLINK_COMM_1`. -/
def send_system_state (cfg : Conf) (s : comm_state) : comm_state :=
  let s1 := mavlink_send mavlink_channel_t.MAVLINK_COMM_1 (heartbeat_of cfg s.global_data) s
  let s2 := mavlink_send mavlink_channel_t.MAVLINK_COMM_0 (heartbeat_of cfg s1.global_data) s1
  let s3 := mavlink_send mavlink_channel_t.MAVLINK_COMM_0 (sys_status_of cfg s2.global_data) s2
  mavlink_send mavlink_channel_t.MAVLINK_COMM_1 (sys_status_of cfg s3.global_data) s3

/-- The function `execute_command` (lines 78-110). -/
def execute_command (col : Collab) (cmd : mavlink_command_long_t) (s : comm_state) :
    comm_state :=
  match cmd.command with
  | mav_cmd.MAV_CMD_PREFLIGHT_STORAGE =>
      let s1 :=
        if CFloat.feq cmd.param1 (CFloat.fin 0) then
          debug_message_buffer ("Started reading params from eeprom")
            (on_global col.param_read_all s)
        else s
      if CFloat.feq cmd.param1 (CFloat.fin 1) then
        on_global col.param_write_all
          (debug_message_buffer ("Started writing params to eeprom") s1)
      else s1
  | mav_cmd.MAV_CMD_PREFLIGHT_CALIBRATION =>
      if CFloat.feq cmd.param1 (CFloat.fin 1) then
        { on_global col.start_gyro_calibration s with m_parameter_i := 0 }
      else s
  | mav_cmd.OTHER id =>
      debug_message_buffer ("Rejected unknown command number: " ++ toString id) s

/-! ## The cross-link forwarding switch -/

/-- The loop `for (i = 0; i < len; i++) uart1_transmit(buf[i])` (lines
130-133). -/
def transmit_buffer1 (buf : List Nat) (s : comm_state) : comm_state :=
  buf.foldl (fun st c => uart1_transmit c st) s

/-- The loop `for (i = 0; i < len; i++) uart0_transmit(buf[i])` (lines
143-146). -/
def transmit_buffer0 (buf : List Nat) (s : comm_state) : comm_state :=
  buf.foldl (fun st c => uart0_transmit c st) s

/-- The condition of line 126: the message is copied from `MAVLINK_COMM_0`
to `MAVLINK_COMM_1`. -/
def forwarded_from_comm0 (id : msgid_t) : Bool :=
  decide (id ≠ msgid_t.MAVLINK_MSG_ID_VISION_POSITION_ESTIMATE) &&
  decide (id ≠ msgid_t.MAVLINK_MSG_ID_VICON_POSITION_ESTIMATE) &&
  decide (id ≠ msgid_t.MAVLINK_MSG_ID_IMAGE_TRIGGER_CONTROL) &&
  decide (id ≠ msgid_t.MAVLINK_MSG_ID_OPTICAL_FLOW)

/-- The condition of line 139: the message is copied from `MAVLINK_COMM_1`
to `MAVLINK_COMM_0`. -/
def forwarded_from_comm1 (id : msgid_t) : Bool :=
  decide (id ≠ msgid_t.MAVLINK_MSG_ID_VISION_POSITION_ESTIMATE) &&
  decide (id ≠ msgid_t.MAVLINK_MSG_ID_VICON_POSITION_ESTIMATE) &&
  decide (id ≠ msgid_t.MAVLINK_MSG_ID_IMAGE_TRIGGER_CONTROL)

/-- The first switch of `handle_mavlink_message` (lines 122-153), on the
channel the message arrived on. -/
def forward_message (col : Collab) (chan : mavlink_channel_t) (msg : mavlink_message_t)
    (s : comm_state) : comm_state :=
  match chan with
  | mavlink_channel_t.MAVLINK_COMM_0 =>
      if forwarded_from_comm0 msg.msgid then
        transmit_buffer1 (col.mavlink_msg_to_send_buffer msg) s
      else s
  | mavlink_channel_t.MAVLINK_COMM_1 =>
      if forwarded_from_comm1 msg.msgid then
        transmit_buffer0 (col.mavlink_msg_to_send_buffer msg) s
      else s

/-! ## The parameter protocol handlers -/

/-- The test "is this message for this system" of lines 249-252 and
313-316. -/
def for_this_system (cfg : Conf) (g : global_data_t) (target_system target_component : Nat) :
    Bool :=
  decide (target_system % 256 = CFloat.toU8 (param_at g cfg.PARAM_SYSTEM_ID)) &&
  decide (target_component % 256 = CFloat.toU8 (param_at g cfg.PARAM_COMPONENT_ID))

/-- The reads `param_name[idx]` and `param[idx]` with the signed index of a
read request. -/
def param_value_by_index (cfg : Conf) (g : global_data_t) (idx : Int) : out_msg :=
  out_msg.param_value
    (if 0 ≤ idx then param_name_at g idx.toNat else [])
    (if 0 ≤ idx then param_at g idx.toNat else CFloat.fin 0)
    cfg.ONBOARD_PARAM_COUNT idx

/-- The body of the loop over the table in the read-by-name branch (lines
271-295). -/
def param_request_read_body (cfg : Conf) (chan : mavlink_channel_t) (key : List Nat)
    (s : comm_state) (i : Nat) : comm_state :=
  if name_match cfg.ONBOARD_PARAM_NAME_LENGTH (param_name_at s.global_data i) key then
    mavlink_send chan
      (out_msg.param_value (param_name_at s.global_data i) (param_at s.global_data i)
        cfg.ONBOARD_PARAM_COUNT (s.m_parameter_i : Int)) s
  else s

/-- The case `MAVLINK_MSG_ID_PARAM_REQUEST_READ` (lines 243-300). -/
def handle_param_request_read (cfg : Conf) (chan : mavlink_channel_t)
    (set : mavlink_param_request_read_t) (s : comm_state) : comm_state :=
  if for_this_system cfg s.global_data set.target_system set.target_component then
    if set.param_id.getD 0 0 = 0 then
      if set.param_index < (cfg.ONBOARD_PARAM_COUNT : Int) then
        mavlink_send chan (param_value_by_index cfg s.global_data set.param_index) s
      else s
    else
      (List.range cfg.ONBOARD_PARAM_COUNT).foldl
        (param_request_read_body cfg chan set.param_id) s
  else s

/-- The body of the loop over the table in the param-set case (lines
322-360). -/
def param_set_body (cfg : Conf) (set : mavlink_param_set_t) (s : comm_state) (i : Nat) :
    comm_state :=
  if name_match cfg.ONBOARD_PARAM_NAME_LENGTH (param_name_at s.global_data i) set.param_id then
    if CFloat.fne (param_at s.global_data i) set.param_value
        && !(CFloat.isnan set.param_value) && !(CFloat.isinf set.param_value) then
      let s1 := on_global (param_write i set.param_value) s
      let s2 := mavlink_send mavlink_channel_t.MAVLINK_COMM_0
        (out_msg.param_value (param_name_at s1.global_data i) (param_at s1.global_data i)
          cfg.ONBOARD_PARAM_COUNT (s1.m_parameter_i : Int)) s1
      let s3 := mavlink_send mavlink_channel_t.MAVLINK_COMM_1
        (out_msg.param_value (param_name_at s2.global_data i) (param_at s2.global_data i)
          cfg.ONBOARD_PARAM_COUNT (s2.m_parameter_i : Int)) s2
      debug_message_buffer ("Parameter received param id=" ++ toString i) s3
    else s
  else s

/-- The case `MAVLINK_MSG_ID_PARAM_SET` (lines 307-364). -/
def handle_param_set (cfg : Conf) (set : mavlink_param_set_t) (s : comm_state) : comm_state :=
  if for_this_system cfg s.global_data set.target_system set.target_component then
    (List.range cfg.ONBOARD_PARAM_COUNT).foldl (param_set_body cfg set) s
  else s

/-! ## The remaining message handlers -/

/-- The case `MAVLINK_MSG_ID_SYSTEM_TIME` (lines 180-196). -/
def handle_system_time (time_unix_usec : Nat) (s : comm_state) : comm_state :=
  if s.unix_offset = 0 then
    debug_message_buffer ("UNIX offset updated")
      { s with unix_offset := wrapI64 (toI64 time_unix_usec - toI64 s.time_usec) }
  else s

/-- The inner switch of the case `MAVLINK_MSG_ID_REQUEST_DATA_STREAM`
(lines 202-240): the parameter index the stream id writes, if any. -/
def stream_slot (cfg : Conf) (req_stream_id : Nat) : Option Nat :=
  if req_stream_id = 1 then some cfg.PARAM_SEND_SLOT_RAW_IMU
  else if req_stream_id = 2 then some cfg.PARAM_SEND_SLOT_ATTITUDE
  else if req_stream_id = 3 then some cfg.PARAM_SEND_SLOT_REMOTE_CONTROL
  else if req_stream_id = 4 then some cfg.PARAM_SEND_SLOT_CONTROLLER_OUTPUT
  else if req_stream_id = 6 then some cfg.PARAM_SEND_SLOT_DEBUG_5
  else if req_stream_id = 10 then some cfg.PARAM_SEND_SLOT_DEBUG_2
  else if req_stream_id = 11 then some cfg.PARAM_SEND_SLOT_DEBUG_4
  else if req_stream_id = 12 then some cfg.PARAM_SEND_SLOT_DEBUG_6
  else none

/-- The case `MAVLINK_MSG_ID_REQUEST_DATA_STREAM` (lines 197-242). -/
def handle_request_data_stream (cfg : Conf) (stream : mavlink_request_data_stream_t)
    (s : comm_state) : comm_state :=
  let s1 := debug_message_buffer
    ("REQUEST_DATA_STREAM #" ++ toString stream.req_stream_id ++ " changed") s
  match stream_slot cfg stream.req_stream_id with
  | some slot => on_global (param_write slot (CFloat.ofNat stream.start_stop)) s1
  | none => s1

/-- The case `MAVLINK_MSG_ID_SET_POSITION_CONTROL_OFFSET` (lines 365-380). -/
def handle_set_position_control_offset (cfg : Conf)
    (set : mavlink_set_position_control_offset_t) (s : comm_state) : comm_state :=
  if CFloat.feq (param_at s.global_data cfg.PARAM_POSITIONSETPOINT_ACCEPT) (CFloat.fin 1)
      && CFloat.feq (param_at s.global_data cfg.PARAM_POSITION_YAW_TRACKING) (CFloat.fin 1) then
    let s1 := on_global (fun g => param_write cfg.PARAM_POSITION_SETPOINT_YAW
      (CFloat.fadd g.attitude.z set.yaw) g) s
    match channel_of_float (param_at s1.global_data cfg.PARAM_SEND_DEBUGCHAN) with
    | some c => mavlink_send c (out_msg.debug 92 set.yaw) s1
    | none => s1
  else s

/-- The case `MAVLINK_MSG_ID_IMAGE_TRIGGER_CONTROL` (lines 391-406). -/
def handle_image_trigger_control (col : Collab) (enable : Nat) (s : comm_state) : comm_state :=
  let s1 := on_global (col.shutter_control enable) s
  if enable ≠ 0 then debug_message_buffer ("CAM: Enabling hardware trigger") s1
  else debug_message_buffer ("CAM: Disabling hardware trigger") s1

/-- The writes of the vicon case to `global_data` (lines 431-474); `now` is
`sys_time_clock_get_time_usec()`. -/
def vicon_update (cfg : Conf) (col : Collab) (pos : mavlink_position_estimate_t) (now : Nat)
    (g : global_data_t) : global_data_t :=
  let g1 : global_data_t :=
    { g with
      vicon_data := { x := pos.x, y := pos.y, z := pos.z }
      vicon_last_valid := now
      state := { g.state with
        vicon_new_data := 1, vicon_ok := 1, vicon_attitude_new_data := 1 }
      vicon_magnetometer_replacement :=
        { x := CFloat.fmul (CFloat.fin 230) (col.lookup_cos pos.yaw)
          y := CFloat.fmul (CFloat.fin (-230)) (col.lookup_sin pos.yaw)
          z := CFloat.fin 480 } }
  let g2 : global_data_t :=
    if g1.state.vision_ok = 0 then
      { g1 with vision_magnetometer_replacement :=
          { x := CFloat.fmul (CFloat.fin 230) (col.lookup_cos pos.yaw)
            y := CFloat.fmul (CFloat.fin (-230)) (col.lookup_sin pos.yaw)
            z := CFloat.fin 0 } }
    else g1
  if g2.state.position_estimation_mode
      = cfg.POSITION_ESTIMATION_MODE_OPTICAL_FLOW_ULTRASONIC_ADD_VICON_AS_OFFSET then
    let ox := CFloat.fadd (CFloat.fmul g2.position_setpoint_offset.x (CFloat.fin (8 / 10)))
      (CFloat.fmul (CFloat.fin (2 / 10)) (CFloat.fsub g2.position.x g2.vicon_data.x))
    let g3 : global_data_t :=
      { g2 with position_setpoint_offset := { g2.position_setpoint_offset with x := ox } }
    let oy := CFloat.fadd (CFloat.fmul g3.position_setpoint_offset.y (CFloat.fin (8 / 10)))
      (CFloat.fmul (CFloat.fin (2 / 10)) (CFloat.fsub g3.position.y g3.vicon_data.y))
    let g4 : global_data_t :=
      { g3 with position_setpoint_offset := { g3.position_setpoint_offset with y := oy } }
    { g4 with position_setpoint_offset := { g4.position_setpoint_offset with z := CFloat.fin 0 } }
  else g2

/-- The case `MAVLINK_MSG_ID_VICON_POSITION_ESTIMATE` (lines 426-481). -/
def handle_vicon_position_estimate (cfg : Conf) (col : Collab) (chan : mavlink_channel_t)
    (pos : mavlink_position_estimate_t) (s : comm_state) : comm_state :=
  let s1 := on_global (vicon_update cfg col pos s.time_usec) s
  if chan ≠ mavlink_channel_t.MAVLINK_COMM_0 then
    mavlink_send mavlink_channel_t.MAVLINK_COMM_0
      (out_msg.vicon_position_estimate (sys_time_clock_get_unix_loop_start_time s1)
        pos.x pos.y pos.z pos.roll pos.pitch pos.yaw) s1
  else s1

/-- The case `MAVLINK_MSG_ID_OPTICAL_FLOW` (lines 482-512). -/
def handle_optical_flow (flow : mavlink_optical_flow_t) (s : comm_state) : comm_state :=
  let s1 := on_global (fun g =>
    { g with
      optflow := { x := CFloat.fneg flow.flow_comp_m_y, y := flow.flow_comp_m_x,
                   z := CFloat.ofNat flow.quality }
      ground_distance := flow.ground_distance }) s
  if CFloat.fgt s1.global_data.optflow.z (CFloat.fin 20) then
    on_global (fun g => { g with flow_last_valid := s1.time_usec }) s1
  else s1

/-- The case `MAVLINK_MSG_ID_PING` (lines 513-524). -/
def handle_ping (chan : mavlink_channel_t) (msg : mavlink_message_t) (ping : mavlink_ping_t)
    (s : comm_state) : comm_state :=
  if ping.target_system = 0 ∧ ping.target_component = 0 then
    mavlink_send chan
      (out_msg.ping ping.seq msg.sysid msg.compid (sys_time_clock_get_unix_time s)) s
  else s

/-! ## The setpoint handler and the flight phase -/

/-- The range test of lines 533-538. -/
def setpoint_in_range (g : global_data_t) (sp : mavlink_set_local_position_setpoint_t) : Bool :=
  CFloat.fge sp.x g.position_setpoint_min.x && CFloat.fge sp.y g.position_setpoint_min.y
    && CFloat.fge sp.z g.position_setpoint_min.z && CFloat.fle sp.x g.position_setpoint_max.x
    && CFloat.fle sp.y g.position_setpoint_max.y && CFloat.fle sp.z g.position_setpoint_max.z

/-- The test `global_data.state.mav_mode & MAV_MODE_FLAG_SAFETY_ARMED` of
line 574. -/
def safety_armed (cfg : Conf) (g : global_data_t) : Bool :=
  decide (Nat.land g.state.mav_mode cfg.MAV_MODE_FLAG_SAFETY_ARMED ≠ 0)

/-- The test of lines 555-559: the phase is one of grounded, sinking,
wait-landing, landing, ramp-down. -/
def grounded_or_landing (f : fly_state) : Bool :=
  decide (f = fly_state.FLY_GROUNDED) || decide (f = fly_state.FLY_SINKING)
    || decide (f = fly_state.FLY_WAIT_LANDING) || decide (f = fly_state.FLY_LANDING)
    || decide (f = fly_state.FLY_RAMP_DOWN)

/-- The writes of lines 540-548: store the position setpoint, and the yaw
setpoint unless yaw tracking is on. -/
def store_setpoint (cfg : Conf) (sp : mavlink_set_local_position_setpoint_t)
    (s : comm_state) : comm_state :=
  let s1 := on_global (param_write cfg.PARAM_POSITION_SETPOINT_X sp.x) s
  let s2 := on_global (param_write cfg.PARAM_POSITION_SETPOINT_Y sp.y) s1
  let s3 := on_global (param_write cfg.PARAM_POSITION_SETPOINT_Z sp.z) s2
  if CFloat.feq (param_at s3.global_data cfg.PARAM_POSITION_YAW_TRACKING) (CFloat.fin 0) then
    on_global (param_write cfg.PARAM_POSITION_SETPOINT_YAW
      (CFloat.fmul (CFloat.fdiv sp.yaw (CFloat.fin 180)) (CFloat.fin M_PI))) s3
  else s3

/-- The phase logic of lines 551-581 ("check if we want to start or
land"). -/
def start_or_land (cfg : Conf) (sp : mavlink_set_local_position_setpoint_t)
    (s : comm_state) : comm_state :=
  if s.global_data.state.status = mav_state.MAV_STATE_ACTIVE
      ∨ s.global_data.state.status = mav_state.MAV_STATE_CRITICAL then
    if CFloat.fgt sp.z (CFloat.fin (-1 / 10)) then
      if !(grounded_or_landing s.global_data.state.fly) then
        let s1 := on_global (fun g => { g with state := { g.state with
          fly := fly_state.FLY_SINKING } }) s
        let s2 := on_global (param_write cfg.PARAM_POSITION_SETPOINT_Z (CFloat.fin (-2 / 10))) s1
        debug_message_buffer ("Sinking for LANDING. (z-sp lower than 10cm)") s2
      else if !(decide (s.global_data.state.fly = fly_state.FLY_GROUNDED)) then
        on_global (param_write cfg.PARAM_POSITION_SETPOINT_Z (CFloat.fin (-2 / 10))) s
      else s
    else if decide (s.global_data.state.fly = fly_state.FLY_GROUNDED)
        && CFloat.flt sp.z (CFloat.fin (-1 / 2)) then
      if safety_armed cfg s.global_data then
        debug_message_buffer ("STARTING wait motors. (z-sp higher than 50cm)")
          (on_global (fun g => { g with state := { g.state with
            fly := fly_state.FLY_WAIT_MOTORS } }) s)
      else s
    else s
  else s

/-- The override of lines 583-587: "SINK TO 0.7m if we are critical or
emergency". -/
def emergency_sink (cfg : Conf) (s : comm_state) : comm_state :=
  if s.global_data.state.status = mav_state.MAV_STATE_EMERGENCY
      ∨ s.global_data.state.status = mav_state.MAV_STATE_CRITICAL then
    on_global (param_write cfg.PARAM_POSITION_SETPOINT_Z (CFloat.fin (-7 / 10))) s
  else s

/-- The case `MAVLINK_MSG_ID_SET_LOCAL_POSITION_SETPOINT` (lines 525-602). -/
def handle_set_local_position_setpoint (cfg : Conf)
    (sp : mavlink_set_local_position_setpoint_t) (s : comm_state) : comm_state :=
  if CFloat.feq (CFloat.ofNat sp.target_system) (param_at s.global_data cfg.PARAM_SYSTEM_ID) then
    if CFloat.feq (param_at s.global_data cfg.PARAM_POSITIONSETPOINT_ACCEPT) (CFloat.fin 1) then
      if setpoint_in_range s.global_data sp then
        debug_message_buffer ("Setpoint accepted and set.")
          (emergency_sink cfg (start_or_land cfg sp (store_setpoint cfg sp s)))
      else debug_message_buffer ("Setpoint refused. Out of range.") s
    else debug_message_buffer ("Setpoint refused. Param setpoint accept=0.") s
  else s

/-! ## `handle_mavlink_message` -/

/-- The second switch of `handle_mavlink_message` (lines 156-605), on the
message type. -/
def dispatch_message (cfg : Conf) (col : Collab) (chan : mavlink_channel_t)
    (msg : mavlink_message_t) (s : comm_state) : comm_state :=
  match msg.msgid with
  | msgid_t.MAVLINK_MSG_ID_SET_MODE =>
      if (col.set_mode_decode msg).target_system
          = CFloat.toU8 (param_at s.global_data cfg.PARAM_SYSTEM_ID) then
        send_system_state cfg (on_global (col.sys_set_mode (col.set_mode_decode msg).base_mode) s)
      else s
  | msgid_t.MAVLINK_MSG_ID_COMMAND_LONG =>
      execute_command col (col.command_long_decode msg) s
  | msgid_t.MAVLINK_MSG_ID_SYSTEM_TIME =>
      handle_system_time (col.system_time_get_time_unix_usec msg) s
  | msgid_t.MAVLINK_MSG_ID_REQUEST_DATA_STREAM =>
      handle_request_data_stream cfg (col.request_data_stream_decode msg) s
  | msgid_t.MAVLINK_MSG_ID_PARAM_REQUEST_READ =>
      handle_param_request_read cfg chan (col.param_request_read_decode msg) s
  | msgid_t.MAVLINK_MSG_ID_PARAM_REQUEST_LIST =>
      { s with m_parameter_i := 0 }
  | msgid_t.MAVLINK_MSG_ID_PARAM_SET =>
      handle_param_set cfg (col.param_set_decode msg) s
  | msgid_t.MAVLINK_MSG_ID_SET_POSITION_CONTROL_OFFSET =>
      handle_set_position_control_offset cfg (col.set_position_control_offset_decode msg) s
  | msgid_t.MAVLINK_MSG_ID_SET_CAM_SHUTTER =>
      debug_message_buffer
        ("set_cam_shutter. interval " ++ toString (col.set_cam_shutter_decode msg).interval)
        (on_global (col.shutter_set (col.set_cam_shutter_decode msg).interval
          (col.set_cam_shutter_decode msg).exposure) s)
  | msgid_t.MAVLINK_MSG_ID_IMAGE_TRIGGER_CONTROL =>
      handle_image_trigger_control col (col.image_trigger_control_get_enable msg) s
  | msgid_t.MAVLINK_MSG_ID_VISION_POSITION_ESTIMATE =>
      on_global (col.vision_buffer_handle_data (col.vision_position_estimate_decode msg)) s
  | msgid_t.MAVLINK_MSG_ID_GLOBAL_VISION_POSITION_ESTIMATE =>
      on_global (col.vision_buffer_handle_global_data
        (col.global_vision_position_estimate_decode msg)) s
  | msgid_t.MAVLINK_MSG_ID_VICON_POSITION_ESTIMATE =>
      handle_vicon_position_estimate cfg col chan (col.vicon_position_estimate_decode msg) s
  | msgid_t.MAVLINK_MSG_ID_OPTICAL_FLOW =>
      handle_optical_flow (col.optical_flow_decode msg) s
  | msgid_t.MAVLINK_MSG_ID_PING =>
      handle_ping chan msg (col.ping_decode msg) s
  | msgid_t.MAVLINK_MSG_ID_SET_LOCAL_POSITION_SETPOINT =>
      handle_set_local_position_setpoint cfg (col.set_local_position_setpoint_decode msg) s
  | _ => s

/-- The function `handle_mavlink_message` (lines 117-606): the forwarding
switch, then the switch on the message type. -/
def handle_mavlink_message (cfg : Conf) (col : Collab) (chan : mavlink_channel_t)
    (msg : mavlink_message_t) (s : comm_state) : comm_state :=
  dispatch_message cfg col chan msg (forward_message col chan msg s)

/-! ## `communication_queued_send`, `communication_init`, `communication_receive` -/

/-- The function `communication_queued_send` (lines 615-629). -/
def communication_queued_send (cfg : Conf) (s : comm_state) : comm_state :=
  if s.m_parameter_i < cfg.ONBOARD_PARAM_COUNT then
    let s1 := mavlink_send mavlink_channel_t.MAVLINK_COMM_0
      (out_msg.param_value (param_name_at s.global_data s.m_parameter_i)
        (param_at s.global_data s.m_parameter_i) cfg.ONBOARD_PARAM_COUNT
        (s.m_parameter_i : Int)) s
    let s2 := mavlink_send mavlink_channel_t.MAVLINK_COMM_1
      (out_msg.param_value (param_name_at s1.global_data s1.m_parameter_i)
        (param_at s1.global_data s1.m_parameter_i) cfg.ONBOARD_PARAM_COUNT
        (s1.m_parameter_i : Int)) s1
    { s2 with m_parameter_i := (s2.m_parameter_i + 1) % 2 ^ 32 }
  else s

/-- The function `communication_init` (lines 637-647). -/
def communication_init (cfg : Conf) (s : comm_state) : comm_state :=
  if CFloat.fgt (param_at s.global_data cfg.PARAM_GPS_MODE) (CFloat.fin 0) then
    on_global (fun g => { g with state := { g.state with
      uart1mode := uart_mode.UART_MODE_GPS } }) s
  else
    on_global (fun g => { g with state := { g.state with
      uart1mode := uart_mode.UART_MODE_MAVLINK } }) s

/-- One pass of the body of the `uart0` loop (lines 666-682) for the byte
`c`; the pair carries the local `status`. -/
def uart0_byte (cfg : Conf) (col : Collab) (c : Nat) (st : comm_state × mavlink_status_t) :
    comm_state × mavlink_status_t :=
  if st.1.global_data.state.uart0mode = uart_mode.UART_MODE_MAVLINK then
    let r := col.mavlink_parse_char mavlink_channel_t.MAVLINK_COMM_0 c st.1.parser0 st.2
    let s1 : comm_state := { st.1 with parser0 := r.parser }
    match r.msg with
    | some m => (handle_mavlink_message cfg col mavlink_channel_t.MAVLINK_COMM_0 m s1, r.status)
    | none => (s1, r.status)
  else if st.1.global_data.state.uart0mode = uart_mode.UART_MODE_BYTE_FORWARD then
    (uart1_transmit c st.1, st.2)
  else st

/-- The loop `while (uart0_char_available())` (lines 664-683) over the bytes
buffered on `uart0`; each pass takes the next byte out of the buffer. -/
def uart0_loop (cfg : Conf) (col : Collab) :
    List Nat → comm_state × mavlink_status_t → comm_state × mavlink_status_t
  | [], st => st
  | c :: cs, st => uart0_loop cfg col cs (uart0_byte cfg col c ({ st.1 with uart0_rx := cs }, st.2))

/-- C `strncpy(dst, src, n)`: the bytes of `src` before its terminator, at
most `n`, padded with zero bytes to length `n`. -/
def strncpy (src : List Nat) (n : Nat) : List Nat :=
  let body := (src.take n).takeWhile (fun b => b ≠ 0)
  body ++ List.replicate (n - body.length) 0

/-- The debug line buffer of raw-GPS mode (lines 711-723). -/
def gps_debug_buffer (cfg : Conf) (c : Nat) (s : comm_state) : comm_state :=
  let s1 : comm_state :=
    if c = 36 ∨ s.gps_i + 1 = cfg.MAVLINK_MSG_STATUSTEXT_FIELD_TEXT_LEN then
      { s with
        gps_i := 0
        debug_log := s.debug_log ++
          [debug_entry.chars (strncpy s.gps_chars cfg.MAVLINK_MSG_STATUSTEXT_FIELD_TEXT_LEN)] }
    else s
  { s1 with gps_chars := s1.gps_chars.set s1.gps_i c, gps_i := (s1.gps_i + 1) % 256 }

/-- The branch `UART_MODE_GPS` of the `uart1` loop (lines 709-752). -/
def uart1_gps_byte (cfg : Conf) (col : Collab) (c : Nat) (s : comm_state) : comm_state :=
  let s1 := if s.global_data.state.gps_mode = 10 then gps_debug_buffer cfg c s else s
  let r := col.gps_parse c s1.gps
  let s2 : comm_state := { s1 with gps := r.2 }
  if r.1 then
    let s3 : comm_state := { s2 with gps := col.parse_gps_msg s2.gps }
    if col.gps_lat s3.gps = 0 then
      on_global (fun g => { g with state := { g.state with gps_ok := 0 } }) s3
    else
      on_global (fun g => { g with state := { g.state with gps_ok := 1 } }) s3
  else s2

/-- One pass of the body of the `uart1` loop (lines 694-759) for the byte
`c`. -/
def uart1_byte (cfg : Conf) (col : Collab) (c : Nat) (st : comm_state × mavlink_status_t) :
    comm_state × mavlink_status_t :=
  if st.1.global_data.state.uart1mode = uart_mode.UART_MODE_MAVLINK then
    let r := col.mavlink_parse_char mavlink_channel_t.MAVLINK_COMM_1 c st.1.parser1 st.2
    let s1 : comm_state := { st.1 with parser1 := r.parser }
    match r.msg with
    | some m => (handle_mavlink_message cfg col mavlink_channel_t.MAVLINK_COMM_1 m s1, r.status)
    | none => (s1, r.status)
  else if st.1.global_data.state.uart1mode = uart_mode.UART_MODE_GPS then
    (uart1_gps_byte cfg col c st.1, st.2)
  else if st.1.global_data.state.uart1mode = uart_mode.UART_MODE_BYTE_FORWARD then
    let s1 := uart0_transmit c st.1
    ({ s1 with led_yellow := !s1.led_yellow }, st.2)
  else st

/-- The loop `while (uart1_char_available())` (lines 692-760). -/
def uart1_loop (cfg : Conf) (col : Collab) :
    List Nat → comm_state × mavlink_status_t → comm_state × mavlink_status_t
  | [], st => st
  | c :: cs, st => uart1_loop cfg col cs (uart1_byte cfg col c ({ st.1 with uart1_rx := cs }, st.2))

/-- The counter update of lines 686-688 and, verbatim, of lines 763-765:
both add the local `status` to the `uart0` counters and clear its drop
count. -/
def update_drop_counters (cfg : Conf) (st : comm_state × mavlink_status_t) :
    comm_state × mavlink_status_t :=
  (on_global (fun g => { g with comm := { g.comm with
      uart0_rx_drop_count :=
        (g.comm.uart0_rx_drop_count + st.2.packet_rx_drop_count) % 2 ^ cfg.COUNTER_BITS
      uart0_rx_success_count :=
        (g.comm.uart0_rx_success_count + st.2.packet_rx_success_count)
          % 2 ^ cfg.COUNTER_BITS } }) st.1,
   { st.2 with packet_rx_drop_count := 0 })

/-- The function `communication_receive` (lines 655-766). -/
def communication_receive (cfg : Conf) (col : Collab) (s : comm_state) : comm_state :=
  let st0 : comm_state × mavlink_status_t :=
    (s, { packet_rx_drop_count := 0, packet_rx_success_count := 0 })
  let st1 := update_drop_counters cfg (uart0_loop cfg col st0.1.uart0_rx st0)
  let st2 := update_drop_counters cfg (uart1_loop cfg col st1.1.uart1_rx st1)
  st2.1

/-! ## Vocabulary of the statements -/

/-- What handling wrote to the transmit path of `uart0` between the state
`s` and the later state `t`. -/
def emitted0 (s t : comm_state) : List tx_item := t.uart0_tx.drop s.uart0_tx.length

/-- What handling wrote to the transmit path of `uart1` between the state
`s` and the later state `t`. -/
def emitted1 (s t : comm_state) : List tx_item := t.uart1_tx.drop s.uart1_tx.length

/-- The item is a param-value message. -/
def is_param_value : tx_item → Bool
  | tx_item.msg (out_msg.param_value _ _ _ _) => true
  | _ => false

/-- The value lies outside the closed range `[lo, hi]`: it fails one of the
two comparisons of the range test. -/
def outside_bounds (v lo hi : CFloat) : Prop :=
  ¬ (CFloat.fge v lo = true ∧ CFloat.fle v hi = true)

/-- The exclusion set of the forwarding policy for messages arriving on
channel 1, as the specification lists it. -/
def exclusion_channel1 : List msgid_t :=
  [msgid_t.MAVLINK_MSG_ID_VISION_POSITION_ESTIMATE,
   msgid_t.MAVLINK_MSG_ID_VICON_POSITION_ESTIMATE,
   msgid_t.MAVLINK_MSG_ID_IMAGE_TRIGGER_CONTROL,
   msgid_t.MAVLINK_MSG_ID_OPTICAL_FLOW]

/-- The exclusion set of the forwarding policy for messages arriving on
channel 2, as the specification lists it. -/
def exclusion_channel2 : List msgid_t :=
  [msgid_t.MAVLINK_MSG_ID_VISION_POSITION_ESTIMATE,
   msgid_t.MAVLINK_MSG_ID_VICON_POSITION_ESTIMATE,
   msgid_t.MAVLINK_MSG_ID_IMAGE_TRIGGER_CONTROL]

/-- The messages the codec completes while the bytes `bs` are fed to it on
`MAVLINK_COMM_0`, starting from the parser state `p` and the status `st`. -/
def decoded0 (col : Collab) : List Nat → List Nat → mavlink_status_t → List mavlink_message_t
  | [], _, _ => []
  | c :: cs, p, st =>
      let r := col.mavlink_parse_char mavlink_channel_t.MAVLINK_COMM_0 c p st
      match r.msg with
      | some m => m :: decoded0 col cs r.parser r.status
      | none => decoded0 col cs r.parser r.status

/-! ## Concrete inputs -/

/-- A configuration with 19 parameters, the named ones at the indices
0 to 18. -/
def demoConf : Conf where
  ONBOARD_PARAM_COUNT := 19
  ONBOARD_PARAM_NAME_LENGTH := 16
  MAVLINK_MSG_STATUSTEXT_FIELD_TEXT_LEN := 50
  MAV_MODE_FLAG_SAFETY_ARMED := 128
  POSITION_ESTIMATION_MODE_OPTICAL_FLOW_ULTRASONIC_ADD_VICON_AS_OFFSET := 3
  COUNTER_BITS := 32
  PARAM_SYSTEM_ID := 0
  PARAM_COMPONENT_ID := 1
  PARAM_SYSTEM_TYPE := 2
  PARAM_GPS_MODE := 3
  PARAM_SEND_DEBUGCHAN := 4
  PARAM_SEND_SLOT_RAW_IMU := 5
  PARAM_SEND_SLOT_ATTITUDE := 6
  PARAM_SEND_SLOT_REMOTE_CONTROL := 7
  PARAM_SEND_SLOT_CONTROLLER_OUTPUT := 8
  PARAM_SEND_SLOT_DEBUG_2 := 9
  PARAM_SEND_SLOT_DEBUG_4 := 10
  PARAM_SEND_SLOT_DEBUG_5 := 11
  PARAM_SEND_SLOT_DEBUG_6 := 12
  PARAM_POSITIONSETPOINT_ACCEPT := 13
  PARAM_POSITION_YAW_TRACKING := 14
  PARAM_POSITION_SETPOINT_X := 15
  PARAM_POSITION_SETPOINT_Y := 16
  PARAM_POSITION_SETPOINT_Z := 17
  PARAM_POSITION_SETPOINT_YAW := 18

/-- A position estimate with all fields zero. -/
def demoEstimate : mavlink_position_estimate_t :=
  { usec := 0, x := CFloat.fin 0, y := CFloat.fin 0, z := CFloat.fin 0,
    roll := CFloat.fin 0, pitch := CFloat.fin 0, yaw := CFloat.fin 0 }

/-- A codec and collaborators for the concrete inputs.  The setpoint and
param-set decoders return the two given records; a message is encoded as its
payload bytes; the parser completes a vision position estimate on every byte
`254` and nothing on any other byte; the other collaborators leave
`global_data` as it is. -/
def demoCollab (sp : mavlink_set_local_position_setpoint_t) (pset : mavlink_param_set_t) :
    Collab where
  mavlink_msg_to_send_buffer := fun m => m.payload
  mavlink_parse_char := fun _ c p st =>
    { msg := if c = 254 then
        some { msgid := msgid_t.MAVLINK_MSG_ID_VISION_POSITION_ESTIMATE, sysid := 7,
               compid := 0, payload := p ++ [c] }
      else none
      status := st
      parser := if c = 254 then [] else p ++ [c] }
  set_mode_decode := fun _ => { target_system := 1, base_mode := 0 }
  command_long_decode := fun _ => { command := mav_cmd.OTHER 0, param1 := CFloat.fin 0 }
  system_time_get_time_unix_usec := fun _ => 0
  request_data_stream_decode := fun _ => { req_stream_id := 0, start_stop := 0 }
  param_request_read_decode := fun _ =>
    { target_system := 1, target_component := 1, param_id := [], param_index := 0 }
  param_set_decode := fun _ => pset
  set_position_control_offset_decode := fun _ => { yaw := CFloat.fin 0 }
  set_cam_shutter_decode := fun _ => { interval := 0, exposure := 0 }
  image_trigger_control_get_enable := fun _ => 0
  vision_position_estimate_decode := fun _ => demoEstimate
  global_vision_position_estimate_decode := fun _ => demoEstimate
  vicon_position_estimate_decode := fun _ => demoEstimate
  optical_flow_decode := fun _ =>
    { flow_comp_m_x := CFloat.fin 0, flow_comp_m_y := CFloat.fin 0, quality := 0,
      ground_distance := CFloat.fin 0 }
  ping_decode := fun _ => { seq := 0, target_system := 0, target_component := 0 }
  set_local_position_setpoint_decode := fun _ => sp
  sys_set_mode := fun _ g => g
  param_read_all := fun g => g
  param_write_all := fun g => g
  start_gyro_calibration := fun g => g
  shutter_set := fun _ _ g => g
  shutter_control := fun _ g => g
  vision_buffer_handle_data := fun _ g => g
  vision_buffer_handle_global_data := fun _ g => g
  lookup_cos := fun _ => CFloat.fin 1
  lookup_sin := fun _ => CFloat.fin 0
  gps_parse := fun _ g => (false, g)
  parse_gps_msg := fun g => g
  gps_lat := fun _ => 0

/-- Three zeros. -/
def zero_vect3 : float_vect3 := { x := CFloat.fin 0, y := CFloat.fin 0, z := CFloat.fin 0 }

/-- The parameter table of the concrete inputs: system id 1, component id 1,
setpoint acceptance on, everything else zero. -/
def demoParam : List CFloat :=
  [CFloat.fin 1, CFloat.fin 1, CFloat.fin 0, CFloat.fin 0, CFloat.fin 0, CFloat.fin 0,
   CFloat.fin 0, CFloat.fin 0, CFloat.fin 0, CFloat.fin 0, CFloat.fin 0, CFloat.fin 0,
   CFloat.fin 0, CFloat.fin 1, CFloat.fin 0, CFloat.fin 0, CFloat.fin 0, CFloat.fin 0,
   CFloat.fin 0]

/-- The names of the concrete parameter table: entry `i` is the two bytes
`'P'`, `'A' + i` followed by the terminator. -/
def demoParamName : List (List Nat) := (List.range 19).map (fun i => [80, 65 + i, 0])

/-- A vehicle with the given mode bits, status and flight phase, setpoint
bounds `[-5, 5]` on every axis, both links in protocol mode, empty buffers. -/
def demoState (mav_mode : Nat) (status : mav_state) (fly : fly_state) : comm_state where
  global_data :=
    { param := demoParam
      param_name := demoParamName
      state :=
        { mav_mode := mav_mode, status := status, fly := fly
          uart0mode := uart_mode.UART_MODE_MAVLINK
          uart1mode := uart_mode.UART_MODE_MAVLINK
          gps_mode := 0, gps_ok := 0, vicon_new_data := 0, vicon_ok := 0
          vicon_attitude_new_data := 0, vision_ok := 0, position_estimation_mode := 0
          control_sensors_present_mask := 0, control_sensors_enabled_mask := 0
          control_sensors_health_mask := 0 }
      comm := { uart0_rx_drop_count := 0, uart0_rx_success_count := 0
                uart1_rx_drop_count := 0, uart1_rx_success_count := 0 }
      cpu_usage := 0, battery_voltage := 0, i2c0_err_count := 0, i2c1_err_count := 0
      spi_err_count := 0
      vicon_data := zero_vect3, vicon_last_valid := 0
      vicon_magnetometer_replacement := zero_vect3
      vision_magnetometer_replacement := zero_vect3
      position_setpoint_offset := zero_vect3, position := zero_vect3
      attitude := zero_vect3, optflow := zero_vect3
      ground_distance := CFloat.fin 0, flow_last_valid := 0
      position_setpoint_min :=
        { x := CFloat.fin (-5), y := CFloat.fin (-5), z := CFloat.fin (-5) }
      position_setpoint_max := { x := CFloat.fin 5, y := CFloat.fin 5, z := CFloat.fin 5 } }
  m_parameter_i := 0
  gps_i := 0
  gps_chars := List.replicate 50 0
  uart0_rx := []
  uart1_rx := []
  uart0_tx := []
  uart1_tx := []
  debug_log := []
  parser0 := []
  parser1 := []
  unix_offset := 0
  time_usec := 0
  loop_start_time := 0
  gps := []
  led_yellow := false

/-- A setpoint for system 1 at `x = y = 0` with the given `z`. -/
def demoSetpoint (z : CFloat) : mavlink_set_local_position_setpoint_t :=
  { target_system := 1, x := CFloat.fin 0, y := CFloat.fin 0, z := z, yaw := CFloat.fin 0 }

/-- A param-set for system 1, component 1, with the given key and value. -/
def demoParamSet (key : List Nat) (v : CFloat) : mavlink_param_set_t :=
  { target_system := 1, target_component := 1, param_id := key, param_value := v }

/-- A message of the given type from system 7 with payload `1, 2, 254`. -/
def demoMsg (id : msgid_t) : mavlink_message_t :=
  { msgid := id, sysid := 7, compid := 0, payload := [1, 2, 254] }

/-! ## The param-set loop -/

/-- The guard under which the loop body of the param-set case writes entry
`i`: the name matches, the value differs, and the new value is neither NaN
nor infinite. -/
def param_set_writes (cfg : Conf) (set : mavlink_param_set_t) (g : global_data_t) (i : Nat) :
    Bool :=
  name_match cfg.ONBOARD_PARAM_NAME_LENGTH (param_name_at g i) set.param_id
    && (CFloat.fne (param_at g i) set.param_value
      && !(CFloat.isnan set.param_value) && !(CFloat.isinf set.param_value))


/-- The param-value message the param-set case broadcasts for entry `i` of
the state `s` when it stores the value `v`. -/
def param_set_broadcast (cfg : Conf) (s : comm_state) (i : Nat) (v : CFloat) : tx_item :=
  tx_item.msg (out_msg.param_value (param_name_at s.global_data i) v cfg.ONBOARD_PARAM_COUNT
    (s.m_parameter_i : Int))

/-- What holds of the state `t` reached from `s` after the first `n` passes
of the loop of the param-set case. -/
structure ParamSetInv (cfg : Conf) (set : mavlink_param_set_t) (s : comm_state) (n : Nat)
    (t : comm_state) : Prop where
  names : t.global_data.param_name = s.global_data.param_name
  cursor : t.m_parameter_i = s.m_parameter_i
  length : t.global_data.param.length = s.global_data.param.length
  tx0 : ∃ e, t.uart0_tx = s.uart0_tx ++ e
  tx1 : ∃ e, t.uart1_tx = s.uart1_tx ++ e
  later : ∀ k, n ≤ k → param_at t.global_data k = param_at s.global_data k
  unmatched : ∀ k, name_match cfg.ONBOARD_PARAM_NAME_LENGTH (param_name_at s.global_data k)
      set.param_id = false → param_at t.global_data k = param_at s.global_data k
  settled : ∀ k, k < n → k < s.global_data.param.length →
      name_match cfg.ONBOARD_PARAM_NAME_LENGTH (param_name_at s.global_data k) set.param_id = true →
      CFloat.isnan set.param_value = false → CFloat.isinf set.param_value = false →
      CFloat.feq (param_at t.global_data k) set.param_value = true
  written : ∀ k, k < n → k < s.global_data.param.length →
      param_set_writes cfg set s.global_data k = true →
      param_at t.global_data k = set.param_value
        ∧ param_set_broadcast cfg s k set.param_value ∈ emitted0 s t
        ∧ param_set_broadcast cfg s k set.param_value ∈ emitted1 s t


/-- The demo collaborators with a param-set decoder that returns the key
`"PR"` (entry 17 of the demo table) and the value `v`. -/
def demoSetCollab (v : CFloat) : Collab :=
  demoCollab (demoSetpoint (CFloat.fin 0)) (demoParamSet [80, 82, 0] v)

/-- The demo vehicle in standby on the ground. -/
def demoIdle : comm_state := demoState 0 mav_state.MAV_STATE_STANDBY fly_state.FLY_GROUNDED


/-- The demo vehicle with `uart0` in the given mode and the bytes
`1, 2, 254` buffered on `uart0`: under the demo codec these are the encoding
of `demoMsg MAVLINK_MSG_ID_VISION_POSITION_ESTIMATE`. -/
def demoPolled (mode : uart_mode) : comm_state :=
  { demoIdle with
    global_data := { demoIdle.global_data with
      state := { demoIdle.global_data.state with uart0mode := mode } }
    uart0_rx := [1, 2, 254] }

/-- The local `status` at the start of `communication_receive`. -/
def status_zero : mavlink_status_t := { packet_rx_drop_count := 0, packet_rx_success_count := 0 }

/-! ## Concrete inputs for the time, statistics and streaming statements -/

/-- The demo vehicle with the local clock at `now`. -/
def demoAt (now : Nat) : comm_state := { demoIdle with time_usec := now }

/-- The demo collaborators with a system-time decoder that reads the remote
time from the first payload byte of the message. -/
def demoClockCollab : Collab :=
  { demoSetCollab (CFloat.fin 0) with
    system_time_get_time_unix_usec := fun m => m.payload.headD 0 }

/-- A system-time message from system 7 that carries the remote time `t`
for `demoClockCollab`. -/
def demoTimeMsg (t : Nat) : mavlink_message_t :=
  { msgid := msgid_t.MAVLINK_MSG_ID_SYSTEM_TIME, sysid := 7, compid := 0, payload := [t] }

/-- The demo `global_data` with the four packet counters set. -/
def demoCounters (drop0 success0 drop1 success1 : Nat) : global_data_t :=
  { demoIdle.global_data with
    comm := { uart0_rx_drop_count := drop0, uart0_rx_success_count := success0
              uart1_rx_drop_count := drop1, uart1_rx_success_count := success1 } }

/-- The second worked value of the drop-rate formula as the specification
writes it: `floor(10*1000+1/(990+1)) + 1`. -/
def drop_rate_as_written : Int := Int.floor ((10 * 1000 + 1 / (990 + 1) : ℚ)) + 1

/-- The demo collaborators with a codec that, on every byte, completes no
message and reports one dropped packet more and `c` successful packets for
the byte `c`. -/
def demoDropCollab : Collab :=
  { demoSetCollab (CFloat.fin 0) with
    mavlink_parse_char := fun _ c p st =>
      { msg := none
        status := { packet_rx_drop_count := st.packet_rx_drop_count + 1
                    packet_rx_success_count := c }
        parser := p } }

/-- The demo vehicle with the byte `3` buffered on `uart1` and nothing on
`uart0`, both links in protocol mode. -/
def demoUart1Traffic : comm_state := { demoIdle with uart1_rx := [3] }

/-! ## Vocabulary of the parameter streaming and read statements -/

/-- The pump `communication_queued_send` called `n` times in a row. -/
def pump_times (cfg : Conf) : Nat → comm_state → comm_state
  | 0, s => s
  | n + 1, s => pump_times cfg n (communication_queued_send cfg s)

/-- The param-value message for entry `i` of the table `g` with its own
index, as the pump sends it. -/
def streamed_entry (cfg : Conf) (g : global_data_t) (i : Nat) : tx_item :=
  tx_item.msg (out_msg.param_value (param_name_at g i) (param_at g i) cfg.ONBOARD_PARAM_COUNT
    (i : Int))

/-- The demo collaborators with a param-request-read decoder that returns the
key `key` and the index `idx`, addressed to system 1, component 1. -/
def demoReadCollab (key : List Nat) (idx : Int) : Collab :=
  { demoSetCollab (CFloat.fin 0) with
    param_request_read_decode := fun _ =>
      { target_system := 1, target_component := 1, param_id := key, param_index := idx } }

/-- The name held in a `nameLength`-byte array, read as a C string: the
bytes before the first zero byte, or all `nameLength` bytes if none is
zero. -/
def cstr (nameLength : Nat) (a : List Nat) : List Nat :=
  ((List.range nameLength).map (fun j => a.getD j 0)).takeWhile (fun b => b ≠ 0)

/-- The reply of the read-by-name branch for entry `i`: its name, its value,
the count and the current cursor as index. -/
def read_reply (cfg : Conf) (s : comm_state) (i : Nat) : tx_item :=
  tx_item.msg (out_msg.param_value (param_name_at s.global_data i) (param_at s.global_data i)
    cfg.ONBOARD_PARAM_COUNT (s.m_parameter_i : Int))

/-- The indices of the entries whose name matches the key, in table order. -/
def matching_entries (cfg : Conf) (g : global_data_t) (key : List Nat) : List Nat :=
  (List.range cfg.ONBOARD_PARAM_COUNT).filter
    (fun i => name_match cfg.ONBOARD_PARAM_NAME_LENGTH (param_name_at g i) key)

/-- Pad a name with zero bytes to 16 bytes. -/
def pad16 (l : List Nat) : List Nat := l ++ List.replicate (16 - l.length) 0

/-- The demo vehicle with 16-byte names, of which entry 0 is `"A\0\x01..."`
and entry 1 is `"A\0\x02..."`: different arrays holding the same C string. -/
def demoTwinNames : comm_state :=
  { demoIdle with
    global_data := { demoIdle.global_data with
      param_name := ([65, 0, 1] :: [65, 0, 2] :: demoParamName.drop 2).map pad16 } }

/-! ## Vocabulary of the cursor invariant -/

/-- An operation of the core as its surroundings invoke it: handling a
decoded message on a channel, executing a command, one call of the pump, a
receive poll after the given bytes have arrived on the two UARTs, and the
initialisation of the link modes. -/
inductive core_op where
  | handle (chan : mavlink_channel_t) (msg : mavlink_message_t)
  | execute (cmd : mavlink_command_long_t)
  | pump
  | receive (rx0 rx1 : List Nat)
  | init

/-- The effect of one operation. -/
def run_op (cfg : Conf) (col : Collab) (s : comm_state) : core_op → comm_state
  | core_op.handle chan msg => handle_mavlink_message cfg col chan msg s
  | core_op.execute cmd => execute_command col cmd s
  | core_op.pump => communication_queued_send cfg s
  | core_op.receive rx0 rx1 =>
      communication_receive cfg col
        { s with uart0_rx := s.uart0_rx ++ rx0, uart1_rx := s.uart1_rx ++ rx1 }
  | core_op.init => communication_init cfg s

/-- The effect of a finite sequence of operations, first operation first. -/
def run_ops (cfg : Conf) (col : Collab) (ops : List core_op) (s : comm_state) : comm_state :=
  ops.foldl (run_op cfg col) s

/-! ## Vocabulary of the GPS debug buffer statement -/

/-- The position of `gps_chars` that line 723 writes for the byte `c` read
in state `s`: the value of `gps_i` after the flush test of lines 713-722,
which is 0 after a flush and the old `gps_i` otherwise. -/
def gps_write_position (cfg : Conf) (c : Nat) (s : comm_state) : Nat :=
  if c = 36 ∨ s.gps_i + 1 = cfg.MAVLINK_MSG_STATUSTEXT_FIELD_TEXT_LEN then 0 else s.gps_i

/-- The demo vehicle with `uart1` in raw-GPS mode and the debug sub-mode
(`gps_mode == 10`) active; the line buffer has 50 bytes and `gps_i` is 0. -/
def demoGps : comm_state :=
  { demoIdle with
    global_data := { demoIdle.global_data with
      state := { demoIdle.global_data.state with
        uart1mode := uart_mode.UART_MODE_GPS, gps_mode := 10 } } }

/-! # Theorems -/

/-! ## Basic facts about the small operations -/

@[simp] theorem on_global_global_data (f : global_data_t → global_data_t) (s : comm_state) :
    (on_global f s).global_data = f s.global_data := rfl

@[simp] theorem on_global_m_parameter_i (f : global_data_t → global_data_t) (s : comm_state) :
    (on_global f s).m_parameter_i = s.m_parameter_i := rfl

@[simp] theorem on_global_uart0_tx (f : global_data_t → global_data_t) (s : comm_state) :
    (on_global f s).uart0_tx = s.uart0_tx := rfl

@[simp] theorem on_global_uart1_tx (f : global_data_t → global_data_t) (s : comm_state) :
    (on_global f s).uart1_tx = s.uart1_tx := rfl

@[simp] theorem debug_message_buffer_global_data (t : String) (s : comm_state) :
    (debug_message_buffer t s).global_data = s.global_data := rfl

@[simp] theorem debug_message_buffer_m_parameter_i (t : String) (s : comm_state) :
    (debug_message_buffer t s).m_parameter_i = s.m_parameter_i := rfl

@[simp] theorem debug_message_buffer_uart0_tx (t : String) (s : comm_state) :
    (debug_message_buffer t s).uart0_tx = s.uart0_tx := rfl

@[simp] theorem debug_message_buffer_uart1_tx (t : String) (s : comm_state) :
    (debug_message_buffer t s).uart1_tx = s.uart1_tx := rfl

@[simp] theorem param_write_state (i : Nat) (v : CFloat) (g : global_data_t) :
    (param_write i v g).state = g.state := rfl

@[simp] theorem param_write_param_name (i : Nat) (v : CFloat) (g : global_data_t) :
    (param_write i v g).param_name = g.param_name := rfl

@[simp] theorem param_write_param (i : Nat) (v : CFloat) (g : global_data_t) :
    (param_write i v g).param = g.param.set i v := rfl

@[simp] theorem param_name_at_param_write (i k : Nat) (v : CFloat) (g : global_data_t) :
    param_name_at (param_write i v g) k = param_name_at g k := rfl

theorem param_at_param_write_same (i : Nat) (v : CFloat) (g : global_data_t)
    (h : i < g.param.length) : param_at (param_write i v g) i = v := by
  simp [param_at, param_write, List.getD_eq_getElem?_getD, List.getElem?_set, h]

theorem param_at_param_write_other (i k : Nat) (v : CFloat) (g : global_data_t)
    (h : i ≠ k) : param_at (param_write i v g) k = param_at g k := by
  simp [param_at, param_write, List.getD_eq_getElem?_getD, List.getElem?_set, h]

/-- The first transmit loop appends the buffer, byte by byte, to the
transmit path of `uart1`. -/
theorem transmit_buffer1_eq (buf : List Nat) (s : comm_state) :
    transmit_buffer1 buf s = { s with uart1_tx := s.uart1_tx ++ buf.map tx_item.byte } := by
  unfold transmit_buffer1
  induction buf generalizing s with
  | nil => simp
  | cons c cs ih => rw [List.foldl_cons, ih]; simp [uart1_transmit]

/-- The second transmit loop appends the buffer, byte by byte, to the
transmit path of `uart0`. -/
theorem transmit_buffer0_eq (buf : List Nat) (s : comm_state) :
    transmit_buffer0 buf s = { s with uart0_tx := s.uart0_tx ++ buf.map tx_item.byte } := by
  unfold transmit_buffer0
  induction buf generalizing s with
  | nil => simp
  | cons c cs ih => rw [List.foldl_cons, ih]; simp [uart0_transmit]

@[simp] theorem forward_message_global_data (col : Collab) (chan : mavlink_channel_t)
    (msg : mavlink_message_t) (s : comm_state) :
    (forward_message col chan msg s).global_data = s.global_data := by
  unfold forward_message
  cases chan <;> simp only [] <;> split <;> simp [transmit_buffer1_eq, transmit_buffer0_eq]

@[simp] theorem forward_message_m_parameter_i (col : Collab) (chan : mavlink_channel_t)
    (msg : mavlink_message_t) (s : comm_state) :
    (forward_message col chan msg s).m_parameter_i = s.m_parameter_i := by
  unfold forward_message
  cases chan <;> simp only [] <;> split <;> simp [transmit_buffer1_eq, transmit_buffer0_eq]

/-! ## The setpoint handler -/

@[simp] theorem store_setpoint_state (cfg : Conf) (sp : mavlink_set_local_position_setpoint_t)
    (s : comm_state) : (store_setpoint cfg sp s).global_data.state = s.global_data.state := by
  unfold store_setpoint
  simp only []
  split <;> simp

@[simp] theorem emergency_sink_state (cfg : Conf) (s : comm_state) :
    (emergency_sink cfg s).global_data.state = s.global_data.state := by
  unfold emergency_sink
  split <;> simp

theorem flt_half_not_fgt_tenth (z : CFloat) (h : CFloat.flt z (CFloat.fin (-1 / 2)) = true) :
    CFloat.fgt z (CFloat.fin (-1 / 10)) = false := by
  cases z with
  | fin q =>
      simp only [CFloat.flt, decide_eq_true_eq] at h
      simp only [CFloat.fgt, CFloat.flt, decide_eq_false_iff_not, not_lt]
      linarith
  | pinf => simp [CFloat.flt] at h
  | ninf => simp [CFloat.fgt, CFloat.flt]
  | nan => simp [CFloat.flt] at h

/-- The accepted branch of the setpoint handler. -/
theorem handle_setpoint_accepted (cfg : Conf) (sp : mavlink_set_local_position_setpoint_t)
    (s : comm_state)
    (htarget : CFloat.feq (CFloat.ofNat sp.target_system)
      (param_at s.global_data cfg.PARAM_SYSTEM_ID) = true)
    (haccept : CFloat.feq (param_at s.global_data cfg.PARAM_POSITIONSETPOINT_ACCEPT)
      (CFloat.fin 1) = true)
    (hrange : setpoint_in_range s.global_data sp = true) :
    handle_set_local_position_setpoint cfg sp s
      = debug_message_buffer ("Setpoint accepted and set.")
          (emergency_sink cfg (start_or_land cfg sp (store_setpoint cfg sp s))) := by
  simp [handle_set_local_position_setpoint, htarget, haccept, hrange]

/-- C1. Takeoff gating: a grounded, active vehicle that accepts a setpoint
with `z < -0.50` goes to `FLY_WAIT_MOTORS` when the armed flag is set in
`mav_mode`, and stays `FLY_GROUNDED` when the flag is clear. -/
theorem setpoint_takeoff_gating (cfg : Conf) (col : Collab) (chan : mavlink_channel_t)
    (msg : mavlink_message_t) (s : comm_state)
    (hid : msg.msgid = msgid_t.MAVLINK_MSG_ID_SET_LOCAL_POSITION_SETPOINT)
    (hfly : s.global_data.state.fly = fly_state.FLY_GROUNDED)
    (hstatus : s.global_data.state.status = mav_state.MAV_STATE_ACTIVE)
    (htarget : CFloat.feq (CFloat.ofNat (col.set_local_position_setpoint_decode msg).target_system)
      (param_at s.global_data cfg.PARAM_SYSTEM_ID) = true)
    (haccept : CFloat.feq (param_at s.global_data cfg.PARAM_POSITIONSETPOINT_ACCEPT)
      (CFloat.fin 1) = true)
    (hrange : setpoint_in_range s.global_data (col.set_local_position_setpoint_decode msg) = true)
    (hz : CFloat.flt (col.set_local_position_setpoint_decode msg).z (CFloat.fin (-1 / 2)) = true) :
    (safety_armed cfg s.global_data = true →
      (handle_mavlink_message cfg col chan msg s).global_data.state.fly
        = fly_state.FLY_WAIT_MOTORS) ∧
    (safety_armed cfg s.global_data = false →
      (handle_mavlink_message cfg col chan msg s).global_data.state.fly
        = fly_state.FLY_GROUNDED) := by
  have hgt := flt_half_not_fgt_tenth _ hz
  have hacc := handle_setpoint_accepted cfg (col.set_local_position_setpoint_decode msg)
    (forward_message col chan msg s) (by simpa using htarget) (by simpa using haccept)
    (by simpa using hrange)
  have harm : safety_armed cfg (store_setpoint cfg (col.set_local_position_setpoint_decode msg)
      (forward_message col chan msg s)).global_data = safety_armed cfg s.global_data := by
    simp [safety_armed]
  constructor
  · intro ha
    simp [handle_mavlink_message, dispatch_message, hid, hacc, start_or_land, hstatus, hgt, hfly,
      hz, harm, ha]
  · intro ha
    simp [handle_mavlink_message, dispatch_message, hid, hacc, start_or_land, hstatus, hgt, hfly,
      hz, harm, ha]

/-- Witness of `setpoint_takeoff_gating`: the demo vehicle, grounded and
active, receives `z = -0.6`; armed (mode bit 128) it goes to
`FLY_WAIT_MOTORS`, unarmed it stays `FLY_GROUNDED`. -/
theorem setpoint_takeoff_gating_witness :
    (handle_mavlink_message demoConf
        (demoCollab (demoSetpoint (CFloat.fin (-6 / 10))) (demoParamSet [] (CFloat.fin 0)))
        mavlink_channel_t.MAVLINK_COMM_0
        (demoMsg msgid_t.MAVLINK_MSG_ID_SET_LOCAL_POSITION_SETPOINT)
        (demoState 128 mav_state.MAV_STATE_ACTIVE fly_state.FLY_GROUNDED)).global_data.state.fly
      = fly_state.FLY_WAIT_MOTORS ∧
    (handle_mavlink_message demoConf
        (demoCollab (demoSetpoint (CFloat.fin (-6 / 10))) (demoParamSet [] (CFloat.fin 0)))
        mavlink_channel_t.MAVLINK_COMM_0
        (demoMsg msgid_t.MAVLINK_MSG_ID_SET_LOCAL_POSITION_SETPOINT)
        (demoState 0 mav_state.MAV_STATE_ACTIVE fly_state.FLY_GROUNDED)).global_data.state.fly
      = fly_state.FLY_GROUNDED :=
  ⟨(setpoint_takeoff_gating demoConf
      (demoCollab (demoSetpoint (CFloat.fin (-6 / 10))) (demoParamSet [] (CFloat.fin 0)))
      mavlink_channel_t.MAVLINK_COMM_0
      (demoMsg msgid_t.MAVLINK_MSG_ID_SET_LOCAL_POSITION_SETPOINT)
      (demoState 128 mav_state.MAV_STATE_ACTIVE fly_state.FLY_GROUNDED)
      rfl rfl rfl (by decide) (by decide)
      (by norm_num [setpoint_in_range, demoState, demoSetpoint, demoCollab, CFloat.fge,
        CFloat.fle])
      (by norm_num [demoSetpoint, demoCollab, CFloat.flt])).1 (by decide),
   (setpoint_takeoff_gating demoConf
      (demoCollab (demoSetpoint (CFloat.fin (-6 / 10))) (demoParamSet [] (CFloat.fin 0)))
      mavlink_channel_t.MAVLINK_COMM_0
      (demoMsg msgid_t.MAVLINK_MSG_ID_SET_LOCAL_POSITION_SETPOINT)
      (demoState 0 mav_state.MAV_STATE_ACTIVE fly_state.FLY_GROUNDED)
      rfl rfl rfl (by decide) (by decide)
      (by norm_num [setpoint_in_range, demoState, demoSetpoint, demoCollab, CFloat.fge,
        CFloat.fle])
      (by norm_num [demoSetpoint, demoCollab, CFloat.flt])).2 (by decide)⟩

@[simp] theorem store_setpoint_param_length (cfg : Conf)
    (sp : mavlink_set_local_position_setpoint_t) (s : comm_state) :
    (store_setpoint cfg sp s).global_data.param.length = s.global_data.param.length := by
  unfold store_setpoint
  simp only []
  split <;> simp

@[simp] theorem start_or_land_status (cfg : Conf) (sp : mavlink_set_local_position_setpoint_t)
    (s : comm_state) :
    (start_or_land cfg sp s).global_data.state.status = s.global_data.state.status := by
  unfold start_or_land
  simp only []
  split_ifs <;> simp

/-- The phase logic when a landing is initiated: the phase becomes
`FLY_SINKING` and the z-setpoint `-0.2` is written. -/
theorem start_or_land_sinking (cfg : Conf) (sp : mavlink_set_local_position_setpoint_t)
    (s : comm_state)
    (hstatus : s.global_data.state.status = mav_state.MAV_STATE_ACTIVE
      ∨ s.global_data.state.status = mav_state.MAV_STATE_CRITICAL)
    (hz : CFloat.fgt sp.z (CFloat.fin (-1 / 10)) = true)
    (hphase : grounded_or_landing s.global_data.state.fly = false) :
    start_or_land cfg sp s
      = debug_message_buffer ("Sinking for LANDING. (z-sp lower than 10cm)")
          (on_global (param_write cfg.PARAM_POSITION_SETPOINT_Z (CFloat.fin (-2 / 10)))
            (on_global (fun g => { g with state := { g.state with
              fly := fly_state.FLY_SINKING } }) s)) := by
  unfold start_or_land
  rw [if_pos hstatus, if_pos hz]
  simp [hphase]

/-- C2 (as amended). Landing initiation: an accepted setpoint with
`z > -0.1`, received in a phase outside grounded, sinking, wait-landing,
landing and ramp-down, moves the phase to `FLY_SINKING` while the status is
`ACTIVE` or `CRITICAL`, and leaves the stored z-setpoint at `-0.2` while the
status is `ACTIVE`. -/
theorem setpoint_landing_initiation (cfg : Conf) (col : Collab) (chan : mavlink_channel_t)
    (msg : mavlink_message_t) (s : comm_state)
    (hid : msg.msgid = msgid_t.MAVLINK_MSG_ID_SET_LOCAL_POSITION_SETPOINT)
    (htarget : CFloat.feq (CFloat.ofNat (col.set_local_position_setpoint_decode msg).target_system)
      (param_at s.global_data cfg.PARAM_SYSTEM_ID) = true)
    (haccept : CFloat.feq (param_at s.global_data cfg.PARAM_POSITIONSETPOINT_ACCEPT)
      (CFloat.fin 1) = true)
    (hrange : setpoint_in_range s.global_data (col.set_local_position_setpoint_decode msg) = true)
    (hz : CFloat.fgt (col.set_local_position_setpoint_decode msg).z (CFloat.fin (-1 / 10)) = true)
    (hphase : grounded_or_landing s.global_data.state.fly = false) :
    (s.global_data.state.status = mav_state.MAV_STATE_ACTIVE
        ∨ s.global_data.state.status = mav_state.MAV_STATE_CRITICAL →
      (handle_mavlink_message cfg col chan msg s).global_data.state.fly
        = fly_state.FLY_SINKING) ∧
    (s.global_data.state.status = mav_state.MAV_STATE_ACTIVE →
      cfg.PARAM_POSITION_SETPOINT_Z < s.global_data.param.length →
      param_at (handle_mavlink_message cfg col chan msg s).global_data
        cfg.PARAM_POSITION_SETPOINT_Z = CFloat.fin (-2 / 10)) := by
  have hacc := handle_setpoint_accepted cfg (col.set_local_position_setpoint_decode msg)
    (forward_message col chan msg s) (by simpa using htarget) (by simpa using haccept)
    (by simpa using hrange)
  constructor
  · intro hstatus
    have hland := start_or_land_sinking cfg (col.set_local_position_setpoint_decode msg)
      (store_setpoint cfg (col.set_local_position_setpoint_decode msg)
        (forward_message col chan msg s)) (by simpa using hstatus) hz (by simpa using hphase)
    simp [handle_mavlink_message, dispatch_message, hid, hacc, hland]
  · intro hstatus hlen
    have hland := start_or_land_sinking cfg (col.set_local_position_setpoint_decode msg)
      (store_setpoint cfg (col.set_local_position_setpoint_decode msg)
        (forward_message col chan msg s)) (by simp [hstatus]) hz (by simpa using hphase)
    simp only [handle_mavlink_message, dispatch_message, hid, hacc, hland]
    simp only [emergency_sink, debug_message_buffer_global_data, on_global_global_data,
      store_setpoint_state, forward_message_global_data, hstatus, param_write_state]
    simp only [reduceCtorEq, or_self, if_false, debug_message_buffer_global_data,
      on_global_global_data]
    apply param_at_param_write_same
    simpa using hlen

/-- Witness of `setpoint_landing_initiation`: the demo vehicle, active in
`FLY_WAIT_MOTORS`, receives `z = 0`. -/
theorem setpoint_landing_initiation_witness :
    (handle_mavlink_message demoConf
        (demoCollab (demoSetpoint (CFloat.fin 0)) (demoParamSet [] (CFloat.fin 0)))
        mavlink_channel_t.MAVLINK_COMM_0
        (demoMsg msgid_t.MAVLINK_MSG_ID_SET_LOCAL_POSITION_SETPOINT)
        (demoState 0 mav_state.MAV_STATE_ACTIVE fly_state.FLY_WAIT_MOTORS)).global_data.state.fly
      = fly_state.FLY_SINKING ∧
    param_at (handle_mavlink_message demoConf
        (demoCollab (demoSetpoint (CFloat.fin 0)) (demoParamSet [] (CFloat.fin 0)))
        mavlink_channel_t.MAVLINK_COMM_0
        (demoMsg msgid_t.MAVLINK_MSG_ID_SET_LOCAL_POSITION_SETPOINT)
        (demoState 0 mav_state.MAV_STATE_ACTIVE fly_state.FLY_WAIT_MOTORS)).global_data
      demoConf.PARAM_POSITION_SETPOINT_Z = CFloat.fin (-2 / 10) :=
  have h := setpoint_landing_initiation demoConf
    (demoCollab (demoSetpoint (CFloat.fin 0)) (demoParamSet [] (CFloat.fin 0)))
    mavlink_channel_t.MAVLINK_COMM_0
    (demoMsg msgid_t.MAVLINK_MSG_ID_SET_LOCAL_POSITION_SETPOINT)
    (demoState 0 mav_state.MAV_STATE_ACTIVE fly_state.FLY_WAIT_MOTORS)
    rfl (by decide) (by decide)
    (by norm_num [setpoint_in_range, demoState, demoSetpoint, demoCollab, CFloat.fge,
      CFloat.fle])
    (by norm_num [demoSetpoint, demoCollab, CFloat.fgt, CFloat.flt])
    (by decide)
  ⟨h.1 (Or.inl rfl), h.2 rfl (by decide)⟩

/-- C2, counterexample. In `FLY_WAIT_MOTORS` the demo vehicle accepts a
setpoint with `z = 0.0` (addressed to it, acceptance on, within bounds).
With status `STANDBY` the phase is not `FLY_SINKING` afterwards and the stored
z-setpoint is not `-0.2`; with status `CRITICAL` the stored z-setpoint is not
`-0.2` either. -/
theorem setpoint_landing_status_counterexample :
    (CFloat.feq (CFloat.ofNat (demoSetpoint (CFloat.fin 0)).target_system)
        (param_at (demoState 0 mav_state.MAV_STATE_STANDBY fly_state.FLY_WAIT_MOTORS).global_data
          demoConf.PARAM_SYSTEM_ID) = true ∧
      CFloat.feq
        (param_at (demoState 0 mav_state.MAV_STATE_STANDBY fly_state.FLY_WAIT_MOTORS).global_data
          demoConf.PARAM_POSITIONSETPOINT_ACCEPT) (CFloat.fin 1) = true ∧
      setpoint_in_range
        (demoState 0 mav_state.MAV_STATE_STANDBY fly_state.FLY_WAIT_MOTORS).global_data
        (demoSetpoint (CFloat.fin 0)) = true) ∧
    (handle_mavlink_message demoConf
        (demoCollab (demoSetpoint (CFloat.fin 0)) (demoParamSet [] (CFloat.fin 0)))
        mavlink_channel_t.MAVLINK_COMM_0
        (demoMsg msgid_t.MAVLINK_MSG_ID_SET_LOCAL_POSITION_SETPOINT)
        (demoState 0 mav_state.MAV_STATE_STANDBY fly_state.FLY_WAIT_MOTORS)).global_data.state.fly
      ≠ fly_state.FLY_SINKING ∧
    param_at (handle_mavlink_message demoConf
        (demoCollab (demoSetpoint (CFloat.fin 0)) (demoParamSet [] (CFloat.fin 0)))
        mavlink_channel_t.MAVLINK_COMM_0
        (demoMsg msgid_t.MAVLINK_MSG_ID_SET_LOCAL_POSITION_SETPOINT)
        (demoState 0 mav_state.MAV_STATE_STANDBY fly_state.FLY_WAIT_MOTORS)).global_data
      demoConf.PARAM_POSITION_SETPOINT_Z ≠ CFloat.fin (-2 / 10) ∧
    param_at (handle_mavlink_message demoConf
        (demoCollab (demoSetpoint (CFloat.fin 0)) (demoParamSet [] (CFloat.fin 0)))
        mavlink_channel_t.MAVLINK_COMM_0
        (demoMsg msgid_t.MAVLINK_MSG_ID_SET_LOCAL_POSITION_SETPOINT)
        (demoState 0 mav_state.MAV_STATE_CRITICAL fly_state.FLY_WAIT_MOTORS)).global_data
      demoConf.PARAM_POSITION_SETPOINT_Z ≠ CFloat.fin (-2 / 10) := by
  refine ⟨⟨by decide, by decide, by decide⟩, ?_, ?_, ?_⟩
  · simp [handle_mavlink_message, dispatch_message, demoMsg, handle_set_local_position_setpoint,
      demoCollab, demoSetpoint, demoState, demoConf, demoParam, param_at, CFloat.feq,
      CFloat.ofNat, setpoint_in_range, CFloat.fge, CFloat.fle, start_or_land, emergency_sink]
  · simp [handle_mavlink_message, dispatch_message, demoMsg, handle_set_local_position_setpoint,
      demoCollab, demoSetpoint, demoState, demoConf, demoParam, param_at, CFloat.feq,
      CFloat.ofNat, setpoint_in_range, CFloat.fge, CFloat.fle, start_or_land, emergency_sink,
      store_setpoint]
    norm_num
  · simp [handle_mavlink_message, dispatch_message, demoMsg, handle_set_local_position_setpoint,
      demoCollab, demoSetpoint, demoState, demoConf, demoParam, param_at, CFloat.feq,
      CFloat.ofNat, setpoint_in_range, CFloat.fge, CFloat.fle, start_or_land, emergency_sink,
      store_setpoint, CFloat.fgt, CFloat.flt, grounded_or_landing]
    norm_num

/-- C3. Emergency override: with status `EMERGENCY`, after any accepted
setpoint the stored z-setpoint is `-0.7`. -/
theorem setpoint_emergency_override (cfg : Conf) (col : Collab) (chan : mavlink_channel_t)
    (msg : mavlink_message_t) (s : comm_state)
    (hid : msg.msgid = msgid_t.MAVLINK_MSG_ID_SET_LOCAL_POSITION_SETPOINT)
    (hstatus : s.global_data.state.status = mav_state.MAV_STATE_EMERGENCY)
    (htarget : CFloat.feq (CFloat.ofNat (col.set_local_position_setpoint_decode msg).target_system)
      (param_at s.global_data cfg.PARAM_SYSTEM_ID) = true)
    (haccept : CFloat.feq (param_at s.global_data cfg.PARAM_POSITIONSETPOINT_ACCEPT)
      (CFloat.fin 1) = true)
    (hrange : setpoint_in_range s.global_data (col.set_local_position_setpoint_decode msg) = true)
    (hlen : cfg.PARAM_POSITION_SETPOINT_Z < s.global_data.param.length) :
    param_at (handle_mavlink_message cfg col chan msg s).global_data
      cfg.PARAM_POSITION_SETPOINT_Z = CFloat.fin (-7 / 10) := by
  have hacc := handle_setpoint_accepted cfg (col.set_local_position_setpoint_decode msg)
    (forward_message col chan msg s) (by simpa using htarget) (by simpa using haccept)
    (by simpa using hrange)
  have hsl : start_or_land cfg (col.set_local_position_setpoint_decode msg)
      (store_setpoint cfg (col.set_local_position_setpoint_decode msg)
        (forward_message col chan msg s))
      = store_setpoint cfg (col.set_local_position_setpoint_decode msg)
        (forward_message col chan msg s) := by
    simp [start_or_land, hstatus]
  simp only [handle_mavlink_message, dispatch_message, hid, hacc, hsl]
  simp only [emergency_sink, debug_message_buffer_global_data, store_setpoint_state,
    forward_message_global_data, hstatus, true_or, if_true, on_global_global_data]
  apply param_at_param_write_same
  simpa using hlen

/-- Witness of `setpoint_emergency_override`: the demo vehicle in status
`EMERGENCY` receives `z = -1`. -/
theorem setpoint_emergency_override_witness :
    param_at (handle_mavlink_message demoConf
        (demoCollab (demoSetpoint (CFloat.fin (-1))) (demoParamSet [] (CFloat.fin 0)))
        mavlink_channel_t.MAVLINK_COMM_1
        (demoMsg msgid_t.MAVLINK_MSG_ID_SET_LOCAL_POSITION_SETPOINT)
        (demoState 128 mav_state.MAV_STATE_EMERGENCY (fly_state.FLY_OTHER 4))).global_data
      demoConf.PARAM_POSITION_SETPOINT_Z = CFloat.fin (-7 / 10) :=
  setpoint_emergency_override demoConf
    (demoCollab (demoSetpoint (CFloat.fin (-1))) (demoParamSet [] (CFloat.fin 0)))
    mavlink_channel_t.MAVLINK_COMM_1
    (demoMsg msgid_t.MAVLINK_MSG_ID_SET_LOCAL_POSITION_SETPOINT)
    (demoState 128 mav_state.MAV_STATE_EMERGENCY (fly_state.FLY_OTHER 4))
    rfl rfl (by decide) (by decide) (by decide) (by decide)

/-- C4. Out-of-range rejection: when one of `x`, `y`, `z` of a setpoint
message lies outside the configured bounds of its axis, handling the message
leaves `global_data` (the stored setpoints, the whole parameter table, the
flight phase) and the streaming cursor exactly as they were. -/
theorem setpoint_out_of_range_rejected (cfg : Conf) (col : Collab) (chan : mavlink_channel_t)
    (msg : mavlink_message_t) (s : comm_state)
    (hid : msg.msgid = msgid_t.MAVLINK_MSG_ID_SET_LOCAL_POSITION_SETPOINT)
    (hout :
      outside_bounds (col.set_local_position_setpoint_decode msg).x
          s.global_data.position_setpoint_min.x s.global_data.position_setpoint_max.x
      ∨ outside_bounds (col.set_local_position_setpoint_decode msg).y
          s.global_data.position_setpoint_min.y s.global_data.position_setpoint_max.y
      ∨ outside_bounds (col.set_local_position_setpoint_decode msg).z
          s.global_data.position_setpoint_min.z s.global_data.position_setpoint_max.z) :
    (handle_mavlink_message cfg col chan msg s).global_data = s.global_data ∧
    (handle_mavlink_message cfg col chan msg s).m_parameter_i = s.m_parameter_i := by
  have hrange : setpoint_in_range (forward_message col chan msg s).global_data
      (col.set_local_position_setpoint_decode msg) = false := by
    rw [forward_message_global_data, Bool.eq_false_iff]
    intro h
    simp only [setpoint_in_range, Bool.and_eq_true] at h
    unfold outside_bounds at hout
    tauto
  simp only [handle_mavlink_message, dispatch_message, hid, handle_set_local_position_setpoint,
    hrange]
  constructor
  · split
    · split <;> simp
    · simp
  · split
    · split <;> simp
    · simp

/-- Witness of `setpoint_out_of_range_rejected`: the demo vehicle (bounds
`[-5, 5]`) receives `z = -6`. -/
theorem setpoint_out_of_range_rejected_witness :
    (handle_mavlink_message demoConf
        (demoCollab (demoSetpoint (CFloat.fin (-6))) (demoParamSet [] (CFloat.fin 0)))
        mavlink_channel_t.MAVLINK_COMM_0
        (demoMsg msgid_t.MAVLINK_MSG_ID_SET_LOCAL_POSITION_SETPOINT)
        (demoState 128 mav_state.MAV_STATE_ACTIVE fly_state.FLY_GROUNDED)).global_data
      = (demoState 128 mav_state.MAV_STATE_ACTIVE fly_state.FLY_GROUNDED).global_data ∧
    (handle_mavlink_message demoConf
        (demoCollab (demoSetpoint (CFloat.fin (-6))) (demoParamSet [] (CFloat.fin 0)))
        mavlink_channel_t.MAVLINK_COMM_0
        (demoMsg msgid_t.MAVLINK_MSG_ID_SET_LOCAL_POSITION_SETPOINT)
        (demoState 128 mav_state.MAV_STATE_ACTIVE fly_state.FLY_GROUNDED)).m_parameter_i
      = (demoState 128 mav_state.MAV_STATE_ACTIVE fly_state.FLY_GROUNDED).m_parameter_i :=
  setpoint_out_of_range_rejected demoConf
    (demoCollab (demoSetpoint (CFloat.fin (-6))) (demoParamSet [] (CFloat.fin 0)))
    mavlink_channel_t.MAVLINK_COMM_0
    (demoMsg msgid_t.MAVLINK_MSG_ID_SET_LOCAL_POSITION_SETPOINT)
    (demoState 128 mav_state.MAV_STATE_ACTIVE fly_state.FLY_GROUNDED)
    rfl (Or.inr (Or.inr (by unfold outside_bounds; decide)))

/-! ## The name matcher at the boundary -/

/-- C5, counterexample. With 16-byte names, the stored name `"ALT\0..."`
does not match the requested key `"ALTX\0..."`: at `j = 3` the stored
terminator is compared with `'X'` and clears the flag before the loop
stops. -/
theorem name_match_alt_altx_counterexample :
    ¬ (name_match 16 [65, 76, 84, 0, 0, 0, 0, 0, 0, 0, 0, 0, 0, 0, 0, 0]
        [65, 76, 84, 88, 0, 0, 0, 0, 0, 0, 0, 0, 0, 0, 0, 0] = true) := by
  decide

/-- C5 (as amended). For every name length of at least four bytes and
whatever follows the first four bytes, the stored name `"ALT\0"` matches the
key `"ALT\0"` and does not match the key `"ALTX"`. -/
theorem name_match_alt_boundary (nameLength : Nat) (pad keyPad : List Nat)
    (hlen : 4 ≤ nameLength) :
    name_match nameLength ([65, 76, 84, 0] ++ pad) ([65, 76, 84, 0] ++ keyPad) = true ∧
    name_match nameLength ([65, 76, 84, 0] ++ pad) ([65, 76, 84, 88] ++ keyPad) = false := by
  obtain ⟨k, rfl⟩ := Nat.exists_eq_add_of_le hlen
  have h4 : 4 + k = k + 1 + 1 + 1 + 1 := by omega
  rw [h4]
  constructor <;> simp [name_match, match_loop]

/-- Witness of `name_match_alt_boundary` with 16-byte names, zero padding
after the stored name and the bytes `"Z\0..."` after the key. -/
theorem name_match_alt_boundary_witness :
    name_match 16 ([65, 76, 84, 0] ++ List.replicate 12 0)
        ([65, 76, 84, 0] ++ (90 :: List.replicate 11 0)) = true ∧
    name_match 16 ([65, 76, 84, 0] ++ List.replicate 12 0)
        ([65, 76, 84, 88] ++ List.replicate 12 0) = false :=
  ⟨(name_match_alt_boundary 16 (List.replicate 12 0) (90 :: List.replicate 11 0)
      (by decide)).1,
   (name_match_alt_boundary 16 (List.replicate 12 0) (List.replicate 12 0) (by decide)).2⟩

/-! ## The forwarding switch -/

theorem forwarded_from_comm0_iff (id : msgid_t) :
    forwarded_from_comm0 id = true ↔ id ∉ exclusion_channel1 := by
  simp [forwarded_from_comm0, exclusion_channel1, not_or, and_assoc]

theorem forwarded_from_comm1_iff (id : msgid_t) :
    forwarded_from_comm1 id = true ↔ id ∉ exclusion_channel2 := by
  simp [forwarded_from_comm1, exclusion_channel2, not_or, and_assoc]

/-- The forwarding switch on `MAVLINK_COMM_0` in closed form. -/
theorem forward_message_comm0 (col : Collab) (msg : mavlink_message_t) (s : comm_state) :
    forward_message col mavlink_channel_t.MAVLINK_COMM_0 msg s
      = { s with uart1_tx := s.uart1_tx ++
            (if msg.msgid ∈ exclusion_channel1 then []
             else (col.mavlink_msg_to_send_buffer msg).map tx_item.byte) } := by
  unfold forward_message
  by_cases h : forwarded_from_comm0 msg.msgid = true
  · have h2 := (forwarded_from_comm0_iff _).1 h
    simp [h, h2, transmit_buffer1_eq]
  · have h2 : msg.msgid ∈ exclusion_channel1 := by
      by_contra hc
      exact h ((forwarded_from_comm0_iff _).2 hc)
    simp [h, h2]

/-- The forwarding switch on `MAVLINK_COMM_1` in closed form. -/
theorem forward_message_comm1 (col : Collab) (msg : mavlink_message_t) (s : comm_state) :
    forward_message col mavlink_channel_t.MAVLINK_COMM_1 msg s
      = { s with uart0_tx := s.uart0_tx ++
            (if msg.msgid ∈ exclusion_channel2 then []
             else (col.mavlink_msg_to_send_buffer msg).map tx_item.byte) } := by
  unfold forward_message
  by_cases h : forwarded_from_comm1 msg.msgid = true
  · have h2 := (forwarded_from_comm1_iff _).1 h
    simp [h, h2, transmit_buffer0_eq]
  · have h2 : msg.msgid ∈ exclusion_channel2 := by
      by_contra hc
      exact h ((forwarded_from_comm1_iff _).2 hc)
    simp [h, h2]

/-- C9. Cross-link forwarding policy: a message arriving on channel 1
(`MAVLINK_COMM_0`) has its re-encoded bytes appended, in order, to the
transmit path of `uart1` exactly when its type is outside the exclusion set
of channel 1, and the forwarding switch changes nothing else; likewise from
channel 2 (`MAVLINK_COMM_1`) to `uart0` with the exclusion set of channel 2.
On both channels the type-specific handler runs on the state the forwarding
left. -/
theorem cross_link_forwarding_policy (cfg : Conf) (col : Collab) (msg : mavlink_message_t)
    (s : comm_state) :
    (forward_message col mavlink_channel_t.MAVLINK_COMM_0 msg s
      = { s with uart1_tx := s.uart1_tx ++
            (if msg.msgid ∈ exclusion_channel1 then []
             else (col.mavlink_msg_to_send_buffer msg).map tx_item.byte) }) ∧
    (forward_message col mavlink_channel_t.MAVLINK_COMM_1 msg s
      = { s with uart0_tx := s.uart0_tx ++
            (if msg.msgid ∈ exclusion_channel2 then []
             else (col.mavlink_msg_to_send_buffer msg).map tx_item.byte) }) ∧
    (∀ chan : mavlink_channel_t,
      handle_mavlink_message cfg col chan msg s
        = dispatch_message cfg col chan msg (forward_message col chan msg s)) :=
  ⟨forward_message_comm0 col msg s, forward_message_comm1 col msg s, fun _ => rfl⟩

/-! ## The param-set case -/

theorem param_set_body_skip (cfg : Conf) (set : mavlink_param_set_t) (s : comm_state) (i : Nat)
    (h : param_set_writes cfg set s.global_data i = false) :
    param_set_body cfg set s i = s := by
  unfold param_set_body
  unfold param_set_writes at h
  by_cases hm : name_match cfg.ONBOARD_PARAM_NAME_LENGTH (param_name_at s.global_data i)
      set.param_id = true
  · rw [hm, Bool.true_and] at h
    rw [if_pos hm, h]
    simp
  · rw [if_neg hm]

theorem param_set_body_write (cfg : Conf) (set : mavlink_param_set_t) (s : comm_state) (i : Nat)
    (h : param_set_writes cfg set s.global_data i = true) :
    param_set_body cfg set s i
      = { s with
          global_data := param_write i set.param_value s.global_data
          uart0_tx := s.uart0_tx ++ [tx_item.msg (out_msg.param_value
            (param_name_at s.global_data i)
            (param_at (param_write i set.param_value s.global_data) i)
            cfg.ONBOARD_PARAM_COUNT (s.m_parameter_i : Int))]
          uart1_tx := s.uart1_tx ++ [tx_item.msg (out_msg.param_value
            (param_name_at s.global_data i)
            (param_at (param_write i set.param_value s.global_data) i)
            cfg.ONBOARD_PARAM_COUNT (s.m_parameter_i : Int))]
          debug_log := s.debug_log ++
            [debug_entry.text ("Parameter received param id=" ++ toString i)] } := by
  unfold param_set_body
  unfold param_set_writes at h
  rw [Bool.and_eq_true] at h
  rw [if_pos h.1, h.2]
  simp [mavlink_send, debug_message_buffer, on_global]

/-- A loop whose every pass leaves the state as it is returns the state it
started from. -/
theorem foldl_fixed {σ ι : Type} (f : σ → ι → σ) (s : σ) (l : List ι)
    (h : ∀ i ∈ l, f s i = s) : l.foldl f s = s := by
  induction l with
  | nil => rfl
  | cons a as ih =>
      rw [List.foldl_cons, h a (List.mem_cons_self a as)]
      exact ih (fun i hi => h i (List.mem_cons_of_mem a hi))

/-- When no entry is written, the param-set case returns the state it
received. -/
theorem handle_param_set_noop (cfg : Conf) (set : mavlink_param_set_t) (s : comm_state)
    (h : ∀ i, i < cfg.ONBOARD_PARAM_COUNT → param_set_writes cfg set s.global_data i = false) :
    handle_param_set cfg set s = s := by
  unfold handle_param_set
  split
  · apply foldl_fixed
    intro i hi
    exact param_set_body_skip cfg set s i (h i (List.mem_range.1 hi))
  · rfl

theorem any_param_value_false (l : List tx_item)
    (h : ∀ it ∈ l, is_param_value it = false) : l.any is_param_value = false := by
  induction l with
  | nil => rfl
  | cons a as ih =>
      rw [List.any_cons, h a (List.mem_cons_self a as),
        ih (fun it hit => h it (List.mem_cons_of_mem a hit))]
      rfl

theorem emitted0_forward (col : Collab) (chan : mavlink_channel_t) (msg : mavlink_message_t)
    (s : comm_state) :
    (emitted0 s (forward_message col chan msg s)).any is_param_value = false := by
  apply any_param_value_false
  cases chan
  · simp [forward_message_comm0, emitted0]
  · rw [forward_message_comm1]
    simp only [emitted0, List.drop_left]
    split
    · simp
    · intro it hit
      obtain ⟨c, _, rfl⟩ := List.mem_map.1 hit
      rfl

theorem emitted1_forward (col : Collab) (chan : mavlink_channel_t) (msg : mavlink_message_t)
    (s : comm_state) :
    (emitted1 s (forward_message col chan msg s)).any is_param_value = false := by
  apply any_param_value_false
  cases chan
  · rw [forward_message_comm0]
    simp only [emitted1, List.drop_left]
    split
    · simp
    · intro it hit
      obtain ⟨c, _, rfl⟩ := List.mem_map.1 hit
      rfl
  · simp [forward_message_comm1, emitted1]

/-- C6. Invalid parameter value: a param-set message whose new value is
NaN or infinite leaves every entry of the parameter table as it was, and
among what its handling writes to either link there is no param-value
message. -/
theorem param_set_invalid_value_rejected (cfg : Conf) (col : Collab) (chan : mavlink_channel_t)
    (msg : mavlink_message_t) (s : comm_state)
    (hid : msg.msgid = msgid_t.MAVLINK_MSG_ID_PARAM_SET)
    (hbad : CFloat.isnan (col.param_set_decode msg).param_value = true
      ∨ CFloat.isinf (col.param_set_decode msg).param_value = true) :
    (handle_mavlink_message cfg col chan msg s).global_data.param = s.global_data.param ∧
    ((emitted0 s (handle_mavlink_message cfg col chan msg s)).any is_param_value
        = false) ∧
    ((emitted1 s (handle_mavlink_message cfg col chan msg s)).any is_param_value
        = false) := by
  have hnoop : handle_mavlink_message cfg col chan msg s = forward_message col chan msg s := by
    simp only [handle_mavlink_message, dispatch_message, hid]
    apply handle_param_set_noop
    intro i _
    unfold param_set_writes
    rcases hbad with h | h <;> simp [h]
  rw [hnoop]
  exact ⟨by simp, emitted0_forward col chan msg s, emitted1_forward col chan msg s⟩

/-- Witness of `param_set_invalid_value_rejected`: a param-set of entry 17
of the demo table to NaN. -/
theorem param_set_invalid_value_rejected_witness :
    (handle_mavlink_message demoConf
        (demoCollab (demoSetpoint (CFloat.fin 0)) (demoParamSet [80, 82, 0] CFloat.nan))
        mavlink_channel_t.MAVLINK_COMM_1 (demoMsg msgid_t.MAVLINK_MSG_ID_PARAM_SET)
        (demoState 0 mav_state.MAV_STATE_STANDBY fly_state.FLY_GROUNDED)).global_data.param
      = (demoState 0 mav_state.MAV_STATE_STANDBY fly_state.FLY_GROUNDED).global_data.param ∧
    ((emitted0 (demoState 0 mav_state.MAV_STATE_STANDBY fly_state.FLY_GROUNDED)
        (handle_mavlink_message demoConf
          (demoCollab (demoSetpoint (CFloat.fin 0)) (demoParamSet [80, 82, 0] CFloat.nan))
          mavlink_channel_t.MAVLINK_COMM_1 (demoMsg msgid_t.MAVLINK_MSG_ID_PARAM_SET)
          (demoState 0 mav_state.MAV_STATE_STANDBY fly_state.FLY_GROUNDED))).any is_param_value
        = false) ∧
    ((emitted1 (demoState 0 mav_state.MAV_STATE_STANDBY fly_state.FLY_GROUNDED)
        (handle_mavlink_message demoConf
          (demoCollab (demoSetpoint (CFloat.fin 0)) (demoParamSet [80, 82, 0] CFloat.nan))
          mavlink_channel_t.MAVLINK_COMM_1 (demoMsg msgid_t.MAVLINK_MSG_ID_PARAM_SET)
          (demoState 0 mav_state.MAV_STATE_STANDBY fly_state.FLY_GROUNDED))).any is_param_value
        = false) :=
  param_set_invalid_value_rejected demoConf
    (demoCollab (demoSetpoint (CFloat.fin 0)) (demoParamSet [80, 82, 0] CFloat.nan))
    mavlink_channel_t.MAVLINK_COMM_1 (demoMsg msgid_t.MAVLINK_MSG_ID_PARAM_SET)
    (demoState 0 mav_state.MAV_STATE_STANDBY fly_state.FLY_GROUNDED)
    rfl (Or.inl rfl)

theorem feq_self_of_finite (v : CFloat) (hnan : CFloat.isnan v = false)
    (hinf : CFloat.isinf v = false) : CFloat.feq v v = true := by
  cases v <;> simp_all [CFloat.isnan, CFloat.isinf, CFloat.feq]

theorem param_set_writes_congr (cfg : Conf) (set : mavlink_param_set_t) (g h : global_data_t)
    (i : Nat) (hname : param_name_at g i = param_name_at h i)
    (hval : param_at g i = param_at h i) :
    param_set_writes cfg set g i = param_set_writes cfg set h i := by
  unfold param_set_writes
  rw [hname, hval]

theorem param_name_at_congr (g h : global_data_t) (i : Nat)
    (hname : g.param_name = h.param_name) : param_name_at g i = param_name_at h i := by
  unfold param_name_at
  rw [hname]

theorem mem_emitted0_of_earlier (s t u : comm_state) (it : tx_item)
    (hst : ∃ a, t.uart0_tx = s.uart0_tx ++ a) (htu : ∃ b, u.uart0_tx = t.uart0_tx ++ b)
    (h : it ∈ emitted0 s t) : it ∈ emitted0 s u := by
  obtain ⟨a, ha⟩ := hst
  obtain ⟨b, hb⟩ := htu
  unfold emitted0 at *
  rw [ha] at h
  rw [hb, ha, List.append_assoc]
  simp only [List.drop_left] at *
  exact List.mem_append_left _ h

theorem mem_emitted1_of_earlier (s t u : comm_state) (it : tx_item)
    (hst : ∃ a, t.uart1_tx = s.uart1_tx ++ a) (htu : ∃ b, u.uart1_tx = t.uart1_tx ++ b)
    (h : it ∈ emitted1 s t) : it ∈ emitted1 s u := by
  obtain ⟨a, ha⟩ := hst
  obtain ⟨b, hb⟩ := htu
  unfold emitted1 at *
  rw [ha] at h
  rw [hb, ha, List.append_assoc]
  simp only [List.drop_left] at *
  exact List.mem_append_left _ h

theorem mem_emitted0_last (s t u : comm_state) (it : tx_item)
    (hst : ∃ a, t.uart0_tx = s.uart0_tx ++ a) (hu : u.uart0_tx = t.uart0_tx ++ [it]) :
    it ∈ emitted0 s u := by
  obtain ⟨a, ha⟩ := hst
  unfold emitted0
  rw [hu, ha, List.append_assoc]
  simp

theorem mem_emitted1_last (s t u : comm_state) (it : tx_item)
    (hst : ∃ a, t.uart1_tx = s.uart1_tx ++ a) (hu : u.uart1_tx = t.uart1_tx ++ [it]) :
    it ∈ emitted1 s u := by
  obtain ⟨a, ha⟩ := hst
  unfold emitted1
  rw [hu, ha, List.append_assoc]
  simp

/-- Appending to a list that extends `l` gives a list that extends `l`. -/
theorem extends_append {α : Type} (l m : List α) (h : ∃ e, m = l ++ e) (x : List α) :
    ∃ e, m ++ x = l ++ e := by
  obtain ⟨e, he⟩ := h
  exact ⟨e ++ x, by rw [he, List.append_assoc]⟩

/-- The loop invariant holds before the first pass. -/
theorem param_set_inv_zero (cfg : Conf) (set : mavlink_param_set_t) (s : comm_state) :
    ParamSetInv cfg set s 0 s where
  names := rfl
  cursor := rfl
  length := rfl
  tx0 := ⟨[], by simp⟩
  tx1 := ⟨[], by simp⟩
  later := fun _ _ => rfl
  unmatched := fun _ _ => rfl
  settled := fun k hk => absurd hk (Nat.not_lt_zero k)
  written := fun k hk => absurd hk (Nat.not_lt_zero k)

/-- One pass of the loop of the param-set case keeps the loop invariant. -/
theorem param_set_inv_step (cfg : Conf) (set : mavlink_param_set_t) (s t : comm_state) (n : Nat)
    (inv : ParamSetInv cfg set s n t) :
    ParamSetInv cfg set s (n + 1) (param_set_body cfg set t n) := by
  have hname : param_name_at t.global_data n = param_name_at s.global_data n :=
    param_name_at_congr _ _ _ inv.names
  have hval : param_at t.global_data n = param_at s.global_data n := inv.later n (le_refl n)
  have hw : param_set_writes cfg set t.global_data n = param_set_writes cfg set s.global_data n :=
    param_set_writes_congr cfg set _ _ n hname hval
  by_cases hwr : param_set_writes cfg set s.global_data n = true
  · -- the pass writes entry `n`
    have hmatch : name_match cfg.ONBOARD_PARAM_NAME_LENGTH (param_name_at s.global_data n)
        set.param_id = true := by
      unfold param_set_writes at hwr
      rw [Bool.and_eq_true] at hwr
      exact hwr.1
    have hgood : CFloat.isnan set.param_value = false ∧ CFloat.isinf set.param_value = false := by
      unfold param_set_writes at hwr
      simp only [Bool.and_eq_true, Bool.not_eq_true'] at hwr
      exact ⟨hwr.2.1.2, hwr.2.2⟩
    rw [param_set_body_write cfg set t n (hw.trans hwr)]
    refine
      { names := by simpa using inv.names
        cursor := inv.cursor
        length := by simpa using inv.length
        tx0 := extends_append _ _ inv.tx0 _
        tx1 := extends_append _ _ inv.tx1 _
        later := ?_
        unmatched := ?_
        settled := ?_
        written := ?_ }
    · intro k hk
      have hne : n ≠ k := by omega
      simp only [param_at_param_write_other n k _ _ hne]
      exact inv.later k (by omega)
    · intro k hk
      have hne : n ≠ k := by
        rintro rfl
        rw [hmatch] at hk
        exact Bool.noConfusion hk
      simp only [param_at_param_write_other n k _ _ hne]
      exact inv.unmatched k hk
    · intro k hk hlen hm hnan hinf
      by_cases hkn : k = n
      · subst hkn
        have hl : k < t.global_data.param.length := by rw [inv.length]; exact hlen
        simp only [param_at_param_write_same k _ _ hl]
        exact feq_self_of_finite _ hnan hinf
      · have hne : n ≠ k := fun h => hkn h.symm
        simp only [param_at_param_write_other n k _ _ hne]
        exact inv.settled k (by omega) hlen hm hnan hinf
    · intro k hk hlen hkw
      by_cases hkn : k = n
      · subst hkn
        have hl : k < t.global_data.param.length := by rw [inv.length]; exact hlen
        refine ⟨by simp only [param_at_param_write_same k _ _ hl], ?_, ?_⟩
        · apply mem_emitted0_last s t _ _ inv.tx0
          simp only [param_set_broadcast, param_at_param_write_same k _ _ hl, hname, inv.cursor]
        · apply mem_emitted1_last s t _ _ inv.tx1
          simp only [param_set_broadcast, param_at_param_write_same k _ _ hl, hname, inv.cursor]
      · have hne : n ≠ k := fun h => hkn h.symm
        obtain ⟨h1, h2, h3⟩ := inv.written k (by omega) hlen hkw
        refine ⟨by simp only [param_at_param_write_other n k _ _ hne]; exact h1, ?_, ?_⟩
        · exact mem_emitted0_of_earlier s t _ _ inv.tx0 ⟨_, rfl⟩ h2
        · exact mem_emitted1_of_earlier s t _ _ inv.tx1 ⟨_, rfl⟩ h3
  · -- the pass leaves the state as it is
    have hwf : param_set_writes cfg set s.global_data n = false := by
      simpa using hwr
    rw [param_set_body_skip cfg set t n (hw.trans hwf)]
    refine
      { names := inv.names
        cursor := inv.cursor
        length := inv.length
        tx0 := inv.tx0
        tx1 := inv.tx1
        later := fun k hk => inv.later k (by omega)
        unmatched := inv.unmatched
        settled := ?_
        written := ?_ }
    · intro k hk hlen hm hnan hinf
      by_cases hkn : k = n
      · subst hkn
        rw [hval]
        unfold param_set_writes at hwf
        simp only [hm, hnan, hinf, Bool.true_and, Bool.not_false, Bool.and_true,
          CFloat.fne, Bool.not_eq_false'] at hwf
        exact hwf
      · exact inv.settled k (by omega) hlen hm hnan hinf
    · intro k hk hlen hkw
      by_cases hkn : k = n
      · subst hkn
        rw [hwf] at hkw
        exact Bool.noConfusion hkw
      · exact inv.written k (by omega) hlen hkw

/-- The loop invariant holds after any number of passes. -/
theorem param_set_inv_loop (cfg : Conf) (set : mavlink_param_set_t) (s : comm_state) (n : Nat) :
    ParamSetInv cfg set s n ((List.range n).foldl (param_set_body cfg set) s) := by
  induction n with
  | zero => exact param_set_inv_zero cfg set s
  | succ m ih =>
      rw [List.range_succ, List.foldl_append]
      exact param_set_inv_step cfg set s _ m ih

theorem forward_message_uart0_extends (col : Collab) (chan : mavlink_channel_t)
    (msg : mavlink_message_t) (s : comm_state) :
    ∃ e, (forward_message col chan msg s).uart0_tx = s.uart0_tx ++ e := by
  cases chan
  · exact ⟨[], by simp [forward_message_comm0]⟩
  · rw [forward_message_comm1]
    exact ⟨_, rfl⟩

theorem forward_message_uart1_extends (col : Collab) (chan : mavlink_channel_t)
    (msg : mavlink_message_t) (s : comm_state) :
    ∃ e, (forward_message col chan msg s).uart1_tx = s.uart1_tx ++ e := by
  cases chan
  · rw [forward_message_comm0]
    exact ⟨_, rfl⟩
  · exact ⟨[], by simp [forward_message_comm1]⟩

theorem mem_emitted0_of_later (s t u : comm_state) (it : tx_item)
    (hst : ∃ a, t.uart0_tx = s.uart0_tx ++ a) (htu : ∃ b, u.uart0_tx = t.uart0_tx ++ b)
    (h : it ∈ emitted0 t u) : it ∈ emitted0 s u := by
  obtain ⟨a, ha⟩ := hst
  obtain ⟨b, hb⟩ := htu
  unfold emitted0 at *
  rw [hb] at h
  rw [hb, ha, List.append_assoc]
  simp only [List.drop_left] at *
  exact List.mem_append_right _ h

theorem mem_emitted1_of_later (s t u : comm_state) (it : tx_item)
    (hst : ∃ a, t.uart1_tx = s.uart1_tx ++ a) (htu : ∃ b, u.uart1_tx = t.uart1_tx ++ b)
    (h : it ∈ emitted1 t u) : it ∈ emitted1 s u := by
  obtain ⟨a, ha⟩ := hst
  obtain ⟨b, hb⟩ := htu
  unfold emitted1 at *
  rw [hb] at h
  rw [hb, ha, List.append_assoc]
  simp only [List.drop_left] at *
  exact List.mem_append_right _ h

/-- After the loop of the param-set case has run, no entry satisfies the
write guard for the same decoded message. -/
theorem param_set_writes_after_loop (cfg : Conf) (set : mavlink_param_set_t) (s : comm_state)
    (hlen : cfg.ONBOARD_PARAM_COUNT ≤ s.global_data.param.length) (i : Nat)
    (hi : i < cfg.ONBOARD_PARAM_COUNT) :
    param_set_writes cfg set
      ((List.range cfg.ONBOARD_PARAM_COUNT).foldl (param_set_body cfg set) s).global_data i
      = false := by
  have inv := param_set_inv_loop cfg set s cfg.ONBOARD_PARAM_COUNT
  have hname := param_name_at_congr _ _ i inv.names
  have hs := inv.settled i hi (by omega)
  unfold param_set_writes
  rw [hname]
  cases hm : name_match cfg.ONBOARD_PARAM_NAME_LENGTH (param_name_at s.global_data i)
    set.param_id
  · simp
  · cases hnan : CFloat.isnan set.param_value
    · cases hinf : CFloat.isinf set.param_value
      · simp [CFloat.fne, hs hm hnan hinf]
      · simp
    · simp

/-- Running the param-set case on a state whose `global_data` is the one a
first run with the same decoded message left returns that state. -/
theorem handle_param_set_again (cfg : Conf) (set : mavlink_param_set_t) (s u : comm_state)
    (hlen : cfg.ONBOARD_PARAM_COUNT ≤ s.global_data.param.length)
    (hu : u.global_data = (handle_param_set cfg set s).global_data) :
    handle_param_set cfg set u = u := by
  by_cases h1 : for_this_system cfg s.global_data set.target_system set.target_component = true
  · apply handle_param_set_noop
    intro i hi
    rw [hu]
    unfold handle_param_set
    rw [if_pos h1]
    exact param_set_writes_after_loop cfg set s hlen i hi
  · have hs : handle_param_set cfg set s = s := by
      unfold handle_param_set
      rw [if_neg h1]
    rw [hs] at hu
    unfold handle_param_set
    rw [hu, if_neg h1]

/-- C7. Parameter set is idempotent: when the new value of a param-set
message equals the current value of every entry its name matches, the table
is unchanged and no param-value message is written to either link; and, on a
table that holds all `ONBOARD_PARAM_COUNT` entries, handling the same
param-set message a second time (on either channel) leaves the table as the
first handling left it and writes no param-value message. -/
theorem param_set_idempotent (cfg : Conf) (col : Collab) (chan chan2 : mavlink_channel_t)
    (msg : mavlink_message_t) (s : comm_state)
    (hid : msg.msgid = msgid_t.MAVLINK_MSG_ID_PARAM_SET) :
    ((∀ i, i < cfg.ONBOARD_PARAM_COUNT →
        name_match cfg.ONBOARD_PARAM_NAME_LENGTH (param_name_at s.global_data i)
          (col.param_set_decode msg).param_id = true →
        CFloat.feq (param_at s.global_data i) (col.param_set_decode msg).param_value = true) →
      (handle_mavlink_message cfg col chan msg s).global_data.param = s.global_data.param ∧
      ((emitted0 s (handle_mavlink_message cfg col chan msg s)).any is_param_value
        = false) ∧
      ((emitted1 s (handle_mavlink_message cfg col chan msg s)).any is_param_value
        = false)) ∧
    (cfg.ONBOARD_PARAM_COUNT ≤ s.global_data.param.length →
      (handle_mavlink_message cfg col chan2 msg
          (handle_mavlink_message cfg col chan msg s)).global_data.param
        = (handle_mavlink_message cfg col chan msg s).global_data.param ∧
      ((emitted0 (handle_mavlink_message cfg col chan msg s)
          (handle_mavlink_message cfg col chan2 msg (handle_mavlink_message cfg col chan msg s))).any is_param_value
        = false) ∧
      ((emitted1 (handle_mavlink_message cfg col chan msg s)
          (handle_mavlink_message cfg col chan2 msg (handle_mavlink_message cfg col chan msg s))).any is_param_value
        = false)) := by
  constructor
  · intro hsame
    have hnoop : handle_mavlink_message cfg col chan msg s = forward_message col chan msg s := by
      simp only [handle_mavlink_message, dispatch_message, hid]
      apply handle_param_set_noop
      intro i hi
      unfold param_set_writes
      rw [forward_message_global_data]
      cases hm : name_match cfg.ONBOARD_PARAM_NAME_LENGTH (param_name_at s.global_data i)
        (col.param_set_decode msg).param_id
      · simp
      · simp [CFloat.fne, hsame i hi hm]
    rw [hnoop]
    exact ⟨by simp, emitted0_forward col chan msg s, emitted1_forward col chan msg s⟩
  · intro hlen
    have hfirst : handle_mavlink_message cfg col chan msg s
        = handle_param_set cfg (col.param_set_decode msg) (forward_message col chan msg s) := by
      simp only [handle_mavlink_message, dispatch_message, hid]
    have hsecond : ∀ t, handle_mavlink_message cfg col chan2 msg t
        = handle_param_set cfg (col.param_set_decode msg) (forward_message col chan2 msg t) := by
      intro t
      simp only [handle_mavlink_message, dispatch_message, hid]
    have hnoop : handle_mavlink_message cfg col chan2 msg
          (handle_mavlink_message cfg col chan msg s)
        = forward_message col chan2 msg (handle_mavlink_message cfg col chan msg s) := by
      rw [hsecond]
      apply handle_param_set_again cfg _ (forward_message col chan msg s)
      · simpa using hlen
      · rw [forward_message_global_data, hfirst]
    rw [hnoop]
    exact ⟨by simp, emitted0_forward col chan2 msg _, emitted1_forward col chan2 msg _⟩

/-- C8. Accepted parameter set: a param-set message for this system and
component whose name matches entry `i`, with a finite new value that differs
from the entry's value, leaves the new value in entry `i`, leaves every
entry whose name does not match as it was, and writes a param-value message
with the entry's name and the new value to both links, whatever channel the
message arrived on. -/
theorem param_set_accepted (cfg : Conf) (col : Collab) (chan : mavlink_channel_t)
    (msg : mavlink_message_t) (s : comm_state) (i : Nat)
    (hid : msg.msgid = msgid_t.MAVLINK_MSG_ID_PARAM_SET)
    (htarget : for_this_system cfg s.global_data (col.param_set_decode msg).target_system
      (col.param_set_decode msg).target_component = true)
    (hi : i < cfg.ONBOARD_PARAM_COUNT)
    (hlen : i < s.global_data.param.length)
    (hmatch : name_match cfg.ONBOARD_PARAM_NAME_LENGTH (param_name_at s.global_data i)
      (col.param_set_decode msg).param_id = true)
    (hnan : CFloat.isnan (col.param_set_decode msg).param_value = false)
    (hinf : CFloat.isinf (col.param_set_decode msg).param_value = false)
    (hdiff : CFloat.fne (param_at s.global_data i) (col.param_set_decode msg).param_value = true) :
    param_at (handle_mavlink_message cfg col chan msg s).global_data i
      = (col.param_set_decode msg).param_value ∧
    (∀ k, name_match cfg.ONBOARD_PARAM_NAME_LENGTH (param_name_at s.global_data k)
        (col.param_set_decode msg).param_id = false →
      param_at (handle_mavlink_message cfg col chan msg s).global_data k
        = param_at s.global_data k) ∧
    param_set_broadcast cfg s i (col.param_set_decode msg).param_value
      ∈ emitted0 s (handle_mavlink_message cfg col chan msg s) ∧
    param_set_broadcast cfg s i (col.param_set_decode msg).param_value
      ∈ emitted1 s (handle_mavlink_message cfg col chan msg s) := by
  have hrun : handle_mavlink_message cfg col chan msg s
      = (List.range cfg.ONBOARD_PARAM_COUNT).foldl
          (param_set_body cfg (col.param_set_decode msg)) (forward_message col chan msg s) := by
    simp only [handle_mavlink_message, dispatch_message, hid, handle_param_set,
      forward_message_global_data, htarget, if_true]
  have inv := param_set_inv_loop cfg (col.param_set_decode msg) (forward_message col chan msg s)
    cfg.ONBOARD_PARAM_COUNT
  rw [← hrun] at inv
  have hw : param_set_writes cfg (col.param_set_decode msg)
      (forward_message col chan msg s).global_data i = true := by
    unfold param_set_writes
    simp [hmatch, hnan, hinf, hdiff]
  obtain ⟨h1, h2, h3⟩ := inv.written i hi (by simpa using hlen) hw
  have hb : param_set_broadcast cfg (forward_message col chan msg s) i
      (col.param_set_decode msg).param_value
      = param_set_broadcast cfg s i (col.param_set_decode msg).param_value := by
    simp [param_set_broadcast]
  rw [hb] at h2 h3
  refine ⟨h1, ?_, ?_, ?_⟩
  · intro k hk
    have := inv.unmatched k (by simpa using hk)
    simpa using this
  · exact mem_emitted0_of_later s _ _ _ (forward_message_uart0_extends col chan msg s) inv.tx0 h2
  · exact mem_emitted1_of_later s _ _ _ (forward_message_uart1_extends col chan msg s) inv.tx1 h3

/-- Witness of `param_set_idempotent`: on the demo table, a param-set of
entry 17 to its current value 0, and a param-set of entry 17 to 3 handled
on channel 1 and then again on channel 2. -/
theorem param_set_idempotent_witness :
    ((handle_mavlink_message demoConf (demoSetCollab (CFloat.fin 0))
          mavlink_channel_t.MAVLINK_COMM_0 (demoMsg msgid_t.MAVLINK_MSG_ID_PARAM_SET)
          demoIdle).global_data.param = demoIdle.global_data.param ∧
      ((emitted0 demoIdle (handle_mavlink_message demoConf (demoSetCollab (CFloat.fin 0))
          mavlink_channel_t.MAVLINK_COMM_0 (demoMsg msgid_t.MAVLINK_MSG_ID_PARAM_SET) demoIdle)).any is_param_value
        = false) ∧
      ((emitted1 demoIdle (handle_mavlink_message demoConf (demoSetCollab (CFloat.fin 0))
          mavlink_channel_t.MAVLINK_COMM_0 (demoMsg msgid_t.MAVLINK_MSG_ID_PARAM_SET) demoIdle)).any is_param_value
        = false)) ∧
    ((handle_mavlink_message demoConf (demoSetCollab (CFloat.fin 3))
          mavlink_channel_t.MAVLINK_COMM_1 (demoMsg msgid_t.MAVLINK_MSG_ID_PARAM_SET)
          (handle_mavlink_message demoConf (demoSetCollab (CFloat.fin 3))
            mavlink_channel_t.MAVLINK_COMM_0 (demoMsg msgid_t.MAVLINK_MSG_ID_PARAM_SET)
            demoIdle)).global_data.param
        = (handle_mavlink_message demoConf (demoSetCollab (CFloat.fin 3))
            mavlink_channel_t.MAVLINK_COMM_0 (demoMsg msgid_t.MAVLINK_MSG_ID_PARAM_SET)
            demoIdle).global_data.param ∧
      ((emitted0 (handle_mavlink_message demoConf (demoSetCollab (CFloat.fin 3))
            mavlink_channel_t.MAVLINK_COMM_0 (demoMsg msgid_t.MAVLINK_MSG_ID_PARAM_SET) demoIdle)
          (handle_mavlink_message demoConf (demoSetCollab (CFloat.fin 3))
            mavlink_channel_t.MAVLINK_COMM_1 (demoMsg msgid_t.MAVLINK_MSG_ID_PARAM_SET)
            (handle_mavlink_message demoConf (demoSetCollab (CFloat.fin 3))
              mavlink_channel_t.MAVLINK_COMM_0 (demoMsg msgid_t.MAVLINK_MSG_ID_PARAM_SET)
              demoIdle))).any is_param_value
        = false) ∧
      ((emitted1 (handle_mavlink_message demoConf (demoSetCollab (CFloat.fin 3))
            mavlink_channel_t.MAVLINK_COMM_0 (demoMsg msgid_t.MAVLINK_MSG_ID_PARAM_SET) demoIdle)
          (handle_mavlink_message demoConf (demoSetCollab (CFloat.fin 3))
            mavlink_channel_t.MAVLINK_COMM_1 (demoMsg msgid_t.MAVLINK_MSG_ID_PARAM_SET)
            (handle_mavlink_message demoConf (demoSetCollab (CFloat.fin 3))
              mavlink_channel_t.MAVLINK_COMM_0 (demoMsg msgid_t.MAVLINK_MSG_ID_PARAM_SET)
              demoIdle))).any is_param_value
        = false)) :=
  ⟨(param_set_idempotent demoConf (demoSetCollab (CFloat.fin 0))
      mavlink_channel_t.MAVLINK_COMM_0 mavlink_channel_t.MAVLINK_COMM_1
      (demoMsg msgid_t.MAVLINK_MSG_ID_PARAM_SET) demoIdle rfl).1 (by decide),
   (param_set_idempotent demoConf (demoSetCollab (CFloat.fin 3))
      mavlink_channel_t.MAVLINK_COMM_0 mavlink_channel_t.MAVLINK_COMM_1
      (demoMsg msgid_t.MAVLINK_MSG_ID_PARAM_SET) demoIdle rfl).2 (by decide)⟩

/-- Witness of `param_set_accepted`: on the demo table, entry 17 (value 0)
is set to 3 by a message arriving on channel 2; entry 0, whose name does not
match, keeps its value. -/
theorem param_set_accepted_witness :
    param_at (handle_mavlink_message demoConf (demoSetCollab (CFloat.fin 3))
        mavlink_channel_t.MAVLINK_COMM_1 (demoMsg msgid_t.MAVLINK_MSG_ID_PARAM_SET)
        demoIdle).global_data 17 = CFloat.fin 3 ∧
    param_at (handle_mavlink_message demoConf (demoSetCollab (CFloat.fin 3))
        mavlink_channel_t.MAVLINK_COMM_1 (demoMsg msgid_t.MAVLINK_MSG_ID_PARAM_SET)
        demoIdle).global_data 0 = param_at demoIdle.global_data 0 ∧
    param_set_broadcast demoConf demoIdle 17 (CFloat.fin 3)
      ∈ emitted0 demoIdle (handle_mavlink_message demoConf (demoSetCollab (CFloat.fin 3))
        mavlink_channel_t.MAVLINK_COMM_1 (demoMsg msgid_t.MAVLINK_MSG_ID_PARAM_SET) demoIdle) ∧
    param_set_broadcast demoConf demoIdle 17 (CFloat.fin 3)
      ∈ emitted1 demoIdle (handle_mavlink_message demoConf (demoSetCollab (CFloat.fin 3))
        mavlink_channel_t.MAVLINK_COMM_1 (demoMsg msgid_t.MAVLINK_MSG_ID_PARAM_SET) demoIdle) :=
  have h := param_set_accepted demoConf (demoSetCollab (CFloat.fin 3))
    mavlink_channel_t.MAVLINK_COMM_1 (demoMsg msgid_t.MAVLINK_MSG_ID_PARAM_SET) demoIdle 17
    rfl (by decide) (by decide) (by decide) (by decide) rfl rfl (by decide)
  ⟨h.1, h.2.1 0 (by decide), h.2.2.1, h.2.2.2⟩

/-! ## Polling channel 1 -/

/-- Handling a vision position estimate that arrived on `MAVLINK_COMM_0`
only hands it to the vision buffer. -/
theorem handle_vision_comm0 (cfg : Conf) (col : Collab) (m : mavlink_message_t) (s : comm_state)
    (hid : m.msgid = msgid_t.MAVLINK_MSG_ID_VISION_POSITION_ESTIMATE) :
    handle_mavlink_message cfg col mavlink_channel_t.MAVLINK_COMM_0 m s
      = on_global (col.vision_buffer_handle_data (col.vision_position_estimate_decode m)) s := by
  simp [handle_mavlink_message, dispatch_message, hid, forward_message_comm0, exclusion_channel1]

/-- In a mode that is neither protocol nor transparent-forward the `uart0`
loop only drains the buffer. -/
theorem uart0_loop_idle (cfg : Conf) (col : Collab) (bs : List Nat) (s : comm_state)
    (st : mavlink_status_t)
    (hm : s.global_data.state.uart0mode ≠ uart_mode.UART_MODE_MAVLINK)
    (hmode : s.global_data.state.uart0mode ≠ uart_mode.UART_MODE_BYTE_FORWARD) :
    (uart0_loop cfg col bs (s, st)).1.uart1_tx = s.uart1_tx := by
  induction bs generalizing s with
  | nil => rfl
  | cons c cs ih =>
      have hstep : uart0_byte cfg col c ({ s with uart0_rx := cs }, st)
          = ({ s with uart0_rx := cs }, st) := by
        simp [uart0_byte, hm, hmode]
      rw [uart0_loop, hstep, ih _ (by simpa using hm) (by simpa using hmode)]

/-- In protocol mode, a byte stream from which the codec completes only
vision position estimates leaves the transmit path of `uart1` as it was. -/
theorem uart0_loop_vision (cfg : Conf) (col : Collab) (bs : List Nat)
    (s : comm_state) (st : mavlink_status_t)
    (hm : s.global_data.state.uart0mode = uart_mode.UART_MODE_MAVLINK)
    (hframe : ∀ p g, (col.vision_buffer_handle_data p g).state.uart0mode = g.state.uart0mode)
    (hvision : ∀ m ∈ decoded0 col bs s.parser0 st,
      m.msgid = msgid_t.MAVLINK_MSG_ID_VISION_POSITION_ESTIMATE) :
    (uart0_loop cfg col bs (s, st)).1.uart1_tx = s.uart1_tx := by
  induction bs generalizing s st with
  | nil => rfl
  | cons c cs ih =>
      rw [uart0_loop]
      cases hr : (col.mavlink_parse_char mavlink_channel_t.MAVLINK_COMM_0 c s.parser0 st).msg with
      | none =>
          have hstep : uart0_byte cfg col c ({ s with uart0_rx := cs }, st)
              = ({ s with uart0_rx := cs, parser0 :=
                    (col.mavlink_parse_char mavlink_channel_t.MAVLINK_COMM_0 c s.parser0
                      st).parser },
                 (col.mavlink_parse_char mavlink_channel_t.MAVLINK_COMM_0 c s.parser0
                      st).status) := by
            simp [uart0_byte, hm, hr]
          rw [hstep, ih _ _ (by simpa using hm)]
          intro m hmem
          apply hvision m
          simp only [decoded0, hr]
          exact hmem
      | some msg =>
          have hid : msg.msgid = msgid_t.MAVLINK_MSG_ID_VISION_POSITION_ESTIMATE := by
            apply hvision msg
            simp [decoded0, hr]
          have hstep : uart0_byte cfg col c ({ s with uart0_rx := cs }, st)
              = (on_global (col.vision_buffer_handle_data
                    (col.vision_position_estimate_decode msg))
                  { s with uart0_rx := cs, parser0 :=
                    (col.mavlink_parse_char mavlink_channel_t.MAVLINK_COMM_0 c s.parser0
                      st).parser },
                 (col.mavlink_parse_char mavlink_channel_t.MAVLINK_COMM_0 c s.parser0
                      st).status) := by
            simp [uart0_byte, hm, hr, handle_vision_comm0 cfg col msg _ hid]
          rw [hstep, ih _ _ (by simpa [hframe] using hm)]
          · rfl
          · intro m hmem
            apply hvision m
            simp only [decoded0, hr]
            exact List.mem_cons_of_mem _ hmem

/-- C10 (as amended). While channel 1 is not in transparent-forward mode,
polling a channel-1 byte stream from which the codec completes only vision
position estimates writes nothing to the transmit path of channel 2
(`uart1`), whatever the mode of channel 2; the vision buffer collaborator is
taken not to change the mode of channel 1. -/
theorem vision_estimate_not_forwarded (cfg : Conf) (col : Collab) (bs : List Nat)
    (s : comm_state) (st : mavlink_status_t)
    (hmode : s.global_data.state.uart0mode ≠ uart_mode.UART_MODE_BYTE_FORWARD)
    (hframe : ∀ p g, (col.vision_buffer_handle_data p g).state.uart0mode = g.state.uart0mode)
    (hvision : ∀ m ∈ decoded0 col bs s.parser0 st,
      m.msgid = msgid_t.MAVLINK_MSG_ID_VISION_POSITION_ESTIMATE) :
    (uart0_loop cfg col bs (s, st)).1.uart1_tx = s.uart1_tx := by
  by_cases hm : s.global_data.state.uart0mode = uart_mode.UART_MODE_MAVLINK
  · exact uart0_loop_vision cfg col bs s st hm hframe hvision
  · exact uart0_loop_idle cfg col bs s st hm hmode

/-- Witness of `vision_estimate_not_forwarded`: the demo vehicle in protocol
mode polls the bytes `1, 2, 254`, from which the demo codec completes one
vision position estimate. -/
theorem vision_estimate_not_forwarded_witness :
    decoded0 (demoSetCollab (CFloat.fin 0)) [1, 2, 254]
        (demoPolled uart_mode.UART_MODE_MAVLINK).parser0 status_zero
      = [demoMsg msgid_t.MAVLINK_MSG_ID_VISION_POSITION_ESTIMATE] ∧
    (uart0_loop demoConf (demoSetCollab (CFloat.fin 0)) [1, 2, 254]
        (demoPolled uart_mode.UART_MODE_MAVLINK, status_zero)).1.uart1_tx
      = (demoPolled uart_mode.UART_MODE_MAVLINK).uart1_tx :=
  ⟨by decide,
   vision_estimate_not_forwarded demoConf (demoSetCollab (CFloat.fin 0)) [1, 2, 254]
    (demoPolled uart_mode.UART_MODE_MAVLINK) status_zero (by decide) (fun _ _ => rfl)
    (by decide)⟩

/-- C10, counterexample. With channel 1 in transparent-forward mode, the
demo vehicle polls the bytes that encode a vision position estimate: every
byte of the message is written, in order, to the transmit path of channel 2,
which was empty before. -/
theorem vision_estimate_forwarded_counterexample :
    (demoPolled uart_mode.UART_MODE_BYTE_FORWARD).uart0_rx
      = (demoSetCollab (CFloat.fin 0)).mavlink_msg_to_send_buffer
          (demoMsg msgid_t.MAVLINK_MSG_ID_VISION_POSITION_ESTIMATE) ∧
    (demoPolled uart_mode.UART_MODE_BYTE_FORWARD).uart1_tx = [] ∧
    (communication_receive demoConf (demoSetCollab (CFloat.fin 0))
        (demoPolled uart_mode.UART_MODE_BYTE_FORWARD)).uart1_tx
      = ((demoSetCollab (CFloat.fin 0)).mavlink_msg_to_send_buffer
          (demoMsg msgid_t.MAVLINK_MSG_ID_VISION_POSITION_ESTIMATE)).map tx_item.byte ∧
    (uart0_loop demoConf (demoSetCollab (CFloat.fin 0))
        (demoPolled uart_mode.UART_MODE_BYTE_FORWARD).uart0_rx
        (demoPolled uart_mode.UART_MODE_BYTE_FORWARD, status_zero)).1.uart1_tx
      ≠ (demoPolled uart_mode.UART_MODE_BYTE_FORWARD).uart1_tx := by
  refine ⟨rfl, rfl, ?_, ?_⟩
  · rfl
  · decide

/-! ## Motion-capture echo -/

/-- C11. Motion-capture echo avoidance: handling a motion-capture position
estimate that arrived on channel 2 (`MAVLINK_COMM_1`) writes to channel 1
(`uart0`) exactly one motion-capture message, with the same `x`, `y`, `z`,
`roll`, `pitch`, `yaw` and the local loop-start UNIX time as timestamp, and
nothing to channel 2; handling one that arrived on channel 1 writes nothing
to either channel. -/
theorem vicon_echo_avoidance (cfg : Conf) (col : Collab) (msg : mavlink_message_t)
    (s : comm_state)
    (hid : msg.msgid = msgid_t.MAVLINK_MSG_ID_VICON_POSITION_ESTIMATE) :
    emitted0 s (handle_mavlink_message cfg col mavlink_channel_t.MAVLINK_COMM_1 msg s)
      = [tx_item.msg (out_msg.vicon_position_estimate
          (sys_time_clock_get_unix_loop_start_time s)
          (col.vicon_position_estimate_decode msg).x (col.vicon_position_estimate_decode msg).y
          (col.vicon_position_estimate_decode msg).z
          (col.vicon_position_estimate_decode msg).roll
          (col.vicon_position_estimate_decode msg).pitch
          (col.vicon_position_estimate_decode msg).yaw)] ∧
    emitted1 s (handle_mavlink_message cfg col mavlink_channel_t.MAVLINK_COMM_1 msg s) = [] ∧
    emitted0 s (handle_mavlink_message cfg col mavlink_channel_t.MAVLINK_COMM_0 msg s) = [] ∧
    emitted1 s (handle_mavlink_message cfg col mavlink_channel_t.MAVLINK_COMM_0 msg s) = [] := by
  refine ⟨?_, ?_, ?_, ?_⟩ <;>
    simp [handle_mavlink_message, dispatch_message, hid, forward_message_comm0,
      forward_message_comm1, exclusion_channel1, exclusion_channel2,
      handle_vicon_position_estimate, mavlink_send, emitted0, emitted1,
      sys_time_clock_get_unix_loop_start_time, on_global]

/-- Witness of `vicon_echo_avoidance` on the demo vehicle. -/
theorem vicon_echo_avoidance_witness :
    emitted0 demoIdle (handle_mavlink_message demoConf (demoSetCollab (CFloat.fin 0))
        mavlink_channel_t.MAVLINK_COMM_1
        (demoMsg msgid_t.MAVLINK_MSG_ID_VICON_POSITION_ESTIMATE) demoIdle)
      = [tx_item.msg (out_msg.vicon_position_estimate 0 (CFloat.fin 0) (CFloat.fin 0)
          (CFloat.fin 0) (CFloat.fin 0) (CFloat.fin 0) (CFloat.fin 0))] ∧
    emitted0 demoIdle (handle_mavlink_message demoConf (demoSetCollab (CFloat.fin 0))
        mavlink_channel_t.MAVLINK_COMM_0
        (demoMsg msgid_t.MAVLINK_MSG_ID_VICON_POSITION_ESTIMATE) demoIdle) = [] :=
  have h := vicon_echo_avoidance demoConf (demoSetCollab (CFloat.fin 0))
    (demoMsg msgid_t.MAVLINK_MSG_ID_VICON_POSITION_ESTIMATE) demoIdle rfl
  ⟨h.1, h.2.2.1⟩

/-! ## Time synchronisation -/

@[simp] theorem forward_message_unix_offset (col : Collab) (chan : mavlink_channel_t)
    (msg : mavlink_message_t) (s : comm_state) :
    (forward_message col chan msg s).unix_offset = s.unix_offset := by
  cases chan <;> simp [forward_message_comm0, forward_message_comm1]

@[simp] theorem forward_message_time_usec (col : Collab) (chan : mavlink_channel_t)
    (msg : mavlink_message_t) (s : comm_state) :
    (forward_message col chan msg s).time_usec = s.time_usec := by
  cases chan <;> simp [forward_message_comm0, forward_message_comm1]

/-- On values below `2 ^ 63` the cast to `int64_t` changes nothing. -/
theorem toI64_of_lt (n : Nat) (h : n < 2 ^ 63) : toI64 n = (n : Int) := by
  unfold toI64
  have h1 : n % 2 ^ 64 = n := Nat.mod_eq_of_lt (by omega)
  rw [h1, if_pos h]

/-- The difference of two values below `2 ^ 63` is not changed by the
reduction to `int64_t`. -/
theorem wrapI64_sub (a b : Nat) (ha : a < 2 ^ 63) (hb : b < 2 ^ 63) :
    wrapI64 ((a : Int) - (b : Int)) = (a : Int) - (b : Int) := by
  unfold wrapI64 toI64
  norm_num at ha hb ⊢
  split_ifs <;> omega

/-- The stored offset after a system-time message. -/
theorem handle_system_time_unix_offset (cfg : Conf) (col : Collab) (chan : mavlink_channel_t)
    (msg : mavlink_message_t) (s : comm_state)
    (hid : msg.msgid = msgid_t.MAVLINK_MSG_ID_SYSTEM_TIME) :
    (handle_mavlink_message cfg col chan msg s).unix_offset
      = if s.unix_offset = 0 then
          wrapI64 (toI64 (col.system_time_get_time_unix_usec msg) - toI64 s.time_usec)
        else s.unix_offset := by
  simp only [handle_mavlink_message, dispatch_message, hid, handle_system_time,
    forward_message_unix_offset, forward_message_time_usec]
  split <;> simp [debug_message_buffer]

/-- A system-time message handled while the offset is unset (zero) stores
`remote - local` when the remote time and the local clock reading are both
below `2 ^ 63`, where the casts of lines 184-185 change nothing. -/
theorem system_time_sets_offset (cfg : Conf) (col : Collab) (chan : mavlink_channel_t)
    (msg : mavlink_message_t) (s : comm_state)
    (hid : msg.msgid = msgid_t.MAVLINK_MSG_ID_SYSTEM_TIME)
    (hunset : s.unix_offset = 0)
    (hremote : col.system_time_get_time_unix_usec msg < 2 ^ 63)
    (hlocal : s.time_usec < 2 ^ 63) :
    (handle_mavlink_message cfg col chan msg s).unix_offset
      = (col.system_time_get_time_unix_usec msg : Int) - (s.time_usec : Int) := by
  rw [handle_system_time_unix_offset cfg col chan msg s hid]
  simp only [hunset, if_true]
  rw [toI64_of_lt _ hremote, toI64_of_lt _ hlocal, wrapI64_sub _ _ hremote hlocal]

/-- A system-time message handled while the stored offset is not zero leaves
the stored offset as it is, whatever its remote time and the local clock
reading. -/
theorem system_time_keeps_offset (cfg : Conf) (col : Collab) (chan : mavlink_channel_t)
    (msg : mavlink_message_t) (s : comm_state)
    (hid : msg.msgid = msgid_t.MAVLINK_MSG_ID_SYSTEM_TIME)
    (hset : s.unix_offset ≠ 0) :
    (handle_mavlink_message cfg col chan msg s).unix_offset = s.unix_offset := by
  rw [handle_system_time_unix_offset cfg col chan msg s hid]
  simp only [hset, if_false]

/-- C12. The failing input: the demo vehicle starts with the offset unset
and its clock at 5; a first system-time message with remote time 5 stores
the offset `5 - 5 = 0`, which line 182 reads as still unset, and a second
system-time message with remote time 200, handled at local time 7, then
overwrites the stored offset with 193. -/
theorem time_sync_zero_offset_overwritten :
    (demoAt 5).unix_offset = 0 ∧
    (handle_mavlink_message demoConf demoClockCollab mavlink_channel_t.MAVLINK_COMM_0
        (demoTimeMsg 5) (demoAt 5)).unix_offset = 0 ∧
    (handle_mavlink_message demoConf demoClockCollab mavlink_channel_t.MAVLINK_COMM_0
        (demoTimeMsg 200)
        { handle_mavlink_message demoConf demoClockCollab mavlink_channel_t.MAVLINK_COMM_0
            (demoTimeMsg 5) (demoAt 5) with
          time_usec := 7 }).unix_offset = 193 := by
  have h5 : (handle_mavlink_message demoConf demoClockCollab
      mavlink_channel_t.MAVLINK_COMM_0 (demoTimeMsg 5) (demoAt 5)).unix_offset = 0 := by
    rw [handle_system_time_unix_offset _ _ _ _ _ rfl]
    decide
  refine ⟨rfl, h5, ?_⟩
  rw [handle_system_time_unix_offset _ _ _ _ _ rfl]
  simp only [h5, if_true]
  decide

/-! ## The drop-rate metric and the packet counters -/

/-- C13 (as amended). Drop-rate metric values: while the intermediate
values fit the counter width, `communication_get_uart_drop_rate` returns
`(drops*1000+1)/(successes+1)` of link 1 plus the same expression of link 2,
with integer division; on counters of at least 14 bits the result is 2 when
all four counters are 0, and it is 11, that is
`floor((10*1000+1)/(990+1)) + 1`, when one link has 10 drops and 990
successes and the other link has none. -/
theorem drop_rate_values (cfg : Conf) (g : global_data_t) (hw : 14 ≤ cfg.COUNTER_BITS) :
    (g.comm.uart0_rx_drop_count * 1000 + 1 < 2 ^ cfg.COUNTER_BITS →
      g.comm.uart0_rx_success_count + 1 < 2 ^ cfg.COUNTER_BITS →
      g.comm.uart1_rx_drop_count * 1000 + 1 < 2 ^ cfg.COUNTER_BITS →
      g.comm.uart1_rx_success_count + 1 < 2 ^ cfg.COUNTER_BITS →
      (g.comm.uart0_rx_drop_count * 1000 + 1) / (g.comm.uart0_rx_success_count + 1)
        + (g.comm.uart1_rx_drop_count * 1000 + 1) / (g.comm.uart1_rx_success_count + 1)
        < 2 ^ cfg.COUNTER_BITS →
      communication_get_uart_drop_rate cfg g
        = some ((g.comm.uart0_rx_drop_count * 1000 + 1) / (g.comm.uart0_rx_success_count + 1)
          + (g.comm.uart1_rx_drop_count * 1000 + 1) / (g.comm.uart1_rx_success_count + 1))) ∧
    (g.comm = { uart0_rx_drop_count := 0, uart0_rx_success_count := 0
                uart1_rx_drop_count := 0, uart1_rx_success_count := 0 } →
      communication_get_uart_drop_rate cfg g = some 2) ∧
    (g.comm = { uart0_rx_drop_count := 10, uart0_rx_success_count := 990
                uart1_rx_drop_count := 0, uart1_rx_success_count := 0 } →
      communication_get_uart_drop_rate cfg g = some 11) ∧
    (g.comm = { uart0_rx_drop_count := 0, uart0_rx_success_count := 0
                uart1_rx_drop_count := 10, uart1_rx_success_count := 990 } →
      communication_get_uart_drop_rate cfg g = some 11) := by
  have hgen : g.comm.uart0_rx_drop_count * 1000 + 1 < 2 ^ cfg.COUNTER_BITS →
      g.comm.uart0_rx_success_count + 1 < 2 ^ cfg.COUNTER_BITS →
      g.comm.uart1_rx_drop_count * 1000 + 1 < 2 ^ cfg.COUNTER_BITS →
      g.comm.uart1_rx_success_count + 1 < 2 ^ cfg.COUNTER_BITS →
      (g.comm.uart0_rx_drop_count * 1000 + 1) / (g.comm.uart0_rx_success_count + 1)
        + (g.comm.uart1_rx_drop_count * 1000 + 1) / (g.comm.uart1_rx_success_count + 1)
        < 2 ^ cfg.COUNTER_BITS →
      communication_get_uart_drop_rate cfg g
        = some ((g.comm.uart0_rx_drop_count * 1000 + 1) / (g.comm.uart0_rx_success_count + 1)
          + (g.comm.uart1_rx_drop_count * 1000 + 1)
            / (g.comm.uart1_rx_success_count + 1)) := by
    intro h1 h2 h3 h4 h5
    unfold communication_get_uart_drop_rate
    simp only [Nat.mod_eq_of_lt h1, Nat.mod_eq_of_lt h2, Nat.mod_eq_of_lt h3,
      Nat.mod_eq_of_lt h4, Nat.mod_eq_of_lt h5]
    simp
  have hpow : 2 ^ 14 ≤ 2 ^ cfg.COUNTER_BITS := Nat.pow_le_pow_right (by decide) hw
  have h14 : (2 : Nat) ^ 14 = 16384 := by norm_num
  refine ⟨hgen, ?_, ?_, ?_⟩
  · intro hc
    rw [hc] at hgen
    have := hgen (by simp; omega) (by simp; omega) (by simp; omega) (by simp; omega)
      (by simp; omega)
    simpa using this
  · intro hc
    rw [hc] at hgen
    have := hgen (by simp; omega) (by simp; omega) (by simp; omega) (by simp; omega)
      (by norm_num; omega)
    rw [this]
    norm_num
  · intro hc
    rw [hc] at hgen
    have := hgen (by simp; omega) (by simp; omega) (by simp; omega) (by simp; omega)
      (by norm_num; omega)
    rw [this]
    norm_num

/-- Witness of `drop_rate_values` on 32-bit counters: all counters zero,
and 10 drops with 990 successes on link 1. -/
theorem drop_rate_values_witness :
    communication_get_uart_drop_rate demoConf (demoCounters 0 0 0 0) = some 2 ∧
    communication_get_uart_drop_rate demoConf (demoCounters 10 990 0 0) = some 11 :=
  ⟨(drop_rate_values demoConf (demoCounters 0 0 0 0) (by decide)).2.1 rfl,
   (drop_rate_values demoConf (demoCounters 10 990 0 0) (by decide)).2.2.1 rfl⟩

/-- C13, counterexample. With 10 drops and 990 successes on link 1 and
nothing on link 2 the function returns 11, while the expression
`floor(10*1000+1/(990+1)) + 1` of the claim is 10001; and on 32-bit counters
with 4294968 drops on link 1 the function returns 706, not
`(4294968*1000+1)/(0+1) + (0*1000+1)/(0+1)`. -/
theorem drop_rate_counterexample :
    communication_get_uart_drop_rate demoConf (demoCounters 10 990 0 0) = some 11 ∧
    drop_rate_as_written = 10001 ∧
    communication_get_uart_drop_rate demoConf (demoCounters 4294968 0 0 0) = some 706 ∧
    (4294968 * 1000 + 1) / (0 + 1) + (0 * 1000 + 1) / (0 + 1) ≠ 706 := by
  refine ⟨by decide, ?_, by decide, by decide⟩
  unfold drop_rate_as_written
  have h : Int.floor ((10 * 1000 + 1 / (990 + 1) : ℚ)) = 10000 := by
    rw [Int.floor_eq_iff]
    constructor <;> norm_num
  rw [h]
  rfl

/-- C14. The failing input: on 32-bit counters with `2 ^ 32 - 1`
successful packets on link 1, the divisor `successes + 1` of link 1 is zero
and `communication_get_uart_drop_rate` has no value. -/
theorem drop_rate_division_by_zero :
    (((demoCounters 0 (2 ^ 32 - 1) 0 0).comm.uart0_rx_success_count + 1)
        % 2 ^ demoConf.COUNTER_BITS = 0) ∧
    communication_get_uart_drop_rate demoConf (demoCounters 0 (2 ^ 32 - 1) 0 0) = none := by
  decide

/-- C15. The failing input: the demo vehicle polls one byte on `uart1`
for which the codec reports one dropped and three successful packets on
channel 2, and nothing on `uart0`.  After the poll the counters of link 2
are still zero and the counters of link 1 hold the drop and the successes of
link 2. -/
theorem receive_counts_link2_on_link1 :
    (communication_receive demoConf demoDropCollab demoUart1Traffic).global_data.comm
      = { uart0_rx_drop_count := 1, uart0_rx_success_count := 3
          uart1_rx_drop_count := 0, uart1_rx_success_count := 0 } := by
  decide

/-! ## Bulk parameter streaming -/

/-- One call of the pump below the end of the table. -/
theorem communication_queued_send_step (cfg : Conf) (s : comm_state)
    (h : s.m_parameter_i < cfg.ONBOARD_PARAM_COUNT) (hN : cfg.ONBOARD_PARAM_COUNT < 2 ^ 32) :
    communication_queued_send cfg s
      = { s with
          uart0_tx := s.uart0_tx ++ [streamed_entry cfg s.global_data s.m_parameter_i]
          uart1_tx := s.uart1_tx ++ [streamed_entry cfg s.global_data s.m_parameter_i]
          m_parameter_i := s.m_parameter_i + 1 } := by
  simp [communication_queued_send, h, mavlink_send, streamed_entry]
  omega

/-- One call of the pump at or beyond the end of the table. -/
theorem communication_queued_send_idle (cfg : Conf) (s : comm_state)
    (h : cfg.ONBOARD_PARAM_COUNT ≤ s.m_parameter_i) : communication_queued_send cfg s = s := by
  simp [communication_queued_send, Nat.not_lt.2 h]

/-- Repeated calls of the pump at or beyond the end of the table. -/
theorem pump_times_idle (cfg : Conf) (n : Nat) (s : comm_state)
    (h : cfg.ONBOARD_PARAM_COUNT ≤ s.m_parameter_i) : pump_times cfg n s = s := by
  induction n with
  | zero => rfl
  | succ k ih => rw [pump_times, communication_queued_send_idle cfg s h, ih]

theorem pump_times_add (cfg : Conf) (m n : Nat) (s : comm_state) :
    pump_times cfg (m + n) s = pump_times cfg n (pump_times cfg m s) := by
  induction m generalizing s with
  | zero => simp [pump_times]
  | succ k ih =>
      have : k + 1 + n = (k + n) + 1 := by omega
      rw [this, pump_times, pump_times, ih]

/-- Calling the pump `k` times while `k` entries are left streams them in
order on both links and advances the cursor by `k`. -/
theorem pump_times_stream (cfg : Conf) (hN : cfg.ONBOARD_PARAM_COUNT < 2 ^ 32) (k : Nat)
    (s : comm_state) (h : s.m_parameter_i + k ≤ cfg.ONBOARD_PARAM_COUNT) :
    pump_times cfg k s
      = { s with
          uart0_tx := s.uart0_tx
            ++ (List.range' s.m_parameter_i k).map (streamed_entry cfg s.global_data)
          uart1_tx := s.uart1_tx
            ++ (List.range' s.m_parameter_i k).map (streamed_entry cfg s.global_data)
          m_parameter_i := s.m_parameter_i + k } := by
  induction k generalizing s with
  | zero => simp [pump_times]
  | succ n ih =>
      rw [pump_times, communication_queued_send_step cfg s (by omega) hN, ih _ (by simp; omega)]
      simp [List.range'_succ, Nat.add_assoc, Nat.add_comm 1 n]

/-- C16. Bulk parameter streaming: handling param-request-list leaves the
cursor at 0, the table as it was, and writes no param-value message; from
there, for every `k` up to `N = ONBOARD_PARAM_COUNT`, `k` successive calls of
the pump have written to each of the two links exactly the entries
`0, 1, ..., k-1`, in that order, each with its name, its value, the count `N`
and its own index, and left the cursor at `k`; every further call after the
`N`-th changes nothing. `N` is taken to fit the 32-bit cursor. -/
theorem bulk_parameter_streaming (cfg : Conf) (col : Collab) (chan : mavlink_channel_t)
    (msg : mavlink_message_t) (s : comm_state)
    (hid : msg.msgid = msgid_t.MAVLINK_MSG_ID_PARAM_REQUEST_LIST)
    (hN : cfg.ONBOARD_PARAM_COUNT < 2 ^ 32) :
    (handle_mavlink_message cfg col chan msg s).m_parameter_i = 0 ∧
    (handle_mavlink_message cfg col chan msg s).global_data = s.global_data ∧
    (emitted0 s (handle_mavlink_message cfg col chan msg s)).any is_param_value = false ∧
    (emitted1 s (handle_mavlink_message cfg col chan msg s)).any is_param_value = false ∧
    (∀ k, k ≤ cfg.ONBOARD_PARAM_COUNT →
      emitted0 (handle_mavlink_message cfg col chan msg s)
          (pump_times cfg k (handle_mavlink_message cfg col chan msg s))
        = (List.range k).map (streamed_entry cfg s.global_data) ∧
      emitted1 (handle_mavlink_message cfg col chan msg s)
          (pump_times cfg k (handle_mavlink_message cfg col chan msg s))
        = (List.range k).map (streamed_entry cfg s.global_data) ∧
      (pump_times cfg k (handle_mavlink_message cfg col chan msg s)).m_parameter_i = k) ∧
    (∀ j, pump_times cfg (cfg.ONBOARD_PARAM_COUNT + j) (handle_mavlink_message cfg col chan msg s)
      = pump_times cfg cfg.ONBOARD_PARAM_COUNT (handle_mavlink_message cfg col chan msg s)) := by
  have hrun : handle_mavlink_message cfg col chan msg s
      = { forward_message col chan msg s with m_parameter_i := 0 } := by
    simp only [handle_mavlink_message, dispatch_message, hid]
  have hcur : (handle_mavlink_message cfg col chan msg s).m_parameter_i = 0 := by rw [hrun]
  have hgd : (handle_mavlink_message cfg col chan msg s).global_data = s.global_data := by
    rw [hrun]
    simp
  have he0 : emitted0 s (handle_mavlink_message cfg col chan msg s)
      = emitted0 s (forward_message col chan msg s) := by
    rw [hrun]
    rfl
  have he1 : emitted1 s (handle_mavlink_message cfg col chan msg s)
      = emitted1 s (forward_message col chan msg s) := by
    rw [hrun]
    rfl
  refine ⟨hcur, hgd, ?_, ?_, ?_, ?_⟩
  · rw [he0]
    exact emitted0_forward col chan msg s
  · rw [he1]
    exact emitted1_forward col chan msg s
  · intro k hk
    rw [pump_times_stream cfg hN k _ (by rw [hcur]; omega)]
    simp [emitted0, emitted1, hcur, hgd, List.range_eq_range']
  · intro j
    rw [pump_times_add]
    apply pump_times_idle
    rw [pump_times_stream cfg hN _ _ (by rw [hcur]; omega)]
    simp [hcur]

/-- Witness of `bulk_parameter_streaming` on the demo table of 19 entries:
after the request the cursor is 0, after 19 calls of the pump it is 19, and
the 20th call changes nothing. -/
theorem bulk_parameter_streaming_witness :
    (handle_mavlink_message demoConf (demoSetCollab (CFloat.fin 0))
        mavlink_channel_t.MAVLINK_COMM_0 (demoMsg msgid_t.MAVLINK_MSG_ID_PARAM_REQUEST_LIST)
        demoIdle).m_parameter_i = 0 ∧
    (pump_times demoConf 19 (handle_mavlink_message demoConf (demoSetCollab (CFloat.fin 0))
        mavlink_channel_t.MAVLINK_COMM_0 (demoMsg msgid_t.MAVLINK_MSG_ID_PARAM_REQUEST_LIST)
        demoIdle)).m_parameter_i = 19 ∧
    emitted1 (handle_mavlink_message demoConf (demoSetCollab (CFloat.fin 0))
          mavlink_channel_t.MAVLINK_COMM_0 (demoMsg msgid_t.MAVLINK_MSG_ID_PARAM_REQUEST_LIST)
          demoIdle)
        (pump_times demoConf 2 (handle_mavlink_message demoConf (demoSetCollab (CFloat.fin 0))
          mavlink_channel_t.MAVLINK_COMM_0 (demoMsg msgid_t.MAVLINK_MSG_ID_PARAM_REQUEST_LIST)
          demoIdle))
      = (List.range 2).map (streamed_entry demoConf demoIdle.global_data) ∧
    pump_times demoConf (demoConf.ONBOARD_PARAM_COUNT + 1)
        (handle_mavlink_message demoConf (demoSetCollab (CFloat.fin 0))
          mavlink_channel_t.MAVLINK_COMM_0 (demoMsg msgid_t.MAVLINK_MSG_ID_PARAM_REQUEST_LIST)
          demoIdle)
      = pump_times demoConf demoConf.ONBOARD_PARAM_COUNT
        (handle_mavlink_message demoConf (demoSetCollab (CFloat.fin 0))
          mavlink_channel_t.MAVLINK_COMM_0 (demoMsg msgid_t.MAVLINK_MSG_ID_PARAM_REQUEST_LIST)
          demoIdle) :=
  have h := bulk_parameter_streaming demoConf (demoSetCollab (CFloat.fin 0))
    mavlink_channel_t.MAVLINK_COMM_0 (demoMsg msgid_t.MAVLINK_MSG_ID_PARAM_REQUEST_LIST)
    demoIdle rfl (by decide)
  ⟨h.1, (h.2.2.2.2.1 19 (by decide)).2.2, (h.2.2.2.2.1 2 (by decide)).2.1, h.2.2.2.2.2 1⟩

/-! ## Read by index -/

/-- C17. The failing input: a param-request-read for system 1, component 1
with an empty key and the index `-1`, arriving on channel 1 of the demo
vehicle.  The test of line 259 passes and a param-value reply with index `-1`
is written to channel 1. -/
theorem read_by_negative_index_replies :
    emitted0 demoIdle (handle_mavlink_message demoConf (demoReadCollab [] (-1))
        mavlink_channel_t.MAVLINK_COMM_0 (demoMsg msgid_t.MAVLINK_MSG_ID_PARAM_REQUEST_READ)
        demoIdle)
      = [tx_item.msg (out_msg.param_value [] (CFloat.fin 0) 19 (-1))] := by
  decide

/-! ## The name matcher as a comparison of C strings -/

/-- The inner loop of the matcher started at byte `j` with `fuel` bytes
left: the flag survives exactly when the two arrays hold the same C string
from `j` on. -/
theorem match_loop_eq (a key : List Nat) (fuel j : Nat) (m : Bool) :
    match_loop a key fuel j m
      = (m && decide
          (((List.range' j fuel).map (fun k => a.getD k 0)).takeWhile (fun b => b ≠ 0)
            = ((List.range' j fuel).map (fun k => key.getD k 0)).takeWhile (fun b => b ≠ 0))) := by
  induction fuel generalizing j m with
  | zero => simp [match_loop]
  | succ n ih =>
      rw [match_loop]
      simp only [List.range'_succ, List.map_cons, List.takeWhile_cons, ih]
      generalize a.getD j 0 = x
      generalize key.getD j 0 = y
      generalize List.takeWhile (fun b => decide (b ≠ 0))
        (List.map (fun k => a.getD k 0) (List.range' (j + 1) n)) = ta
      generalize List.takeWhile (fun b => decide (b ≠ 0))
        (List.map (fun k => key.getD k 0) (List.range' (j + 1) n)) = tk
      clear ih
      by_cases hx : x = 0
      · subst hx
        by_cases hy : y = 0
        · subst hy
          simp
        · have hy2 : ¬ (0 = y) := fun h => hy h.symm
          simp [hy, hy2]
      · by_cases hxy : x = y
        · subst hxy
          simp [hx]
        · by_cases hy : y = 0
          · subst hy
            simp [hx]
          · simp [hx, hy, hxy]

/-- The matcher accepts exactly when the stored name and the key hold the
same C string within the name length. -/
theorem name_match_iff_cstr (nameLength : Nat) (a key : List Nat) :
    name_match nameLength a key = true ↔ cstr nameLength a = cstr nameLength key := by
  unfold name_match cstr
  rw [match_loop_eq, List.range_eq_range']
  simp

/-! ## Read by name -/

/-- The loop of the read-by-name branch on `MAVLINK_COMM_0`, in closed
form: one reply on `uart0` for every matching entry, in table order. -/
theorem read_loop_comm0 (cfg : Conf) (key : List Nat) (s : comm_state) (l : List Nat) :
    l.foldl (param_request_read_body cfg mavlink_channel_t.MAVLINK_COMM_0 key) s
      = { s with uart0_tx := s.uart0_tx ++
            (l.filter (fun i => name_match cfg.ONBOARD_PARAM_NAME_LENGTH
              (param_name_at s.global_data i) key)).map (read_reply cfg s) } := by
  induction l using List.reverseRecOn with
  | nil => simp
  | append_singleton l a ih =>
      rw [List.foldl_append, ih]
      simp only [List.foldl_cons, List.foldl_nil, param_request_read_body]
      by_cases hm : name_match cfg.ONBOARD_PARAM_NAME_LENGTH (param_name_at s.global_data a) key
          = true
      · simp [hm, List.filter_append, mavlink_send, read_reply]
      · simp [hm, List.filter_append]

/-- The loop of the read-by-name branch on `MAVLINK_COMM_1`, in closed
form: one reply on `uart1` for every matching entry, in table order. -/
theorem read_loop_comm1 (cfg : Conf) (key : List Nat) (s : comm_state) (l : List Nat) :
    l.foldl (param_request_read_body cfg mavlink_channel_t.MAVLINK_COMM_1 key) s
      = { s with uart1_tx := s.uart1_tx ++
            (l.filter (fun i => name_match cfg.ONBOARD_PARAM_NAME_LENGTH
              (param_name_at s.global_data i) key)).map (read_reply cfg s) } := by
  induction l using List.reverseRecOn with
  | nil => simp
  | append_singleton l a ih =>
      rw [List.foldl_append, ih]
      simp only [List.foldl_cons, List.foldl_nil, param_request_read_body]
      by_cases hm : name_match cfg.ONBOARD_PARAM_NAME_LENGTH (param_name_at s.global_data a) key
          = true
      · simp [hm, List.filter_append, mavlink_send, read_reply]
      · simp [hm, List.filter_append]

/-- A list without repetition whose members are all equal has at most one
member. -/
theorem length_le_one_of_all_eq {α : Type} (l : List α) (hnd : l.Nodup)
    (h : ∀ a ∈ l, ∀ b ∈ l, a = b) : l.length ≤ 1 := by
  match l, hnd, h with
  | [], _, _ => simp
  | [_], _, _ => simp
  | a :: b :: t, hnd, h =>
      have hab : a = b := h a (by simp) b (by simp)
      rw [hab] at hnd
      simp at hnd

/-- When the stored names are pairwise different as C strings, at most one
entry matches a key. -/
theorem matching_entries_length (cfg : Conf) (g : global_data_t) (key : List Nat)
    (hdistinct : ∀ i k, i < cfg.ONBOARD_PARAM_COUNT → k < cfg.ONBOARD_PARAM_COUNT →
      cstr cfg.ONBOARD_PARAM_NAME_LENGTH (param_name_at g i)
        = cstr cfg.ONBOARD_PARAM_NAME_LENGTH (param_name_at g k) → i = k) :
    (matching_entries cfg g key).length ≤ 1 := by
  apply length_le_one_of_all_eq
  · exact (List.nodup_range _).filter _
  · intro a ha b hb
    unfold matching_entries at ha hb
    rw [List.mem_filter, List.mem_range] at ha hb
    apply hdistinct a b ha.1 hb.1
    rw [(name_match_iff_cstr _ _ _).1 ha.2, (name_match_iff_cstr _ _ _).1 hb.2]

theorem read_reply_forward (cfg : Conf) (col : Collab) (chan : mavlink_channel_t)
    (msg : mavlink_message_t) (s : comm_state) :
    read_reply cfg (forward_message col chan msg s) = read_reply cfg s := by
  funext i
  simp [read_reply]

/-- C18 (as amended). Read-by-name replies on the requesting channel only:
on a table whose names are pairwise different as C strings (up to the first
zero byte within the name length), a param-request-read for this system and
component with a non-empty key writes to the channel it arrived on one
param-value reply for each matching entry, of which there is at most one,
carrying the entry's name and value, the count `N` and the current cursor as
index, and it writes no param-value message to the other channel. -/
theorem read_by_name_single_reply (cfg : Conf) (col : Collab) (msg : mavlink_message_t)
    (s : comm_state)
    (hid : msg.msgid = msgid_t.MAVLINK_MSG_ID_PARAM_REQUEST_READ)
    (htarget : for_this_system cfg s.global_data (col.param_request_read_decode msg).target_system
      (col.param_request_read_decode msg).target_component = true)
    (hkey : (col.param_request_read_decode msg).param_id.getD 0 0 ≠ 0)
    (hdistinct : ∀ i k, i < cfg.ONBOARD_PARAM_COUNT → k < cfg.ONBOARD_PARAM_COUNT →
      cstr cfg.ONBOARD_PARAM_NAME_LENGTH (param_name_at s.global_data i)
        = cstr cfg.ONBOARD_PARAM_NAME_LENGTH (param_name_at s.global_data k) → i = k) :
    (matching_entries cfg s.global_data (col.param_request_read_decode msg).param_id).length
      ≤ 1 ∧
    emitted0 s (handle_mavlink_message cfg col mavlink_channel_t.MAVLINK_COMM_0 msg s)
      = (matching_entries cfg s.global_data (col.param_request_read_decode msg).param_id).map
          (read_reply cfg s) ∧
    (emitted1 s (handle_mavlink_message cfg col mavlink_channel_t.MAVLINK_COMM_0 msg s)).any
      is_param_value = false ∧
    emitted1 s (handle_mavlink_message cfg col mavlink_channel_t.MAVLINK_COMM_1 msg s)
      = (matching_entries cfg s.global_data (col.param_request_read_decode msg).param_id).map
          (read_reply cfg s) ∧
    (emitted0 s (handle_mavlink_message cfg col mavlink_channel_t.MAVLINK_COMM_1 msg s)).any
      is_param_value = false := by
  have hrun : ∀ chan, handle_mavlink_message cfg col chan msg s
      = (List.range cfg.ONBOARD_PARAM_COUNT).foldl
          (param_request_read_body cfg chan (col.param_request_read_decode msg).param_id)
          (forward_message col chan msg s) := by
    intro chan
    simp only [handle_mavlink_message, dispatch_message, hid, handle_param_request_read,
      forward_message_global_data, htarget, if_true, if_neg hkey]
  refine ⟨matching_entries_length cfg _ _ hdistinct, ?_, ?_, ?_, ?_⟩
  · rw [hrun, read_loop_comm0, read_reply_forward]
    simp [emitted0, forward_message_comm0, matching_entries]
  · have h := emitted1_forward col mavlink_channel_t.MAVLINK_COMM_0 msg s
    rw [hrun, read_loop_comm0]
    exact h
  · rw [hrun, read_loop_comm1, read_reply_forward]
    simp [emitted1, forward_message_comm1, matching_entries]
  · have h := emitted0_forward col mavlink_channel_t.MAVLINK_COMM_1 msg s
    rw [hrun, read_loop_comm1]
    exact h

/-- Witness of `read_by_name_single_reply`: the demo table is asked for the
key `"PR"`, the name of entry 17, on channel 1. -/
theorem read_by_name_single_reply_witness :
    (matching_entries demoConf demoIdle.global_data [80, 82, 0]).length ≤ 1 ∧
    emitted0 demoIdle (handle_mavlink_message demoConf (demoReadCollab [80, 82, 0] 0)
        mavlink_channel_t.MAVLINK_COMM_0 (demoMsg msgid_t.MAVLINK_MSG_ID_PARAM_REQUEST_READ)
        demoIdle)
      = (matching_entries demoConf demoIdle.global_data [80, 82, 0]).map
          (read_reply demoConf demoIdle) ∧
    (emitted1 demoIdle (handle_mavlink_message demoConf (demoReadCollab [80, 82, 0] 0)
        mavlink_channel_t.MAVLINK_COMM_0 (demoMsg msgid_t.MAVLINK_MSG_ID_PARAM_REQUEST_READ)
        demoIdle)).any is_param_value = false :=
  have h := read_by_name_single_reply demoConf (demoReadCollab [80, 82, 0] 0)
    (demoMsg msgid_t.MAVLINK_MSG_ID_PARAM_REQUEST_READ) demoIdle rfl (by decide) (by decide)
    (fun i k hi hk =>
      (by decide : ∀ i, i < 19 → ∀ k, k < 19 →
        cstr 16 (param_name_at demoIdle.global_data i)
          = cstr 16 (param_name_at demoIdle.global_data k) → i = k) i hi k hk)
  ⟨h.1, h.2.1, h.2.2.1⟩

set_option maxRecDepth 8000 in
/-- C18, counterexample. The demo table with 16-byte names, pairwise
different as byte arrays, of which entries 0 and 1 both hold the C string
`"A"`: a param-request-read for this system with the key `"A"`, arriving on
channel 1, is answered with two param-value replies on channel 1. -/
theorem read_by_name_two_replies_counterexample :
    demoTwinNames.global_data.param_name.map List.length = List.replicate 19 16 ∧
    demoTwinNames.global_data.param_name.Nodup ∧
    emitted0 demoTwinNames (handle_mavlink_message demoConf (demoReadCollab (pad16 [65]) 0)
        mavlink_channel_t.MAVLINK_COMM_0 (demoMsg msgid_t.MAVLINK_MSG_ID_PARAM_REQUEST_READ)
        demoTwinNames)
      = [read_reply demoConf demoTwinNames 0, read_reply demoConf demoTwinNames 1] := by
  decide

/-! ## Optical flow -/

/-- The quality test of line 491 on the converted quality byte. -/
theorem fgt_ofNat_twenty (q : Nat) :
    CFloat.fgt (CFloat.ofNat q) (CFloat.fin 20) = decide (20 < q) := by
  simp only [CFloat.fgt, CFloat.flt, CFloat.ofNat]
  congr 1
  rw [eq_iff_iff]
  exact_mod_cast Iff.rfl

/-- The optical-flow case in closed form. -/
theorem handle_optical_flow_eq (flow : mavlink_optical_flow_t) (s : comm_state) :
    handle_optical_flow flow s
      = { s with global_data := { s.global_data with
            optflow := { x := CFloat.fneg flow.flow_comp_m_y, y := flow.flow_comp_m_x
                         z := CFloat.ofNat flow.quality }
            ground_distance := flow.ground_distance
            flow_last_valid :=
              if 20 < flow.quality then s.time_usec else s.global_data.flow_last_valid } } := by
  unfold handle_optical_flow
  simp only [on_global, fgt_ofNat_twenty]
  by_cases h : 20 < flow.quality <;> simp [h]

/-- C19 (as amended). Optical-flow ingestion: handling an optical-flow
message sets the optical-flow vector to `(-flow_comp_m_y, flow_comp_m_x,
quality)`, sets the ground distance, refreshes the flow validity timestamp
exactly when `quality > 20`, and changes nothing else in `global_data`; it
writes nothing to channel 2; it writes nothing to channel 1 when the message
arrived on channel 1, and exactly the forwarded re-encoded bytes of the
message when it arrived on channel 2. -/
theorem optical_flow_ingestion (cfg : Conf) (col : Collab) (msg : mavlink_message_t)
    (s : comm_state)
    (hid : msg.msgid = msgid_t.MAVLINK_MSG_ID_OPTICAL_FLOW) :
    (∀ chan : mavlink_channel_t,
      (handle_mavlink_message cfg col chan msg s).global_data
        = { s.global_data with
            optflow := { x := CFloat.fneg (col.optical_flow_decode msg).flow_comp_m_y
                         y := (col.optical_flow_decode msg).flow_comp_m_x
                         z := CFloat.ofNat (col.optical_flow_decode msg).quality }
            ground_distance := (col.optical_flow_decode msg).ground_distance
            flow_last_valid :=
              if 20 < (col.optical_flow_decode msg).quality then s.time_usec
              else s.global_data.flow_last_valid } ∧
      emitted1 s (handle_mavlink_message cfg col chan msg s) = []) ∧
    emitted0 s (handle_mavlink_message cfg col mavlink_channel_t.MAVLINK_COMM_0 msg s) = [] ∧
    emitted0 s (handle_mavlink_message cfg col mavlink_channel_t.MAVLINK_COMM_1 msg s)
      = (col.mavlink_msg_to_send_buffer msg).map tx_item.byte := by
  have hrun : ∀ chan, handle_mavlink_message cfg col chan msg s
      = handle_optical_flow (col.optical_flow_decode msg) (forward_message col chan msg s) := by
    intro chan
    simp only [handle_mavlink_message, dispatch_message, hid]
  refine ⟨?_, ?_, ?_⟩
  · intro chan
    rw [hrun, handle_optical_flow_eq]
    cases chan <;>
      simp [forward_message_comm0, forward_message_comm1, exclusion_channel1,
        exclusion_channel2, hid, emitted1]
  · rw [hrun, handle_optical_flow_eq]
    simp [forward_message_comm0, exclusion_channel1, hid, emitted0]
  · rw [hrun, handle_optical_flow_eq]
    simp [forward_message_comm1, exclusion_channel2, hid, emitted0]

/-- Witness of `optical_flow_ingestion` on the demo vehicle: an optical-flow
message arriving on channel 1 writes nothing to either channel. -/
theorem optical_flow_ingestion_witness :
    emitted1 demoIdle (handle_mavlink_message demoConf (demoSetCollab (CFloat.fin 0))
        mavlink_channel_t.MAVLINK_COMM_0 (demoMsg msgid_t.MAVLINK_MSG_ID_OPTICAL_FLOW)
        demoIdle) = [] ∧
    emitted0 demoIdle (handle_mavlink_message demoConf (demoSetCollab (CFloat.fin 0))
        mavlink_channel_t.MAVLINK_COMM_0 (demoMsg msgid_t.MAVLINK_MSG_ID_OPTICAL_FLOW)
        demoIdle) = [] :=
  have h := optical_flow_ingestion demoConf (demoSetCollab (CFloat.fin 0))
    (demoMsg msgid_t.MAVLINK_MSG_ID_OPTICAL_FLOW) demoIdle rfl
  ⟨(h.1 mavlink_channel_t.MAVLINK_COMM_0).2, h.2.1⟩

/-- C19, counterexample. An optical-flow message arriving on channel 2 of
the demo vehicle: its handling writes the three bytes of the re-encoded
message to the output of channel 1, which was empty. -/
theorem optical_flow_forwarded_counterexample :
    demoIdle.uart0_tx = [] ∧
    (handle_mavlink_message demoConf (demoSetCollab (CFloat.fin 0))
        mavlink_channel_t.MAVLINK_COMM_1 (demoMsg msgid_t.MAVLINK_MSG_ID_OPTICAL_FLOW)
        demoIdle).uart0_tx = [tx_item.byte 1, tx_item.byte 2, tx_item.byte 254] := by
  decide

/-! ## The streaming cursor stays in range -/

@[simp] theorem mavlink_send_m_parameter_i (chan : mavlink_channel_t) (m : out_msg)
    (s : comm_state) : (mavlink_send chan m s).m_parameter_i = s.m_parameter_i := by
  cases chan <;> rfl

@[simp] theorem send_system_state_m_parameter_i (cfg : Conf) (s : comm_state) :
    (send_system_state cfg s).m_parameter_i = s.m_parameter_i := by
  simp [send_system_state]

/-- A command leaves the cursor as it is or resets it to 0. -/
theorem execute_command_cursor (col : Collab) (cmd : mavlink_command_long_t) (s : comm_state) :
    (execute_command col cmd s).m_parameter_i = s.m_parameter_i
      ∨ (execute_command col cmd s).m_parameter_i = 0 := by
  unfold execute_command
  split
  · left
    split_ifs <;> simp
  · split_ifs
    · right
      rfl
    · left
      rfl
  · left
    simp

theorem handle_param_request_read_cursor (cfg : Conf) (chan : mavlink_channel_t)
    (set : mavlink_param_request_read_t) (s : comm_state) :
    (handle_param_request_read cfg chan set s).m_parameter_i = s.m_parameter_i := by
  unfold handle_param_request_read
  split_ifs
  · simp
  · rfl
  · cases chan
    · rw [read_loop_comm0]
    · rw [read_loop_comm1]
  · rfl

theorem handle_param_set_cursor (cfg : Conf) (set : mavlink_param_set_t) (s : comm_state) :
    (handle_param_set cfg set s).m_parameter_i = s.m_parameter_i := by
  unfold handle_param_set
  split_ifs
  · exact (param_set_inv_loop cfg set s cfg.ONBOARD_PARAM_COUNT).cursor
  · rfl

@[simp] theorem store_setpoint_m_parameter_i (cfg : Conf)
    (sp : mavlink_set_local_position_setpoint_t) (s : comm_state) :
    (store_setpoint cfg sp s).m_parameter_i = s.m_parameter_i := by
  unfold store_setpoint
  simp only []
  split_ifs <;> simp

@[simp] theorem start_or_land_m_parameter_i (cfg : Conf)
    (sp : mavlink_set_local_position_setpoint_t) (s : comm_state) :
    (start_or_land cfg sp s).m_parameter_i = s.m_parameter_i := by
  unfold start_or_land
  split_ifs <;> simp

@[simp] theorem emergency_sink_m_parameter_i (cfg : Conf) (s : comm_state) :
    (emergency_sink cfg s).m_parameter_i = s.m_parameter_i := by
  unfold emergency_sink
  split_ifs <;> simp

theorem handle_set_local_position_setpoint_cursor (cfg : Conf)
    (sp : mavlink_set_local_position_setpoint_t) (s : comm_state) :
    (handle_set_local_position_setpoint cfg sp s).m_parameter_i = s.m_parameter_i := by
  unfold handle_set_local_position_setpoint
  split_ifs <;> simp

/-- The switch on the message type leaves the cursor as it is or resets it
to 0. -/
theorem dispatch_message_cursor (cfg : Conf) (col : Collab) (chan : mavlink_channel_t)
    (msg : mavlink_message_t) (s : comm_state) :
    (dispatch_message cfg col chan msg s).m_parameter_i = s.m_parameter_i
      ∨ (dispatch_message cfg col chan msg s).m_parameter_i = 0 := by
  unfold dispatch_message
  split
  · left
    split_ifs <;> simp
  · exact execute_command_cursor col _ s
  · left
    unfold handle_system_time
    split_ifs <;> simp
  · left
    unfold handle_request_data_stream
    simp only []
    split <;> simp
  · left
    exact handle_param_request_read_cursor cfg chan _ s
  · right
    rfl
  · left
    exact handle_param_set_cursor cfg _ s
  · left
    unfold handle_set_position_control_offset
    simp only []
    split_ifs
    · split <;> simp
    · rfl
  · left
    simp
  · left
    unfold handle_image_trigger_control
    simp only []
    split_ifs <;> simp
  · left
    simp
  · left
    simp
  · left
    unfold handle_vicon_position_estimate
    simp only []
    split_ifs <;> simp
  · left
    unfold handle_optical_flow
    simp only []
    split_ifs <;> simp
  · left
    unfold handle_ping
    split_ifs <;> simp
  · left
    exact handle_set_local_position_setpoint_cursor cfg _ s
  · left
    rfl

/-- Handling a message keeps the cursor at or below the table size. -/
theorem handle_mavlink_message_cursor_le (cfg : Conf) (col : Collab) (chan : mavlink_channel_t)
    (msg : mavlink_message_t) (s : comm_state)
    (h : s.m_parameter_i ≤ cfg.ONBOARD_PARAM_COUNT) :
    (handle_mavlink_message cfg col chan msg s).m_parameter_i ≤ cfg.ONBOARD_PARAM_COUNT := by
  unfold handle_mavlink_message
  rcases dispatch_message_cursor cfg col chan msg (forward_message col chan msg s) with h1 | h1
  · rw [h1, forward_message_m_parameter_i]
    exact h
  · rw [h1]
    exact Nat.zero_le _

/-- One call of the pump keeps the cursor at or below the table size. -/
theorem communication_queued_send_cursor_le (cfg : Conf) (s : comm_state)
    (h : s.m_parameter_i ≤ cfg.ONBOARD_PARAM_COUNT) :
    (communication_queued_send cfg s).m_parameter_i ≤ cfg.ONBOARD_PARAM_COUNT := by
  unfold communication_queued_send
  split_ifs with hlt
  · simp only [mavlink_send_m_parameter_i]
    exact le_trans (Nat.mod_le _ _) hlt
  · exact h

theorem uart0_byte_cursor_le (cfg : Conf) (col : Collab) (c : Nat)
    (st : comm_state × mavlink_status_t)
    (h : st.1.m_parameter_i ≤ cfg.ONBOARD_PARAM_COUNT) :
    (uart0_byte cfg col c st).1.m_parameter_i ≤ cfg.ONBOARD_PARAM_COUNT := by
  unfold uart0_byte
  split_ifs
  · simp only []
    split
    · exact handle_mavlink_message_cursor_le cfg col _ _ _ h
    · exact h
  · exact h
  · exact h

theorem uart0_loop_cursor_le (cfg : Conf) (col : Collab) (bs : List Nat)
    (st : comm_state × mavlink_status_t)
    (h : st.1.m_parameter_i ≤ cfg.ONBOARD_PARAM_COUNT) :
    (uart0_loop cfg col bs st).1.m_parameter_i ≤ cfg.ONBOARD_PARAM_COUNT := by
  induction bs generalizing st with
  | nil => exact h
  | cons c cs ih =>
      rw [uart0_loop]
      exact ih _ (uart0_byte_cursor_le cfg col c _ h)

theorem uart1_gps_byte_m_parameter_i (cfg : Conf) (col : Collab) (c : Nat) (s : comm_state) :
    (uart1_gps_byte cfg col c s).m_parameter_i = s.m_parameter_i := by
  unfold uart1_gps_byte gps_debug_buffer
  simp only []
  split_ifs <;> simp

theorem uart1_byte_cursor_le (cfg : Conf) (col : Collab) (c : Nat)
    (st : comm_state × mavlink_status_t)
    (h : st.1.m_parameter_i ≤ cfg.ONBOARD_PARAM_COUNT) :
    (uart1_byte cfg col c st).1.m_parameter_i ≤ cfg.ONBOARD_PARAM_COUNT := by
  unfold uart1_byte
  split_ifs
  · simp only []
    split
    · exact handle_mavlink_message_cursor_le cfg col _ _ _ h
    · exact h
  · simp only [uart1_gps_byte_m_parameter_i]
    exact h
  · exact h
  · exact h

theorem uart1_loop_cursor_le (cfg : Conf) (col : Collab) (bs : List Nat)
    (st : comm_state × mavlink_status_t)
    (h : st.1.m_parameter_i ≤ cfg.ONBOARD_PARAM_COUNT) :
    (uart1_loop cfg col bs st).1.m_parameter_i ≤ cfg.ONBOARD_PARAM_COUNT := by
  induction bs generalizing st with
  | nil => exact h
  | cons c cs ih =>
      rw [uart1_loop]
      exact ih _ (uart1_byte_cursor_le cfg col c _ h)

theorem communication_receive_cursor_le (cfg : Conf) (col : Collab) (s : comm_state)
    (h : s.m_parameter_i ≤ cfg.ONBOARD_PARAM_COUNT) :
    (communication_receive cfg col s).m_parameter_i ≤ cfg.ONBOARD_PARAM_COUNT := by
  unfold communication_receive
  simp only [update_drop_counters, on_global_m_parameter_i]
  apply uart1_loop_cursor_le
  simp only [on_global_m_parameter_i]
  exact uart0_loop_cursor_le cfg col _ _ h

/-- Every operation of the core keeps the cursor at or below the table
size. -/
theorem run_op_cursor_le (cfg : Conf) (col : Collab) (s : comm_state) (op : core_op)
    (h : s.m_parameter_i ≤ cfg.ONBOARD_PARAM_COUNT) :
    (run_op cfg col s op).m_parameter_i ≤ cfg.ONBOARD_PARAM_COUNT := by
  cases op with
  | handle chan msg => exact handle_mavlink_message_cursor_le cfg col chan msg s h
  | execute cmd =>
      rcases execute_command_cursor col cmd s with h1 | h1
      · simp only [run_op, h1]
        exact h
      · simp only [run_op, h1]
        exact Nat.zero_le _
  | pump => exact communication_queued_send_cursor_le cfg s h
  | receive rx0 rx1 => exact communication_receive_cursor_le cfg col _ h
  | init =>
      simp only [run_op, communication_init]
      split_ifs <;> simpa using h

theorem run_ops_cursor_le (cfg : Conf) (col : Collab) (ops : List core_op) (s : comm_state)
    (h : s.m_parameter_i ≤ cfg.ONBOARD_PARAM_COUNT) :
    (run_ops cfg col ops s).m_parameter_i ≤ cfg.ONBOARD_PARAM_COUNT := by
  unfold run_ops
  induction ops generalizing s with
  | nil => exact h
  | cons op rest ih =>
      rw [List.foldl_cons]
      exact ih _ (run_op_cursor_le cfg col s op h)

/-- C20. Streaming-cursor range invariant: starting from the cursor 0,
after any finite sequence of operations of the core (handling any decoded
message on either channel, executing any command, calling the pump, a receive
poll on any bytes, the link initialisation) the cursor is at most
`N = ONBOARD_PARAM_COUNT`; and in the state reached a call of the pump
either changes nothing or reads the table at the cursor, which is then below
`N`. -/
theorem cursor_range_invariant (cfg : Conf) (col : Collab) (ops : List core_op)
    (s : comm_state) (hinit : s.m_parameter_i = 0) :
    (run_ops cfg col ops s).m_parameter_i ≤ cfg.ONBOARD_PARAM_COUNT ∧
    (communication_queued_send cfg (run_ops cfg col ops s) = run_ops cfg col ops s
      ∨ ((run_ops cfg col ops s).m_parameter_i < cfg.ONBOARD_PARAM_COUNT
        ∧ emitted0 (run_ops cfg col ops s)
            (communication_queued_send cfg (run_ops cfg col ops s))
          = [streamed_entry cfg (run_ops cfg col ops s).global_data
              (run_ops cfg col ops s).m_parameter_i]
        ∧ emitted1 (run_ops cfg col ops s)
            (communication_queued_send cfg (run_ops cfg col ops s))
          = [streamed_entry cfg (run_ops cfg col ops s).global_data
              (run_ops cfg col ops s).m_parameter_i])) := by
  refine ⟨run_ops_cursor_le cfg col ops s (by rw [hinit]; exact Nat.zero_le _), ?_⟩
  by_cases hlt : (run_ops cfg col ops s).m_parameter_i < cfg.ONBOARD_PARAM_COUNT
  · right
    refine ⟨hlt, ?_, ?_⟩ <;>
      simp [communication_queued_send, hlt, mavlink_send, emitted0, emitted1, streamed_entry]
  · left
    exact communication_queued_send_idle cfg _ (Nat.not_lt.1 hlt)

/-- Witness of `cursor_range_invariant`: on the demo vehicle, twenty-one
calls of the pump, a param-request-list on channel 2, a receive poll of the
bytes `1, 2, 254` on `uart0`, and one more call of the pump. -/
theorem cursor_range_invariant_witness :
    (run_ops demoConf (demoSetCollab (CFloat.fin 0))
        (List.replicate 21 core_op.pump ++
          [core_op.handle mavlink_channel_t.MAVLINK_COMM_1
              (demoMsg msgid_t.MAVLINK_MSG_ID_PARAM_REQUEST_LIST),
            core_op.receive [1, 2, 254] [], core_op.pump])
        demoIdle).m_parameter_i ≤ demoConf.ONBOARD_PARAM_COUNT :=
  (cursor_range_invariant demoConf (demoSetCollab (CFloat.fin 0))
    (List.replicate 21 core_op.pump ++
      [core_op.handle mavlink_channel_t.MAVLINK_COMM_1
          (demoMsg msgid_t.MAVLINK_MSG_ID_PARAM_REQUEST_LIST),
        core_op.receive [1, 2, 254] [], core_op.pump])
    demoIdle rfl).1

/-! ## The name matcher is bounded C-string equality -/

/-- C21. The inline name matcher is C-string equality bounded by the name
length `L`: the flag computed by the loop is true exactly when the stored
name, cut at its first zero byte (or at `L` bytes if it has none), equals the
key cut in the same way; and stored names and keys that agree after this
cut get the same flag, so the bytes after a terminator do not influence the
result. -/
theorem name_match_is_cstr_equality (nameLength : Nat) (name key : List Nat) :
    (name_match nameLength name key = true ↔ cstr nameLength name = cstr nameLength key) ∧
    (∀ name2 key2 : List Nat,
      cstr nameLength name2 = cstr nameLength name →
      cstr nameLength key2 = cstr nameLength key →
      name_match nameLength name2 key2 = name_match nameLength name key) := by
  refine ⟨name_match_iff_cstr nameLength name key, ?_⟩
  intro name2 key2 hn hk
  rw [Bool.eq_iff_iff, name_match_iff_cstr, name_match_iff_cstr, hn, hk]

/-! ## The flight phase under the setpoint handler -/

/-- The phase after the phase logic of lines 551-581. -/
theorem start_or_land_fly (cfg : Conf) (sp : mavlink_set_local_position_setpoint_t)
    (s : comm_state) :
    ((start_or_land cfg sp s).global_data.state.fly = s.global_data.state.fly
      ∨ ((start_or_land cfg sp s).global_data.state.fly = fly_state.FLY_SINKING
          ∧ grounded_or_landing s.global_data.state.fly = false
          ∧ (s.global_data.state.status = mav_state.MAV_STATE_ACTIVE
            ∨ s.global_data.state.status = mav_state.MAV_STATE_CRITICAL))
      ∨ ((start_or_land cfg sp s).global_data.state.fly = fly_state.FLY_WAIT_MOTORS
          ∧ s.global_data.state.fly = fly_state.FLY_GROUNDED
          ∧ (s.global_data.state.status = mav_state.MAV_STATE_ACTIVE
            ∨ s.global_data.state.status = mav_state.MAV_STATE_CRITICAL))) := by
  unfold start_or_land
  split_ifs with h1 h2 h3 h4 h5 h6
  · right
    left
    refine ⟨by simp, ?_, h1⟩
    simpa using h3
  · left
    simp
  · left
    rfl
  · right
    right
    refine ⟨by simp, ?_, h1⟩
    simp only [Bool.and_eq_true, decide_eq_true_eq] at h5
    exact h5.1
  · left
    rfl
  · left
    rfl
  · left
    rfl

/-- The phase after the setpoint case is the phase before or the phase the
phase logic computed on the stored setpoint. -/
theorem handle_setpoint_fly (cfg : Conf) (sp : mavlink_set_local_position_setpoint_t)
    (s : comm_state) :
    (handle_set_local_position_setpoint cfg sp s).global_data.state.fly
        = s.global_data.state.fly
      ∨ (handle_set_local_position_setpoint cfg sp s).global_data.state.fly
        = (start_or_land cfg sp (store_setpoint cfg sp s)).global_data.state.fly := by
  unfold handle_set_local_position_setpoint
  split_ifs
  · right
    simp
  · left
    rfl
  · left
    rfl
  · left
    rfl

/-- C22. Flight-phase frame of the setpoint handler: after handling a
set-local-position-setpoint message the phase is the phase before,
`FLY_SINKING` or `FLY_WAIT_MOTORS`; it is the phase before whenever that
phase is one of sinking, wait-landing, landing, ramp-down, and whenever the
overall status is neither `ACTIVE` nor `CRITICAL`. -/
theorem setpoint_phase_frame (cfg : Conf) (col : Collab) (chan : mavlink_channel_t)
    (msg : mavlink_message_t) (s : comm_state)
    (hid : msg.msgid = msgid_t.MAVLINK_MSG_ID_SET_LOCAL_POSITION_SETPOINT) :
    ((handle_mavlink_message cfg col chan msg s).global_data.state.fly
        = s.global_data.state.fly
      ∨ (handle_mavlink_message cfg col chan msg s).global_data.state.fly
        = fly_state.FLY_SINKING
      ∨ (handle_mavlink_message cfg col chan msg s).global_data.state.fly
        = fly_state.FLY_WAIT_MOTORS) ∧
    (s.global_data.state.fly = fly_state.FLY_SINKING
        ∨ s.global_data.state.fly = fly_state.FLY_WAIT_LANDING
        ∨ s.global_data.state.fly = fly_state.FLY_LANDING
        ∨ s.global_data.state.fly = fly_state.FLY_RAMP_DOWN →
      (handle_mavlink_message cfg col chan msg s).global_data.state.fly
        = s.global_data.state.fly) ∧
    (s.global_data.state.status ≠ mav_state.MAV_STATE_ACTIVE
        ∧ s.global_data.state.status ≠ mav_state.MAV_STATE_CRITICAL →
      (handle_mavlink_message cfg col chan msg s).global_data.state.fly
        = s.global_data.state.fly) := by
  have hrun : handle_mavlink_message cfg col chan msg s
      = handle_set_local_position_setpoint cfg (col.set_local_position_setpoint_decode msg)
          (forward_message col chan msg s) := by
    simp only [handle_mavlink_message, dispatch_message, hid]
  have hcase := handle_setpoint_fly cfg (col.set_local_position_setpoint_decode msg)
    (forward_message col chan msg s)
  have hland := start_or_land_fly cfg (col.set_local_position_setpoint_decode msg)
    (store_setpoint cfg (col.set_local_position_setpoint_decode msg)
      (forward_message col chan msg s))
  simp only [store_setpoint_state, forward_message_global_data] at hland hcase
  rw [hrun]
  refine ⟨?_, ?_, ?_⟩
  · rcases hcase with h | h
    · exact Or.inl h
    · rw [h]
      rcases hland with h2 | h2 | h2
      · exact Or.inl h2
      · exact Or.inr (Or.inl h2.1)
      · exact Or.inr (Or.inr h2.1)
  · intro hphase
    rcases hcase with h | h
    · exact h
    · rw [h]
      rcases hland with h2 | h2 | h2
      · exact h2
      · exfalso
        have hg := h2.2.1
        rcases hphase with hp | hp | hp | hp <;> rw [hp] at hg <;> exact absurd hg (by decide)
      · exfalso
        have hg := h2.2.1
        rcases hphase with hp | hp | hp | hp <;> rw [hp] at hg <;> exact absurd hg (by decide)
  · intro hstatus
    rcases hcase with h | h
    · exact h
    · rw [h]
      rcases hland with h2 | h2 | h2
      · exact h2
      · exact absurd h2.2.2 (by simp [hstatus.1, hstatus.2])
      · exact absurd h2.2.2 (by simp [hstatus.1, hstatus.2])

/-- Witness of `setpoint_phase_frame`: the demo vehicle, active and in
`FLY_LANDING`, receives an accepted setpoint with `z = 0` and stays in
`FLY_LANDING`. -/
theorem setpoint_phase_frame_witness :
    (handle_mavlink_message demoConf
        (demoCollab (demoSetpoint (CFloat.fin 0)) (demoParamSet [] (CFloat.fin 0)))
        mavlink_channel_t.MAVLINK_COMM_0
        (demoMsg msgid_t.MAVLINK_MSG_ID_SET_LOCAL_POSITION_SETPOINT)
        (demoState 128 mav_state.MAV_STATE_ACTIVE fly_state.FLY_LANDING)).global_data.state.fly
      = (demoState 128 mav_state.MAV_STATE_ACTIVE fly_state.FLY_LANDING).global_data.state.fly :=
  (setpoint_phase_frame demoConf
    (demoCollab (demoSetpoint (CFloat.fin 0)) (demoParamSet [] (CFloat.fin 0)))
    mavlink_channel_t.MAVLINK_COMM_0
    (demoMsg msgid_t.MAVLINK_MSG_ID_SET_LOCAL_POSITION_SETPOINT)
    (demoState 128 mav_state.MAV_STATE_ACTIVE fly_state.FLY_LANDING) rfl).2.1
    (Or.inr (Or.inr (Or.inl rfl)))

/-! ## The GPS debug line buffer -/

/-- The line buffer after one byte: the byte is stored at the write
position. -/
theorem gps_debug_buffer_gps_chars (cfg : Conf) (c : Nat) (s : comm_state) :
    (gps_debug_buffer cfg c s).gps_chars = s.gps_chars.set (gps_write_position cfg c s) c := by
  unfold gps_debug_buffer gps_write_position
  simp only []
  split_ifs <;> rfl

/-- The write index after one byte: one past the write position, as a
`uint8_t`. -/
theorem gps_debug_buffer_gps_i (cfg : Conf) (c : Nat) (s : comm_state) :
    (gps_debug_buffer cfg c s).gps_i = (gps_write_position cfg c s + 1) % 256 := by
  unfold gps_debug_buffer gps_write_position
  simp only []
  split_ifs <;> rfl

/-- The debug log after one byte: one more line exactly when the flush test
of line 713 holds. -/
theorem gps_debug_buffer_debug_log (cfg : Conf) (c : Nat) (s : comm_state) :
    (gps_debug_buffer cfg c s).debug_log
      = if c = 36 ∨ s.gps_i + 1 = cfg.MAVLINK_MSG_STATUSTEXT_FIELD_TEXT_LEN then
          s.debug_log ++
            [debug_entry.chars (strncpy s.gps_chars cfg.MAVLINK_MSG_STATUSTEXT_FIELD_TEXT_LEN)]
        else s.debug_log := by
  unfold gps_debug_buffer
  simp only []
  split_ifs <;> rfl

theorem gps_debug_buffer_global_data (cfg : Conf) (c : Nat) (s : comm_state) :
    (gps_debug_buffer cfg c s).global_data = s.global_data := by
  unfold gps_debug_buffer
  simp only []
  split_ifs <;> rfl

/-- What the raw-GPS branch does to the line buffer, the write index, the
debug log and the link modes when the debug sub-mode is on: the line buffer
code of lines 711-723 and nothing else. -/
theorem uart1_gps_byte_debug (cfg : Conf) (col : Collab) (c : Nat) (s : comm_state)
    (hdebug : s.global_data.state.gps_mode = 10) :
    (uart1_gps_byte cfg col c s).gps_chars = (gps_debug_buffer cfg c s).gps_chars ∧
    (uart1_gps_byte cfg col c s).gps_i = (gps_debug_buffer cfg c s).gps_i ∧
    (uart1_gps_byte cfg col c s).debug_log = (gps_debug_buffer cfg c s).debug_log ∧
    (uart1_gps_byte cfg col c s).global_data.state.uart1mode = s.global_data.state.uart1mode ∧
    (uart1_gps_byte cfg col c s).global_data.state.gps_mode = s.global_data.state.gps_mode := by
  unfold uart1_gps_byte
  simp only [hdebug, if_true]
  split_ifs <;> simp [on_global, gps_debug_buffer_global_data, hdebug]

/-- The write position is below `LEN - 1` while the write index is at most
`LEN - 1`. -/
theorem gps_write_position_lt (cfg : Conf) (c : Nat) (s : comm_state)
    (hlen : 2 ≤ cfg.MAVLINK_MSG_STATUSTEXT_FIELD_TEXT_LEN)
    (h : s.gps_i ≤ cfg.MAVLINK_MSG_STATUSTEXT_FIELD_TEXT_LEN - 1) :
    gps_write_position cfg c s < cfg.MAVLINK_MSG_STATUSTEXT_FIELD_TEXT_LEN - 1 := by
  unfold gps_write_position
  split_ifs with hf
  · omega
  · have h2 : ¬ (s.gps_i + 1 = cfg.MAVLINK_MSG_STATUSTEXT_FIELD_TEXT_LEN) := fun h3 => hf (Or.inr h3)
    omega

/-- One byte in raw-GPS mode with the debug sub-mode on keeps the modes, the
bound on the write index and the length of the line buffer. -/
theorem uart1_byte_gps_inv (cfg : Conf) (col : Collab) (c : Nat)
    (st : comm_state × mavlink_status_t)
    (hlen : 2 ≤ cfg.MAVLINK_MSG_STATUSTEXT_FIELD_TEXT_LEN)
    (hmode : st.1.global_data.state.uart1mode = uart_mode.UART_MODE_GPS)
    (hdebug : st.1.global_data.state.gps_mode = 10)
    (hi : st.1.gps_i ≤ cfg.MAVLINK_MSG_STATUSTEXT_FIELD_TEXT_LEN - 1) :
    (uart1_byte cfg col c st).1 = uart1_gps_byte cfg col c st.1 ∧
    (uart1_byte cfg col c st).1.global_data.state.uart1mode = uart_mode.UART_MODE_GPS ∧
    (uart1_byte cfg col c st).1.global_data.state.gps_mode = 10 ∧
    (uart1_byte cfg col c st).1.gps_i ≤ cfg.MAVLINK_MSG_STATUSTEXT_FIELD_TEXT_LEN - 1 ∧
    (uart1_byte cfg col c st).1.gps_chars.length = st.1.gps_chars.length := by
  have hstep : (uart1_byte cfg col c st).1 = uart1_gps_byte cfg col c st.1 := by
    unfold uart1_byte
    simp [hmode]
  obtain ⟨h1, h2, _, h4, h5⟩ := uart1_gps_byte_debug cfg col c st.1 hdebug
  have hpos := gps_write_position_lt cfg c st.1 hlen hi
  refine ⟨hstep, ?_, ?_, ?_, ?_⟩
  · rw [hstep, h4, hmode]
  · rw [hstep, h5, hdebug]
  · rw [hstep, h2, gps_debug_buffer_gps_i]
    have := Nat.mod_le (gps_write_position cfg c st.1 + 1) 256
    omega
  · rw [hstep, h1, gps_debug_buffer_gps_chars, List.length_set]

/-- Any sequence of bytes in raw-GPS mode with the debug sub-mode on keeps
the modes, the bound on the write index and the length of the line buffer. -/
theorem uart1_loop_gps_inv (cfg : Conf) (col : Collab) (bs : List Nat)
    (st : comm_state × mavlink_status_t)
    (hlen : 2 ≤ cfg.MAVLINK_MSG_STATUSTEXT_FIELD_TEXT_LEN)
    (hmode : st.1.global_data.state.uart1mode = uart_mode.UART_MODE_GPS)
    (hdebug : st.1.global_data.state.gps_mode = 10)
    (hi : st.1.gps_i ≤ cfg.MAVLINK_MSG_STATUSTEXT_FIELD_TEXT_LEN - 1) :
    (uart1_loop cfg col bs st).1.global_data.state.uart1mode = uart_mode.UART_MODE_GPS ∧
    (uart1_loop cfg col bs st).1.global_data.state.gps_mode = 10 ∧
    (uart1_loop cfg col bs st).1.gps_i ≤ cfg.MAVLINK_MSG_STATUSTEXT_FIELD_TEXT_LEN - 1 ∧
    (uart1_loop cfg col bs st).1.gps_chars.length = st.1.gps_chars.length := by
  induction bs generalizing st with
  | nil => exact ⟨hmode, hdebug, hi, rfl⟩
  | cons c cs ih =>
      rw [uart1_loop]
      obtain ⟨_, h2, h3, h4, h5⟩ := uart1_byte_gps_inv cfg col c
        ({ st.1 with uart1_rx := cs }, st.2) hlen hmode hdebug hi
      obtain ⟨k2, k3, k4, k5⟩ := ih _ h2 h3 h4
      exact ⟨k2, k3, k4, k5.trans h5⟩

/-- C23. The GPS debug line buffer stays in bounds: in raw-GPS mode with
the debug sub-mode on, starting from `gps_i = 0` and whatever bytes `bs` were
received, the write index `gps_i` is at most `LEN - 1` before the next byte
`c` is handled; the position that byte is written to is strictly below
`LEN - 1`, hence inside the buffer of `LEN` bytes, whose length never
changes; and handling the byte flushes one line to the debug log exactly when
the byte is `'$'` or the index has reached `LEN - 1`.
`LEN = MAVLINK_MSG_STATUSTEXT_FIELD_TEXT_LEN` is taken to be at least 2. -/
theorem gps_debug_buffer_in_bounds (cfg : Conf) (col : Collab) (bs : List Nat) (c : Nat)
    (s : comm_state) (st : mavlink_status_t)
    (hlen : 2 ≤ cfg.MAVLINK_MSG_STATUSTEXT_FIELD_TEXT_LEN)
    (hmode : s.global_data.state.uart1mode = uart_mode.UART_MODE_GPS)
    (hdebug : s.global_data.state.gps_mode = 10)
    (hinit : s.gps_i = 0) :
    (uart1_loop cfg col bs (s, st)).1.gps_i ≤ cfg.MAVLINK_MSG_STATUSTEXT_FIELD_TEXT_LEN - 1 ∧
    gps_write_position cfg c (uart1_loop cfg col bs (s, st)).1
      < cfg.MAVLINK_MSG_STATUSTEXT_FIELD_TEXT_LEN - 1 ∧
    (uart1_byte cfg col c (uart1_loop cfg col bs (s, st))).1.gps_chars
      = (uart1_loop cfg col bs (s, st)).1.gps_chars.set
          (gps_write_position cfg c (uart1_loop cfg col bs (s, st)).1) c ∧
    (uart1_loop cfg col bs (s, st)).1.gps_chars.length = s.gps_chars.length ∧
    (s.gps_chars.length = cfg.MAVLINK_MSG_STATUSTEXT_FIELD_TEXT_LEN →
      gps_write_position cfg c (uart1_loop cfg col bs (s, st)).1
        < (uart1_loop cfg col bs (s, st)).1.gps_chars.length) ∧
    (c = 36 ∨ (uart1_loop cfg col bs (s, st)).1.gps_i
          = cfg.MAVLINK_MSG_STATUSTEXT_FIELD_TEXT_LEN - 1 →
      (uart1_byte cfg col c (uart1_loop cfg col bs (s, st))).1.debug_log
        = (uart1_loop cfg col bs (s, st)).1.debug_log ++
          [debug_entry.chars (strncpy (uart1_loop cfg col bs (s, st)).1.gps_chars
            cfg.MAVLINK_MSG_STATUSTEXT_FIELD_TEXT_LEN)]) ∧
    (¬ (c = 36 ∨ (uart1_loop cfg col bs (s, st)).1.gps_i
          = cfg.MAVLINK_MSG_STATUSTEXT_FIELD_TEXT_LEN - 1) →
      (uart1_byte cfg col c (uart1_loop cfg col bs (s, st))).1.debug_log
        = (uart1_loop cfg col bs (s, st)).1.debug_log) := by
  obtain ⟨tmode, tdebug, ti, tbuf⟩ := uart1_loop_gps_inv cfg col bs (s, st) hlen hmode hdebug
    (by simp only [hinit]; exact Nat.zero_le _)
  generalize uart1_loop cfg col bs (s, st) = t at tmode tdebug ti tbuf ⊢
  have hpos := gps_write_position_lt cfg c t.1 hlen ti
  obtain ⟨hstep, _, _, _, _⟩ := uart1_byte_gps_inv cfg col c t hlen tmode tdebug ti
  obtain ⟨h1, _, h3, _, _⟩ := uart1_gps_byte_debug cfg col c t.1 tdebug
  have hflush : (c = 36 ∨ t.1.gps_i = cfg.MAVLINK_MSG_STATUSTEXT_FIELD_TEXT_LEN - 1)
      ↔ (c = 36 ∨ t.1.gps_i + 1 = cfg.MAVLINK_MSG_STATUSTEXT_FIELD_TEXT_LEN) := by
    constructor
    · rintro (h | h)
      · exact Or.inl h
      · exact Or.inr (by omega)
    · rintro (h | h)
      · exact Or.inl h
      · exact Or.inr (by omega)
  refine ⟨ti, hpos, ?_, tbuf, ?_, ?_, ?_⟩
  · rw [hstep, h1, gps_debug_buffer_gps_chars]
  · intro hbuf
    rw [tbuf, hbuf]
    omega
  · intro hf
    rw [hstep, h3, gps_debug_buffer_debug_log, if_pos (hflush.1 hf)]
  · intro hf
    rw [hstep, h3, gps_debug_buffer_debug_log, if_neg (fun h => hf (hflush.2 h))]

/-- Witness of `gps_debug_buffer_in_bounds`: the demo vehicle in raw-GPS
debug mode (buffer of 50 bytes) has received `"$GP"` and handles `'$'`. -/
theorem gps_debug_buffer_in_bounds_witness :
    (uart1_loop demoConf (demoSetCollab (CFloat.fin 0)) [36, 71, 80]
        (demoGps, status_zero)).1.gps_i ≤ demoConf.MAVLINK_MSG_STATUSTEXT_FIELD_TEXT_LEN - 1 ∧
    gps_write_position demoConf 36
        (uart1_loop demoConf (demoSetCollab (CFloat.fin 0)) [36, 71, 80]
          (demoGps, status_zero)).1
      < demoConf.MAVLINK_MSG_STATUSTEXT_FIELD_TEXT_LEN - 1 ∧
    gps_write_position demoConf 36
        (uart1_loop demoConf (demoSetCollab (CFloat.fin 0)) [36, 71, 80]
          (demoGps, status_zero)).1
      < (uart1_loop demoConf (demoSetCollab (CFloat.fin 0)) [36, 71, 80]
          (demoGps, status_zero)).1.gps_chars.length :=
  have h := gps_debug_buffer_in_bounds demoConf (demoSetCollab (CFloat.fin 0)) [36, 71, 80] 36
    demoGps status_zero (by decide) rfl rfl rfl
  ⟨h.1, h.2.1, h.2.2.2.2.1 (by decide)⟩

end ImuAutopilot
